import Mathlib

/-!
libARDataTransfer: the data downloader (`Sources/ARDATATRANSFER_DataDownloader.c`).

A shallow embedding of the data downloader: the worker `ThreadRun` with its
reconciliation cycle, the lifecycle operations `Delete` and `CancelThread`, and the
quota enforcer `CheckUsedMemory` with its two directory-walk callbacks.

Conventions of the embedding.

* A C string is the list of its bytes before the terminating NUL (`CStr`).
* A pointer that may be `NULL` is an `Option`.
* Calls into libARUtils, libARSAL and libc are recorded, in program order, in a list of
  `Op`; what such a call returns is read from an environment record.
* `size_t` arithmetic is arithmetic modulo `2 ^ 64`.
* The `double` accumulators of the quota enforcer are exact rationals.
-/

namespace ARDataTransfer

/-! ## Data model -/

/-- A C string: its bytes before the terminating NUL. -/
abbrev CStr := List Char

/-- The libARUtils error codes the downloader distinguishes: success, the cancelled
outcome, and every other code (kept by number). -/
inductive eARUTILS_ERROR where
  | ARUTILS_OK
  | ARUTILS_ERROR_FTP_CANCELED
  | ARUTILS_ERROR_OTHER (code : Nat)
  deriving DecidableEq, Repr

/-- The error codes of libARDataTransfer that the data downloader returns. -/
inductive eARDATATRANSFER_ERROR where
  | ARDATATRANSFER_OK
  | ARDATATRANSFER_ERROR_ALLOC
  | ARDATATRANSFER_ERROR_BAD_PARAMETER
  | ARDATATRANSFER_ERROR_NOT_INITIALIZED
  | ARDATATRANSFER_ERROR_ALREADY_INITIALIZED
  | ARDATATRANSFER_ERROR_THREAD_ALREADY_RUNNING
  | ARDATATRANSFER_ERROR_THREAD_PROCESSING
  | ARDATATRANSFER_ERROR_CANCELED
  | ARDATATRANSFER_ERROR_SYSTEM
  | ARDATATRANSFER_ERROR_FTP
  deriving DecidableEq, Repr

open eARUTILS_ERROR eARDATATRANSFER_ERROR

/-- The constants the source reads from headers that are not part of the source file:
the size of a path buffer, the in-progress marker, and the `errno` value of a timeout. -/
structure Constants where
  ARUTILS_FTP_MAX_PATH_SIZE : Nat
  ARDATATRANSFER_MANAGER_DOWNLOADER_PREFIX_DOWNLOADING : CStr
  ETIMEDOUT : Int
  deriving DecidableEq

/-- The macro `ARDATATRANSFER_DATA_DOWNLOADER_WAIT_TIME_IN_SECONDS`. -/
def ARDATATRANSFER_DATA_DOWNLOADER_WAIT_TIME_IN_SECONDS : Nat := 10

/-- The macro `ARDATATRANSFER_DATA_DOWNLOADER_FTP_ROOT`. -/
def ARDATATRANSFER_DATA_DOWNLOADER_FTP_ROOT : CStr := "data".toList

/-- The macro `ARDATATRANSFER_DATA_DOWNLOADER_SPACE_PERCENT` (`20.f`). -/
def ARDATATRANSFER_DATA_DOWNLOADER_SPACE_PERCENT : ℚ := 20

/-- The session `ARDATATRANSFER_DataDownloader_t`, by the fields the source uses. The
semaphore `threadSem` has no field of its own: the calls on it are recorded as `Op`s. -/
structure ARDATATRANSFER_DataDownloader_t where
  isCanceled : Int
  isRunning : Int
  ftp : Option Nat
  localDirectory : CStr
  deriving DecidableEq, Repr

/-- The manager `ARDATATRANSFER_Manager_t`, by the one field the source uses. -/
structure ARDATATRANSFER_Manager_t where
  dataDownloader : Option ARDATATRANSFER_DataDownloader_t
  deriving DecidableEq, Repr

/-- The calls the downloader makes on its collaborators, with their arguments. -/
inductive Op where
  | ARUTILS_Ftp_List (remotePath : CStr)
  | ARUTILS_Ftp_Get (remotePath localPath : CStr) (resume : Bool)
  | ARUTILS_Ftp_Delete (remotePath : CStr)
  | ARUTILS_Ftp_Rename (oldPath newPath : CStr)
  | ARUTILS_FileSystem_Rename (oldName newName : CStr)
  | ARDATATRANSFER_DataDownloader_CheckUsedMemory (localPath : CStr) (spacePercent : ℚ)
  | ARSAL_Sem_Timedwait (seconds : Nat)
  | ARSAL_Sem_Post
  | ARUTILS_Ftp_Connection_Delete
  | ARSAL_Sem_Destroy
  | free
  | calloc
  | ARSAL_Sem_Init
  | mkdir (path : CStr)
  | ARUTILS_Ftp_Connection_New (server : CStr) (port : Int)
  deriving DecidableEq

/-- The constant `FTP_RESUME_TRUE`. -/
def FTP_RESUME_TRUE : Bool := true

/-- The constant `FTP_RESUME_FALSE`. -/
def FTP_RESUME_FALSE : Bool := false

/-! ## Bounded string building -/

/-- Subtraction of `size_t` values: modulo `2 ^ 64`. -/
def size_t_sub (a b : Nat) : Nat :=
  (a % 18446744073709551616 + 18446744073709551616 - b % 18446744073709551616)
    % 18446744073709551616

/-- The libc `strlen`. -/
def strlen (s : CStr) : Nat := s.length

/-- The libc `strncpy(dst, src, n)` into a buffer: the bytes `dst` holds afterwards, up to
the first NUL or to `n` bytes when `src` has no NUL within them. -/
def strncpy (src : CStr) (n : Nat) : CStr := src.take n

/-- The assignment `buffer[i] = 0` on a buffer just filled by `strncpy`: the string
it holds ends at `i` at the latest. -/
def terminate (buffer : CStr) (i : Nat) : CStr := buffer.take i

/-- The libc `strncat(dst, src, n)`: at most `n` bytes of `src` are appended. -/
def strncat (dst src : CStr) (n : Nat) : CStr := dst ++ src.take n

/-- The statement pair `strncpy(buffer, src, MAX); buffer[MAX - 1] = 0`. -/
def copyPath (k : Constants) (src : CStr) : CStr :=
  terminate (strncpy src k.ARUTILS_FTP_MAX_PATH_SIZE) (k.ARUTILS_FTP_MAX_PATH_SIZE - 1)

/-- The statement `strncat(buffer, src, MAX - strlen(buffer) - 1)`. -/
def catPath (k : Constants) (buffer src : CStr) : CStr :=
  strncat buffer src (size_t_sub (size_t_sub k.ARUTILS_FTP_MAX_PATH_SIZE (strlen buffer)) 1)

/-- The libc `strncmp(a, b, n) != 0`: the first `n` bytes of the two strings differ. -/
def strncmp_ne (a b : CStr) (n : Nat) : Bool := a.take n != b.take n

/-- The libc `strstr(haystack, needle)`: the tail of `haystack` at the first occurrence
of `needle`, `none` (NULL) when there is none. -/
def strstr : CStr → CStr → Option CStr
  | [], needle => if needle = [] then some [] else none
  | c :: cs, needle =>
    if needle.isPrefixOf (c :: cs) then some (c :: cs) else strstr cs needle

/-- Modelled from the spec: `ARDATATRANSFER_Manager_List_GetNextItem` is defined in
`ARDATATRANSFER_Manager.c`, which is not among the sources. The listing is the sequence
of its entry names; the function is given by the names that successive calls return,
from a fresh cursor until `NULL`: with a prefix, the entries whose name carries that
prefix, in listing order; with the `NULL` prefix, every entry, in listing order. -/
def ARDATATRANSFER_Manager_List_GetNextItem (resultList : List CStr) :
    Option CStr → List CStr
  | none => resultList
  | some pfx => resultList.filter fun name => pfx.isPrefixOf name

/-! ## The reconciliation cycle of `ThreadRun` -/

/-- What the collaborators return during one cycle of the worker loop. `outcome i` is the
error code of the `i`-th libARUtils call of the cycle, the list call being call `0`;
`resultList` holds the entry names of the listing; `semResultSys` and `semErrno` are the
return value of `ARSAL_Sem_Timedwait` and the `errno` it leaves. -/
structure CycleEnv where
  outcome : Nat → eARUTILS_ERROR
  resultList : List CStr
  semResultSys : Int
  semErrno : Int

/-- The `remotePath` of the first loop (lines 208-210). -/
def resumeRemotePath (k : Constants) (fileName : CStr) : CStr :=
  let remotePath := copyPath k (ARDATATRANSFER_DATA_DOWNLOADER_FTP_ROOT ++ "/".toList)
  catPath k remotePath fileName

/-- The `localPath` of the first loop (lines 211-214). -/
def resumeLocalPath (k : Constants) (localDirectory fileName : CStr) : CStr :=
  let localPath := copyPath k localDirectory
  let localPath :=
    catPath k localPath ("/".toList ++ ARDATATRANSFER_DATA_DOWNLOADER_FTP_ROOT ++ "/".toList)
  catPath k localPath fileName

/-- The `restoreName` of the first loop (lines 222-225). -/
def resumeRestoreName (k : Constants) (localDirectory fileName : CStr) : CStr :=
  let restoreName := copyPath k localDirectory
  let restoreName :=
    catPath k restoreName ("/".toList ++ ARDATATRANSFER_DATA_DOWNLOADER_FTP_ROOT ++ "/".toList)
  catPath k restoreName
    (fileName.drop (strlen k.ARDATATRANSFER_MANAGER_DOWNLOADER_PREFIX_DOWNLOADING))

/-- The `initialPath` of the second loop (lines 242-244). -/
def newerInitialPath (k : Constants) (fileName : CStr) : CStr :=
  let initialPath := copyPath k (ARDATATRANSFER_DATA_DOWNLOADER_FTP_ROOT ++ "/".toList)
  catPath k initialPath fileName

/-- The `remotePath` of the second loop (lines 245-247). -/
def newerRemotePath (k : Constants) (fileName : CStr) : CStr :=
  let remotePath := copyPath k (ARDATATRANSFER_DATA_DOWNLOADER_FTP_ROOT ++ "/".toList
    ++ k.ARDATATRANSFER_MANAGER_DOWNLOADER_PREFIX_DOWNLOADING)
  catPath k remotePath fileName

/-- The `localPath` of the second loop (lines 248-251). -/
def newerLocalPath (k : Constants) (localDirectory fileName : CStr) : CStr :=
  let localPath := copyPath k localDirectory
  let localPath := catPath k localPath
    ("/".toList ++ ARDATATRANSFER_DATA_DOWNLOADER_FTP_ROOT ++ "/".toList
      ++ k.ARDATATRANSFER_MANAGER_DOWNLOADER_PREFIX_DOWNLOADING)
  catPath k localPath fileName

/-- The `restoreName` of the second loop (lines 264-267). -/
def newerRestoreName (k : Constants) (localDirectory fileName : CStr) : CStr :=
  let restoreName := copyPath k localDirectory
  let restoreName :=
    catPath k restoreName ("/".toList ++ ARDATATRANSFER_DATA_DOWNLOADER_FTP_ROOT ++ "/".toList)
  catPath k restoreName fileName

/-- The `localPath` handed to the quota check (lines 283-285). -/
def quotaLocalPath (k : Constants) (localDirectory : CStr) : CStr :=
  let localPath := copyPath k localDirectory
  catPath k localPath ("/".toList ++ ARDATATRANSFER_DATA_DOWNLOADER_FTP_ROOT)

/-- The body of the first `while` loop (lines 206-228), for one `fileName`: `t` holds the
calls of the cycle so far, and the next call reads `e.outcome t.length`. The codes that
`ARUTILS_Ftp_Delete` and `ARUTILS_FileSystem_Rename` return are stored and never read. -/
def resumeBody (k : Constants) (localDirectory : CStr) (e : CycleEnv) (t : List Op)
    (fileName : CStr) : List Op :=
  let remotePath := resumeRemotePath k fileName
  let localPath := resumeLocalPath k localDirectory fileName
  let errorFtp := e.outcome t.length
  let t := t ++ [Op.ARUTILS_Ftp_Get remotePath localPath FTP_RESUME_TRUE]
  if errorFtp = ARUTILS_OK then
    let t := t ++ [Op.ARUTILS_Ftp_Delete remotePath]
    let restoreName := resumeRestoreName k localDirectory fileName
    t ++ [Op.ARUTILS_FileSystem_Rename localPath restoreName]
  else t

/-- The body of the second `while` loop (lines 237-271), for one `fileName`. -/
def newerBody (k : Constants) (localDirectory : CStr) (e : CycleEnv) (t : List Op)
    (fileName : CStr) : List Op :=
  if strncmp_ne fileName k.ARDATATRANSFER_MANAGER_DOWNLOADER_PREFIX_DOWNLOADING
      (strlen k.ARDATATRANSFER_MANAGER_DOWNLOADER_PREFIX_DOWNLOADING) then
    let initialPath := newerInitialPath k fileName
    let remotePath := newerRemotePath k fileName
    let localPath := newerLocalPath k localDirectory fileName
    let errorFtp := e.outcome t.length
    let t := t ++ [Op.ARUTILS_Ftp_Rename initialPath remotePath]
    let (errorFtp, t) :=
      if errorFtp = ARUTILS_OK then
        (e.outcome t.length, t ++ [Op.ARUTILS_Ftp_Get remotePath localPath FTP_RESUME_FALSE])
      else (errorFtp, t)
    if errorFtp = ARUTILS_OK then
      let t := t ++ [Op.ARUTILS_Ftp_Delete remotePath]
      let restoreName := newerRestoreName k localDirectory fileName
      t ++ [Op.ARUTILS_FileSystem_Rename localPath restoreName]
    else t
  else t

/-- One pass of the `do ... while` body of `ThreadRun` (lines 189-290): the calls it makes,
in program order, ending with the timed wait. The code that `CheckUsedMemory` returns is
dropped by the source. -/
def cycle (k : Constants) (localDirectory : CStr) (e : CycleEnv) : List Op :=
  let error := e.outcome 0
  let t := [Op.ARUTILS_Ftp_List ARDATATRANSFER_DATA_DOWNLOADER_FTP_ROOT]
  -- Resume downloading_ files loop
  let t :=
    if error = ARUTILS_OK then
      (ARDATATRANSFER_Manager_List_GetNextItem e.resultList
        (some k.ARDATATRANSFER_MANAGER_DOWNLOADER_PREFIX_DOWNLOADING)).foldl
        (resumeBody k localDirectory e) t
    else t
  -- Newer files loop
  let t :=
    if error = ARUTILS_OK then
      (ARDATATRANSFER_Manager_List_GetNextItem e.resultList none).foldl
        (newerBody k localDirectory e) t
    else t
  let t :=
    if error ≠ ARUTILS_ERROR_FTP_CANCELED then
      t ++ [Op.ARDATATRANSFER_DataDownloader_CheckUsedMemory (quotaLocalPath k localDirectory)
        ARDATATRANSFER_DATA_DOWNLOADER_SPACE_PERCENT]
    else t
  t ++ [Op.ARSAL_Sem_Timedwait ARDATATRANSFER_DATA_DOWNLOADER_WAIT_TIME_IN_SECONDS]

/-! ## The worker `ThreadRun` -/

/-- What is observed of the `do ... while` loop of `ThreadRun` over its first cycles: the
calls made, the number of cycles run, and whether the loop condition has turned false. -/
structure LoopRun where
  trace : List Op
  cycles : Nat
  exited : Bool
  deriving DecidableEq

/-- The `do ... while ((resultSys == -1) && (errno == ETIMEDOUT))` loop of `ThreadRun`
(lines 187-292), observed for at most `fuel` cycles; cycle `c` runs in the environment
`envs c`. -/
def workerLoop (k : Constants) (localDirectory : CStr) (envs : Nat → CycleEnv) :
    Nat → Nat → LoopRun
  | 0, _ => { trace := [], cycles := 0, exited := false }
  | fuel + 1, c =>
    let t := cycle k localDirectory (envs c)
    let resultSys := (envs c).semResultSys
    let errno := (envs c).semErrno
    if resultSys = -1 ∧ errno = k.ETIMEDOUT then
      let r := workerLoop k localDirectory envs fuel (c + 1)
      { trace := t ++ r.trace, cycles := r.cycles + 1, exited := r.exited }
    else { trace := t, cycles := 1, exited := true }

/-- What is observed of a call of `ThreadRun`: the final value of its local `result` (the
C function itself returns `NULL`), the manager as the call leaves it (as it is while the
loop runs, when the call has not returned within the observed cycles), the calls made,
the cycles run and whether the call has returned. -/
structure ThreadRunResult where
  result : eARDATATRANSFER_ERROR
  manager : Option ARDATATRANSFER_Manager_t
  trace : List Op
  cycles : Nat
  returned : Bool
  deriving DecidableEq

/-- The checks at the head of `ThreadRun` (lines 156-174): the value of `result` when the
function reaches line 176. -/
def ThreadRun_check : Option ARDATATRANSFER_Manager_t → eARDATATRANSFER_ERROR
  | none => ARDATATRANSFER_ERROR_BAD_PARAMETER
  | some manager =>
    match manager.dataDownloader with
    | none => ARDATATRANSFER_ERROR_NOT_INITIALIZED
    | some dataDownloader =>
      if dataDownloader.isCanceled ≠ 0 then ARDATATRANSFER_ERROR_CANCELED
      else if dataDownloader.isRunning ≠ 0 then ARDATATRANSFER_ERROR_THREAD_ALREADY_RUNNING
      else ARDATATRANSFER_OK

/-- The assignment `manager->dataDownloader->isRunning = v`, made when neither pointer is
`NULL`. -/
def setIsRunning (v : Int) : Option ARDATATRANSFER_Manager_t → Option ARDATATRANSFER_Manager_t
  | some { dataDownloader := some dataDownloader } =>
    some { dataDownloader := some { dataDownloader with isRunning := v } }
  | manager => manager

/-- The session's `localDirectory`, read by the loop when both pointers are set. -/
def localDirectoryOf : Option ARDATATRANSFER_Manager_t → CStr
  | some { dataDownloader := some dataDownloader } => dataDownloader.localDirectory
  | _ => []

/-- The function `ARDATATRANSFER_DataDownloader_ThreadRun`, observed for at most `fuel`
cycles of its loop. -/
def ARDATATRANSFER_DataDownloader_ThreadRun (k : Constants) (envs : Nat → CycleEnv)
    (fuel : Nat) (managerArg : Option ARDATATRANSFER_Manager_t) : ThreadRunResult :=
  let manager := managerArg
  let result := ThreadRun_check manager
  if result = ARDATATRANSFER_OK then
    let manager := setIsRunning 1 manager
    let r := workerLoop k (localDirectoryOf manager) envs fuel 0
    if r.exited then
      { result := result, manager := setIsRunning 0 manager, trace := r.trace,
        cycles := r.cycles, returned := true }
    else
      { result := result, manager := manager, trace := r.trace,
        cycles := r.cycles, returned := false }
  else
    { result := result, manager := setIsRunning 0 manager, trace := [],
      cycles := 0, returned := true }

/-! ## Cancel and teardown -/

/-- The function `ARDATATRANSFER_DataDownloader_CancelThread`; `semPost` is what
`ARSAL_Sem_Post` returns. The result is the error code, the manager afterwards and the
calls made. -/
def ARDATATRANSFER_DataDownloader_CancelThread (semPost : Int) :
    Option ARDATATRANSFER_Manager_t →
      eARDATATRANSFER_ERROR × Option ARDATATRANSFER_Manager_t × List Op
  | none => (ARDATATRANSFER_ERROR_BAD_PARAMETER, none, [])
  | some manager =>
    match manager.dataDownloader with
    | none => (ARDATATRANSFER_ERROR_NOT_INITIALIZED, some manager, [])
    | some dataDownloader =>
      let manager : ARDATATRANSFER_Manager_t :=
        { dataDownloader := some { dataDownloader with isCanceled := 1 } }
      let resultSys := semPost
      (if resultSys ≠ 0 then ARDATATRANSFER_ERROR_SYSTEM else ARDATATRANSFER_OK,
        some manager, [Op.ARSAL_Sem_Post])

/-- The function `ARDATATRANSFER_DataDownloader_Clear`, called with a session in place:
the connection is closed when there is one. -/
def ARDATATRANSFER_DataDownloader_Clear :
    Option ARDATATRANSFER_Manager_t → Option ARDATATRANSFER_Manager_t × List Op
  | some { dataDownloader := some dataDownloader } =>
    if dataDownloader.ftp ≠ none then
      (some { dataDownloader := some { dataDownloader with ftp := none } },
        [Op.ARUTILS_Ftp_Connection_Delete])
    else (some { dataDownloader := some dataDownloader }, [])
  | manager => (manager, [])

/-- The function `ARDATATRANSFER_DataDownloader_Delete`; `semPost` is what
`ARSAL_Sem_Post` returns inside `CancelThread`. The result is the error code, the manager
afterwards and the calls made. -/
def ARDATATRANSFER_DataDownloader_Delete (semPost : Int) :
    Option ARDATATRANSFER_Manager_t →
      eARDATATRANSFER_ERROR × Option ARDATATRANSFER_Manager_t × List Op
  | none => (ARDATATRANSFER_ERROR_BAD_PARAMETER, none, [])
  | some manager =>
    match manager.dataDownloader with
    | none => (ARDATATRANSFER_ERROR_NOT_INITIALIZED, some manager, [])
    | some dataDownloader =>
      if dataDownloader.isRunning ≠ 0 then
        (ARDATATRANSFER_ERROR_THREAD_PROCESSING, some manager, [])
      else
        let canceled := ARDATATRANSFER_DataDownloader_CancelThread semPost (some manager)
        let cleared := ARDATATRANSFER_DataDownloader_Clear canceled.2.1
        -- ARSAL_Sem_Destroy(&threadSem); free(dataDownloader); dataDownloader = NULL
        (ARDATATRANSFER_OK, some { manager with dataDownloader := none },
          canceled.2.2 ++ cleared.2 ++ [Op.ARSAL_Sem_Destroy, Op.free])

/-! ## The quota enforcer `CheckUsedMemory` -/

/-- The `typeflag` values of `ftw`. -/
inductive FtwFlag where
  | FTW_F
  | FTW_D
  | FTW_DNR
  | FTW_NS
  deriving DecidableEq, Repr

/-- One call of an `ftw` callback: the path visited, the `st_size` of its `stat` record
and its `typeflag`. -/
structure FtwEntry where
  fpath : CStr
  st_size : Int
  typeflag : FtwFlag
  deriving DecidableEq, Repr

/-- The accumulator `ARDATATRANSFER_DataDownloader_Fwt_t` (the static `dataFwt`). -/
structure ARDATATRANSFER_DataDownloader_Fwt_t where
  sum : ℚ
  allowedSpace : ℚ
  dir : CStr
  deriving DecidableEq

/-- The state the two walks thread through their callbacks: the accumulator `dataFwt`
and, in call order, the paths handed to `ARUTILS_FileSystem_RemoveFile`. -/
structure WalkState where
  dataFwt : ARDATATRANSFER_DataDownloader_Fwt_t
  removed : List CStr
  deriving DecidableEq

/-- The callback `ARDATATRANSFER_DataDownloader_UsedMemoryCallback`. -/
def ARDATATRANSFER_DataDownloader_UsedMemoryCallback (w : WalkState) (f : FtwEntry) :
    WalkState :=
  if f.typeflag = FtwFlag.FTW_F then
    { w with dataFwt := { w.dataFwt with sum := w.dataFwt.sum + (f.st_size : ℚ) } }
  else w

/-- The callback `ARDATATRANSFER_DataDownloader_RemoveDataCallback`. -/
def ARDATATRANSFER_DataDownloader_RemoveDataCallback (k : Constants) (w : WalkState)
    (f : FtwEntry) : WalkState :=
  if strstr f.fpath k.ARDATATRANSFER_MANAGER_DOWNLOADER_PREFIX_DOWNLOADING = none then
    if f.typeflag = FtwFlag.FTW_F then
      let w : WalkState :=
        if w.dataFwt.sum > w.dataFwt.allowedSpace then
          { w with removed := w.removed ++ [f.fpath] }
        else w
      { w with dataFwt := { w.dataFwt with sum := w.dataFwt.sum - (f.st_size : ℚ) } }
    else w
  else w

/-- What the collaborators of `CheckUsedMemory` return: the error code and the value of
`ARUTILS_FileSystem_GetFreeSpace`, and for each of the two `ARSAL_Ftw` walks the entries
it visits, in order, and its return value. -/
structure QuotaEnv where
  freeSpaceError : eARUTILS_ERROR
  availableSpace : ℚ
  walk1 : List FtwEntry
  walk1ResultSys : Int
  walk2 : List FtwEntry
  walk2ResultSys : Int

/-- What a call of `CheckUsedMemory` leaves: its error code, the number of `ARSAL_Ftw`
walks it made, the accumulator and the paths handed to `ARUTILS_FileSystem_RemoveFile`. -/
structure QuotaRun where
  result : eARDATATRANSFER_ERROR
  walks : Nat
  dataFwt : ARDATATRANSFER_DataDownloader_Fwt_t
  removed : List CStr
  deriving DecidableEq

/-- The function `ARDATATRANSFER_DataDownloader_CheckUsedMemory`, starting from the
accumulator `dataFwt0` that an earlier call left. -/
def ARDATATRANSFER_DataDownloader_CheckUsedMemory (k : Constants) (q : QuotaEnv)
    (dataFwt0 : ARDATATRANSFER_DataDownloader_Fwt_t) (localPath : CStr) (spacePercent : ℚ) :
    QuotaRun :=
  let error := q.freeSpaceError
  let availableSpace := q.availableSpace
  if error ≠ ARUTILS_OK then
    { result := ARDATATRANSFER_ERROR_SYSTEM, walks := 0, dataFwt := dataFwt0, removed := [] }
  else
    let w : WalkState :=
      { dataFwt := { dataFwt0 with sum := 0, dir := copyPath k localPath }, removed := [] }
    let w := q.walk1.foldl ARDATATRANSFER_DataDownloader_UsedMemoryCallback w
    if q.walk1ResultSys ≠ 0 then
      { result := ARDATATRANSFER_ERROR_SYSTEM, walks := 1, dataFwt := w.dataFwt,
        removed := w.removed }
    else
      let w : WalkState :=
        { w with dataFwt :=
            { w.dataFwt with allowedSpace := (availableSpace * spacePercent) / 100 } }
      if w.dataFwt.sum > w.dataFwt.allowedSpace then
        let w := q.walk2.foldl (ARDATATRANSFER_DataDownloader_RemoveDataCallback k) w
        if q.walk2ResultSys ≠ 0 then
          { result := ARDATATRANSFER_ERROR_SYSTEM, walks := 2, dataFwt := w.dataFwt,
            removed := w.removed }
        else
          { result := ARDATATRANSFER_OK, walks := 2, dataFwt := w.dataFwt,
            removed := w.removed }
      else
        { result := ARDATATRANSFER_OK, walks := 1, dataFwt := w.dataFwt,
          removed := w.removed }

/-- The base name of a path: what follows its last `/`. -/
def baseName (fpath : CStr) : CStr :=
  (fpath.reverse.takeWhile fun c => c != '/').reverse

/-- A file name carries the in-progress marker: it begins with it. -/
def carriesMarker (k : Constants) (name : CStr) : Prop :=
  k.ARDATATRANSFER_MANAGER_DOWNLOADER_PREFIX_DOWNLOADING <+: name

instance (k : Constants) (name : CStr) : Decidable (carriesMarker k name) := by
  unfold carriesMarker; infer_instance

/-! ## The cycle as the specification words it -/

/-- A string fits a path buffer: its bytes and the terminating NUL take at most
`ARUTILS_FTP_MAX_PATH_SIZE` bytes. -/
def fits (k : Constants) (s : CStr) : Prop := s.length + 1 ≤ k.ARUTILS_FTP_MAX_PATH_SIZE

instance (k : Constants) (s : CStr) : Decidable (fits k s) := by
  unfold fits; infer_instance

/-- The specification's steps for an entry that carries the marker: a resumable get of
`data/<name>` into `<localRoot>/data/<name>`, a remote delete of `data/<name>`, a local
rename of `<localRoot>/data/<name>` to the name without the marker. -/
def specResumeOps (k : Constants) (localRoot name : CStr) : List Op :=
  [Op.ARUTILS_Ftp_Get ("data/".toList ++ name) (localRoot ++ "/data/".toList ++ name) true,
   Op.ARUTILS_Ftp_Delete ("data/".toList ++ name),
   Op.ARUTILS_FileSystem_Rename (localRoot ++ "/data/".toList ++ name)
     (localRoot ++ "/data/".toList
       ++ name.drop k.ARDATATRANSFER_MANAGER_DOWNLOADER_PREFIX_DOWNLOADING.length)]

/-- The specification's steps for an entry without the marker: a remote rename of
`data/<name>` to `data/<marker><name>`, a non-resumable get of that into
`<localRoot>/data/<marker><name>`, a remote delete of `data/<marker><name>`, a local
rename of `<localRoot>/data/<marker><name>` to `<localRoot>/data/<name>`. -/
def specFreshOps (k : Constants) (localRoot name : CStr) : List Op :=
  let marker := k.ARDATATRANSFER_MANAGER_DOWNLOADER_PREFIX_DOWNLOADING
  [Op.ARUTILS_Ftp_Rename ("data/".toList ++ name) ("data/".toList ++ marker ++ name),
   Op.ARUTILS_Ftp_Get ("data/".toList ++ marker ++ name)
     (localRoot ++ "/data/".toList ++ marker ++ name) false,
   Op.ARUTILS_Ftp_Delete ("data/".toList ++ marker ++ name),
   Op.ARUTILS_FileSystem_Rename (localRoot ++ "/data/".toList ++ marker ++ name)
     (localRoot ++ "/data/".toList ++ name)]

/-- The specification's sequence for a cycle without failure: the steps of every entry
with the marker, in listing order, then the steps of every entry without it, in listing
order, then one quota check on `<localRoot>/data`. -/
def specCycleOps (k : Constants) (localRoot : CStr) (listing : List CStr) : List Op :=
  ((listing.filter fun name => decide (carriesMarker k name)).map
      (specResumeOps k localRoot)).flatten
    ++ ((listing.filter fun name => !decide (carriesMarker k name)).map
      (specFreshOps k localRoot)).flatten
    ++ [Op.ARDATATRANSFER_DataDownloader_CheckUsedMemory (localRoot ++ "/data".toList) 20]

/-- The longest path the cycle builds for an entry: its local in-progress path. -/
def localInProgressPath (k : Constants) (localRoot name : CStr) : CStr :=
  if carriesMarker k name then localRoot ++ "/data/".toList ++ name
  else localRoot ++ "/data/".toList
    ++ k.ARDATATRANSFER_MANAGER_DOWNLOADER_PREFIX_DOWNLOADING ++ name

/-- The header constants of the library as shipped, for the concrete runs. -/
def shipped : Constants where
  ARUTILS_FTP_MAX_PATH_SIZE := 256
  ARDATATRANSFER_MANAGER_DOWNLOADER_PREFIX_DOWNLOADING := "downloading_".toList
  ETIMEDOUT := 110

/-! ## Reading a trace -/

/-- The first step of an entry's chain: the resumable get of the first loop, or the
remote rename of the second. -/
def Op.isFirstStep : Op → Bool
  | .ARUTILS_Ftp_Get _ _ resume => resume
  | .ARUTILS_Ftp_Rename _ _ => true
  | _ => false

/-- An environment of one cycle with the listing `["a"]` in which the list call, the
remote rename and the get succeed and the remote delete (call 3) fails. -/
def deleteFailsEnv : CycleEnv where
  outcome := fun i => if i = 3 then ARUTILS_ERROR_OTHER 1 else ARUTILS_OK
  resultList := ["a".toList]
  semResultSys := -1
  semErrno := 110

/-- An environment of one cycle in which the list call fails with the code `code`. -/
def listFailsEnv (code : eARUTILS_ERROR) : CycleEnv where
  outcome := fun _ => code
  resultList := []
  semResultSys := -1
  semErrno := 110

/-- An environment of one cycle with a listing of two in-progress and two fresh entries
in which the list call succeeds and every other call fails. -/
def entriesFailEnv : CycleEnv where
  outcome := fun i => if i = 0 then ARUTILS_OK else ARUTILS_ERROR_OTHER 1
  resultList :=
    ["a".toList, "downloading_b".toList, "c".toList, "downloading_d".toList]
  semResultSys := -1
  semErrno := 110

/-- The loop condition of `ThreadRun` on the wait of a cycle: the wait returned `-1` with
`errno == ETIMEDOUT`. -/
def timedOut (k : Constants) (e : CycleEnv) : Prop :=
  e.semResultSys = -1 ∧ e.semErrno = k.ETIMEDOUT

instance (k : Constants) (e : CycleEnv) : Decidable (timedOut k e) := by
  unfold timedOut; infer_instance

/-- Cycles in which the list call fails and the wait fails with `errno == EINTR` (4): it
returns `-1`, the semaphore was not signalled, and it did not time out. -/
def waitFailsEnvs : Nat → CycleEnv := fun _ =>
  { outcome := fun _ => ARUTILS_ERROR_OTHER 1, resultList := [],
    semResultSys := -1, semErrno := 4 }

/-- A session whose worker loop is executing: `isRunning` is set, `isCanceled` is not. -/
def runningManager : Option ARDATATRANSFER_Manager_t :=
  some ⟨some
    { isCanceled := 0, isRunning := 1, ftp := some 1, localDirectory := "/sd".toList }⟩

/-- A session whose worker loop is executing and whose cancellation has been asked. -/
def runningCanceledManager : Option ARDATATRANSFER_Manager_t :=
  some ⟨some
    { isCanceled := 1, isRunning := 1, ftp := some 1, localDirectory := "/sd".toList }⟩

/-- A walk of `/sd/data` over budget: the directory itself, the finished file `a` of 5
bytes and the finished file `x_downloading_1` of 100 bytes, whose name holds the marker
in its middle. -/
def overBudgetWalk : List FtwEntry :=
  [⟨"/sd/data".toList, 4096, FtwFlag.FTW_D⟩,
   ⟨"/sd/data/a".toList, 5, FtwFlag.FTW_F⟩,
   ⟨"/sd/data/x_downloading_1".toList, 100, FtwFlag.FTW_F⟩]

/-- The quota check over `overBudgetWalk` with 50 bytes free: both walks visit the same
files and every call succeeds. -/
def overBudgetEnv : QuotaEnv where
  freeSpaceError := ARUTILS_OK
  availableSpace := 50
  walk1 := overBudgetWalk
  walk1ResultSys := 0
  walk2 := overBudgetWalk
  walk2ResultSys := 0

/-! ## Construction: `New` and `Initialize` -/

/-- The value `EEXIST` of `errno.h` (17 on Linux, Android and Darwin). -/
def EEXIST : Int := 17

/-- What the collaborators of `New` and `Initialize` return: whether `calloc` returns
`NULL`, the return value of `ARSAL_Sem_Init`, the return value of `mkdir` and the `errno`
it leaves, the handle and the error code of `ARUTILS_Ftp_Connection_New`, and the return
value of the `ARSAL_Sem_Post` made by the `Delete` of a failed `New`. -/
structure NewEnv where
  callocNull : Bool
  semInit : Int
  mkdirResultSys : Int
  mkdirErrno : Int
  ftp : Option Nat
  ftpError : eARUTILS_ERROR
  semPost : Int
  deriving DecidableEq

/-- The session that `calloc(1, sizeof(ARDATATRANSFER_DataDownloader_t))` returns: all
bytes zero. -/
def zeroedDataDownloader : ARDATATRANSFER_DataDownloader_t :=
  { isCanceled := 0, isRunning := 0, ftp := none, localDirectory := [] }

/-- An update `manager->dataDownloader-><field> = ...` of the session, made when neither
pointer is `NULL`. -/
def updateDataDownloader
    (f : ARDATATRANSFER_DataDownloader_t → ARDATATRANSFER_DataDownloader_t) :
    Option ARDATATRANSFER_Manager_t → Option ARDATATRANSFER_Manager_t
  | some { dataDownloader := some dataDownloader } =>
    some { dataDownloader := some (f dataDownloader) }
  | manager => manager

/-- The function `ARDATATRANSFER_DataDownloader_Initialize` (lines 343-387); `New` calls
it with a session in place. The result is the error code, the manager afterwards and the
calls made. -/
def ARDATATRANSFER_DataDownloader_Initialize (k : Constants) (env : NewEnv)
    (manager : Option ARDATATRANSFER_Manager_t) (deviceIP : Option CStr) (port : Int)
    (localDirectory : Option CStr) :
    eARDATATRANSFER_ERROR × Option ARDATATRANSFER_Manager_t × List Op :=
  match manager, deviceIP, localDirectory with
  | some _, some deviceIP, some localDirectory =>
    let manager :=
      updateDataDownloader (fun d => { d with localDirectory := copyPath k localDirectory })
        manager
    let localPath := copyPath k localDirectory
    let localPath :=
      catPath k localPath ("/".toList ++ ARDATATRANSFER_DATA_DOWNLOADER_FTP_ROOT)
    let resultSys := env.mkdirResultSys
    let errno := env.mkdirErrno
    if resultSys ≠ 0 ∧ EEXIST ≠ errno then
      (ARDATATRANSFER_ERROR_SYSTEM, manager, [Op.mkdir localPath])
    else
      let manager := updateDataDownloader (fun d => { d with ftp := env.ftp }) manager
      let error := env.ftpError
      (if error ≠ ARUTILS_OK then ARDATATRANSFER_ERROR_FTP else ARDATATRANSFER_OK, manager,
        [Op.mkdir localPath, Op.ARUTILS_Ftp_Connection_New deviceIP port])
  | _, _, _ => (ARDATATRANSFER_ERROR_BAD_PARAMETER, manager, [])

/-- The tail of `New` (lines 101-106): a result other than OK and ALREADY_INITIALIZED
makes `New` call `Delete`, whose own result is dropped. -/
def New_finish (env : NewEnv)
    (r : eARDATATRANSFER_ERROR × Option ARDATATRANSFER_Manager_t × List Op) :
    eARDATATRANSFER_ERROR × Option ARDATATRANSFER_Manager_t × List Op :=
  if r.1 ≠ ARDATATRANSFER_OK ∧ r.1 ≠ ARDATATRANSFER_ERROR_ALREADY_INITIALIZED then
    let deleted := ARDATATRANSFER_DataDownloader_Delete env.semPost r.2.1
    (r.1, deleted.2.1, r.2.2 ++ deleted.2.2)
  else r

/-- The function `ARDATATRANSFER_DataDownloader_New` (lines 54-107). The result is the
error code, the manager afterwards and the calls made. -/
def ARDATATRANSFER_DataDownloader_New (k : Constants) (env : NewEnv)
    (manager : Option ARDATATRANSFER_Manager_t) (deviceIP : Option CStr) (port : Int)
    (localDirectory : Option CStr) :
    eARDATATRANSFER_ERROR × Option ARDATATRANSFER_Manager_t × List Op :=
  match manager with
  | none => New_finish env (ARDATATRANSFER_ERROR_BAD_PARAMETER, none, [])
  | some m =>
    match m.dataDownloader with
    | some _ => New_finish env (ARDATATRANSFER_ERROR_ALREADY_INITIALIZED, some m, [])
    | none =>
      if env.callocNull then
        New_finish env (ARDATATRANSFER_ERROR_ALLOC, some m, [Op.calloc])
      else
        let manager : Option ARDATATRANSFER_Manager_t :=
          some { m with dataDownloader := some zeroedDataDownloader }
        let resultSys := env.semInit
        if resultSys ≠ 0 then
          New_finish env (ARDATATRANSFER_ERROR_SYSTEM, manager, [Op.calloc, Op.ARSAL_Sem_Init])
        else
          let manager :=
            updateDataDownloader (fun d => { d with isCanceled := 0, isRunning := 0 }) manager
          let r := ARDATATRANSFER_DataDownloader_Initialize k env manager deviceIP port
            localDirectory
          New_finish env (r.1, r.2.1, [Op.calloc, Op.ARSAL_Sem_Init] ++ r.2.2)

/-- An environment in which every call of `New` succeeds. -/
def newOkEnv : NewEnv where
  callocNull := false
  semInit := 0
  mkdirResultSys := 0
  mkdirErrno := 0
  ftp := some 1
  ftpError := ARUTILS_OK
  semPost := 0

/-- A manager without a session. -/
def freshManager : Option ARDATATRANSFER_Manager_t := some ⟨none⟩

/-- A session that is neither running nor cancelled. -/
def idleManager : Option ARDATATRANSFER_Manager_t :=
  some ⟨some ⟨0, 0, some 1, "/sd".toList⟩⟩

/-- The two calls of `Initialize` that reach outside the session: the creation of the
local directory and the opening of the connection. -/
def Op.isMkdirOrConnection : Op → Bool
  | .mkdir _ => true
  | .ARUTILS_Ftp_Connection_New _ _ => true
  | _ => false

/-- Every local rename of a trace comes two calls after a get into the renamed path, and
that get succeeded. -/
def renamesFollowGets (e : CycleEnv) (t : List Op) : Prop :=
  ∀ i oldName newName, t[i]? = some (Op.ARUTILS_FileSystem_Rename oldName newName) →
    ∃ remotePath resume, 2 ≤ i
      ∧ t[i - 2]? = some (Op.ARUTILS_Ftp_Get remotePath oldName resume)
      ∧ e.outcome (i - 2) = ARUTILS_OK

/-- A local root of 244 bytes: with it the local in-progress path of the entry `a` is
longer than the shipped path buffer. -/
def longLocalRoot : CStr := '/' :: List.replicate 243 'r'

/-- An environment of one cycle with the listing `["a"]` in which every call succeeds. -/
def oneEntryOkEnv : CycleEnv where
  outcome := fun _ => ARUTILS_OK
  resultList := ["a".toList]
  semResultSys := -1
  semErrno := 110

/-! ## The remote directory and the local mirror as sets of paths -/

/-- The remote directory and the local mirror, each as the set of the paths it holds. -/
structure Mirror where
  remoteFiles : CStr → Bool
  localFiles : CStr → Bool

/-- The effect of one call on the two sets. A transfer call or a local rename that fails
(`ok = false`) leaves them as they are; one that succeeds has its effect: a get adds the
local path when the remote path is there, a remote delete takes the remote path away, a
rename moves a path that is there. The quota check (line 287) takes away from the local
set the paths that `ARDATATRANSFER_DataDownloader_CheckUsedMemory` hands to
`ARUTILS_FileSystem_RemoveFile` (line 420) in the quota environment `q`; these paths do
not depend on the accumulator an earlier call left, which is taken zeroed, and each
removal is taken to succeed. The other calls touch neither set. -/
def Mirror.apply (k : Constants) (q : QuotaEnv) (s : Mirror) (ok : Bool) : Op → Mirror
  | .ARUTILS_Ftp_Get remotePath localPath _ =>
    if ok && s.remoteFiles remotePath then
      { s with localFiles := Function.update s.localFiles localPath true }
    else s
  | .ARUTILS_Ftp_Delete remotePath =>
    if ok then { s with remoteFiles := Function.update s.remoteFiles remotePath false }
    else s
  | .ARUTILS_Ftp_Rename oldPath newPath =>
    if ok && s.remoteFiles oldPath then
      { s with remoteFiles :=
          Function.update (Function.update s.remoteFiles oldPath false) newPath true }
    else s
  | .ARUTILS_FileSystem_Rename oldName newName =>
    if ok && s.localFiles oldName then
      { s with localFiles :=
          Function.update (Function.update s.localFiles oldName false) newName true }
    else s
  | .ARDATATRANSFER_DataDownloader_CheckUsedMemory localPath spacePercent =>
    { s with localFiles := fun p =>
        s.localFiles p
          && !decide (p ∈ (ARDATATRANSFER_DataDownloader_CheckUsedMemory k q ⟨0, 0, []⟩
            localPath spacePercent).removed) }
  | _ => s

/-- The two sets after the calls of a trace, the first of which is call `i` of its
cycle: call `j` succeeds exactly when `e.outcome j` is `ARUTILS_OK`; the quota check of
the cycle runs in the quota environment `q`. -/
def Mirror.run (k : Constants) (q : QuotaEnv) (e : CycleEnv) :
    Nat → List Op → Mirror → Mirror
  | _, [], s => s
  | i, op :: rest, s =>
    Mirror.run k q e (i + 1) rest (s.apply k q (decide (e.outcome i = ARUTILS_OK)) op)

/-- The two sets after one cycle of the worker, whose quota check runs in the quota
environment `q`. -/
def Mirror.afterCycle (k : Constants) (q : QuotaEnv) (localRoot : CStr) (e : CycleEnv)
    (s : Mirror) : Mirror :=
  Mirror.run k q e 0 (cycle k localRoot e) s

/-- The number of the four places in which the logical name `n` exists: remote fresh
(`data/<n>`), remote in progress (`data/<marker><n>`), local in progress
(`<localRoot>/data/<marker><n>`) and local final (`<localRoot>/data/<n>`). -/
def places (k : Constants) (localRoot : CStr) (s : Mirror) (n : CStr) : Nat :=
  [s.remoteFiles ("data/".toList ++ n),
   s.remoteFiles ("data/".toList
     ++ (k.ARDATATRANSFER_MANAGER_DOWNLOADER_PREFIX_DOWNLOADING ++ n)),
   s.localFiles (localRoot ++ "/data/".toList
     ++ (k.ARDATATRANSFER_MANAGER_DOWNLOADER_PREFIX_DOWNLOADING ++ n)),
   s.localFiles (localRoot ++ "/data/".toList ++ n)].count true

/-- Every logical name exists in at most one of the four places. -/
def atMostOneCopy (k : Constants) (localRoot : CStr) (s : Mirror) : Prop :=
  ∀ n, places k localRoot s n ≤ 1

/-- No file of the remote directory or of the local mirror carries the marker twice. -/
def noDoubleMarker (k : Constants) (localRoot : CStr) (s : Mirror) : Prop :=
  ∀ n,
    s.remoteFiles ("data/".toList
        ++ (k.ARDATATRANSFER_MANAGER_DOWNLOADER_PREFIX_DOWNLOADING
          ++ (k.ARDATATRANSFER_MANAGER_DOWNLOADER_PREFIX_DOWNLOADING ++ n))) = false
      ∧ s.localFiles (localRoot ++ "/data/".toList
        ++ (k.ARDATATRANSFER_MANAGER_DOWNLOADER_PREFIX_DOWNLOADING
          ++ (k.ARDATATRANSFER_MANAGER_DOWNLOADER_PREFIX_DOWNLOADING ++ n))) = false

/-- Every remote delete of a trace succeeds. -/
def deletesSucceed (e : CycleEnv) (t : List Op) : Prop :=
  ∀ i remotePath, t[i]? = some (Op.ARUTILS_Ftp_Delete remotePath) →
    e.outcome i = ARUTILS_OK

/-- The remote directory holds the one fresh file `data/a`, the local mirror is empty. -/
def oneFreshFile : Mirror where
  remoteFiles := fun p => p == "data/a".toList
  localFiles := fun _ => false

/-- The pairwise form of `atMostOneCopy` and `noDoubleMarker` over any two injective
path builders `rp` (remote) and `lp` (local) and any marker `P`: no name is in both sets;
a name and its marked form are never both present, in whichever sets; no name carrying
the marker twice is present. -/
structure CopyInv (P : CStr) (rp lp : CStr → CStr) (s : Mirror) : Prop where
  a : ∀ x, s.remoteFiles (rp x) = true → s.localFiles (lp x) = false
  b : ∀ x, s.remoteFiles (rp x) = true → s.remoteFiles (rp (P ++ x)) = false
  c : ∀ x, s.localFiles (lp x) = true → s.localFiles (lp (P ++ x)) = false
  d : ∀ x, s.remoteFiles (rp x) = true → s.localFiles (lp (P ++ x)) = false
  e : ∀ x, s.remoteFiles (rp (P ++ x)) = true → s.localFiles (lp x) = false
  f : ∀ x, s.remoteFiles (rp (P ++ (P ++ x))) = false
  g : ∀ x, s.localFiles (lp (P ++ (P ++ x))) = false

/-- The remote path of the name `n`: `data/<n>`. -/
def remotePathOf (n : CStr) : CStr := "data/".toList ++ n

/-- The local path of the name `n`: `<localRoot>/data/<n>`. -/
def localPathOf (localRoot n : CStr) : CStr := localRoot ++ "/data/".toList ++ n

/-- An environment of one cycle with the listing `["a"]` in which the local rename (call
4) fails and every other call succeeds. -/
def renameFailsEnv : CycleEnv where
  outcome := fun i => if i = 4 then ARUTILS_ERROR_OTHER 1 else ARUTILS_OK
  resultList := ["a".toList]
  semResultSys := -1
  semErrno := 110

/-- A get, resumable or not. -/
def Op.isGet : Op → Bool
  | .ARUTILS_Ftp_Get _ _ _ => true
  | _ => false

/-- A remote delete. -/
def Op.isRemoteDelete : Op → Bool
  | .ARUTILS_Ftp_Delete _ => true
  | _ => false

/-! ## The eviction rule as the specification words it -/

/-- The specification's eligibility for eviction: a regular file whose name does not
carry the in-progress marker. -/
def specEligible (k : Constants) (f : FtwEntry) : Bool :=
  decide (f.typeflag = FtwFlag.FTW_F) && !decide (carriesMarker k (baseName f.fpath))

/-- The test the removing callback makes (lines 414 and 416): `strstr` finds no marker
anywhere in the path, and the entry is a regular file. -/
def strstrEligible (k : Constants) (f : FtwEntry) : Bool :=
  decide (strstr f.fpath k.ARDATATRANSFER_MANAGER_DOWNLOADER_PREFIX_DOWNLOADING = none)
    && decide (f.typeflag = FtwFlag.FTW_F)

/-- The specification's first-walk total: the summed size of the regular files. -/
def specTotal (walk : List FtwEntry) : ℚ :=
  ((walk.filter fun f => decide (f.typeflag = FtwFlag.FTW_F)).map
    fun f => (f.st_size : ℚ)).sum

/-- The specification's eviction rule over a walk, for a given eligibility test: an
eligible file is removed when the running sum is still strictly greater than `allowed`,
and the size of every eligible file visited is subtracted from the running sum. -/
def specEvicted (eligible : FtwEntry → Bool) (allowed : ℚ) : ℚ → List FtwEntry → List CStr
  | _, [] => []
  | running, f :: rest =>
    if eligible f then
      (if running > allowed then [f.fpath] else [])
        ++ specEvicted eligible allowed (running - (f.st_size : ℚ)) rest
    else specEvicted eligible allowed running rest

/-- A walk of `/sd/data`: the directory itself, the finished file `x_downloading_1` of 60
bytes, whose name holds the marker in its middle, and the finished file `c` of 10
bytes. -/
def midMarkerWalk : List FtwEntry :=
  [⟨"/sd/data".toList, 4096, FtwFlag.FTW_D⟩,
   ⟨"/sd/data/x_downloading_1".toList, 60, FtwFlag.FTW_F⟩,
   ⟨"/sd/data/c".toList, 10, FtwFlag.FTW_F⟩]

/-- The quota check over `midMarkerWalk` with 100 bytes free: both walks visit the same
files and every call succeeds. -/
def midMarkerEnv : QuotaEnv where
  freeSpaceError := ARUTILS_OK
  availableSpace := 100
  walk1 := midMarkerWalk
  walk1ResultSys := 0
  walk2 := midMarkerWalk
  walk2ResultSys := 0

/-- The remote directory holds the fresh file `data/a` and the file
`data/downloading_downloading_a`, whose name carries the marker twice; the local mirror
is empty. -/
def doubleMarkerFiles : Mirror where
  remoteFiles := fun p =>
    p == "data/a".toList || p == "data/downloading_downloading_a".toList
  localFiles := fun _ => false

/-- An environment of one cycle with the listing `["a", "downloading_downloading_a"]` in
which the remote rename of `a` (call 4) fails and every other call succeeds. -/
def doubleMarkerEnv : CycleEnv where
  outcome := fun i => if i = 4 then ARUTILS_ERROR_OTHER 1 else ARUTILS_OK
  resultList := ["a".toList, "downloading_downloading_a".toList]
  semResultSys := -1
  semErrno := 110

/-- A quota check of `/sd/data` under budget: 1000 bytes are free, so 200 are allowed;
both walks visit the directory and the one regular file `fpath` of 100 bytes. -/
def underBudgetEnv (fpath : CStr) : QuotaEnv where
  freeSpaceError := ARUTILS_OK
  availableSpace := 1000
  walk1 := [⟨"/sd/data".toList, 4096, FtwFlag.FTW_D⟩, ⟨fpath, 100, FtwFlag.FTW_F⟩]
  walk1ResultSys := 0
  walk2 := [⟨"/sd/data".toList, 4096, FtwFlag.FTW_D⟩, ⟨fpath, 100, FtwFlag.FTW_F⟩]
  walk2ResultSys := 0

/-- A quota check of `/sd/data` over budget: 50 bytes are free, so 10 are allowed; both
walks visit the directory and the finished file `/sd/data/a` of 100 bytes. -/
def fullDiskEnv : QuotaEnv where
  freeSpaceError := ARUTILS_OK
  availableSpace := 50
  walk1 := [⟨"/sd/data".toList, 4096, FtwFlag.FTW_D⟩,
    ⟨"/sd/data/a".toList, 100, FtwFlag.FTW_F⟩]
  walk1ResultSys := 0
  walk2 := [⟨"/sd/data".toList, 4096, FtwFlag.FTW_D⟩,
    ⟨"/sd/data/a".toList, 100, FtwFlag.FTW_F⟩]
  walk2ResultSys := 0

/-- An environment of one cycle with an empty listing in which every call succeeds and
the wait times out. -/
def emptyListingEnv : CycleEnv where
  outcome := fun _ => ARUTILS_OK
  resultList := []
  semResultSys := -1
  semErrno := 110

/-- The local paths the quota check of a cycle hands to `ARUTILS_FileSystem_RemoveFile`:
none when the list call was cancelled, since the check is then skipped (line 281). -/
def quotaEvicted (k : Constants) (q : QuotaEnv) (localRoot : CStr) (e : CycleEnv) :
    List CStr :=
  if e.outcome 0 = ARUTILS_ERROR_FTP_CANCELED then []
  else (ARDATATRANSFER_DataDownloader_CheckUsedMemory k q ⟨0, 0, []⟩
    (quotaLocalPath k localRoot) ARDATATRANSFER_DATA_DOWNLOADER_SPACE_PERCENT).removed

/-! ## Lemmas on the string functions -/

theorem size_t_sub_of_le (a b : Nat) (hb : b ≤ a) (ha : a < 18446744073709551616) :
    size_t_sub a b = a - b := by
  unfold size_t_sub
  omega

theorem copyPath_of_fits (k : Constants) (s : CStr) (h : fits k s) : copyPath k s = s := by
  unfold fits at h
  unfold copyPath terminate strncpy
  rw [List.take_take, List.take_of_length_le]
  omega

theorem catPath_of_fits (k : Constants) (b s : CStr)
    (hmax : k.ARUTILS_FTP_MAX_PATH_SIZE < 18446744073709551616) (h : fits k (b ++ s)) :
    catPath k b s = b ++ s := by
  unfold fits at h
  rw [List.length_append] at h
  unfold catPath strncat strlen
  rw [size_t_sub_of_le _ _ (by omega) hmax, size_t_sub_of_le _ _ (by omega) (by omega),
    List.take_of_length_le (by omega)]

theorem fits_left (k : Constants) (a b : CStr) (h : fits k (a ++ b)) : fits k a := by
  unfold fits at *
  rw [List.length_append] at h
  omega

/-! ## The cycle without failure -/

theorem strncmp_ne_iff (k : Constants) (name : CStr) :
    strncmp_ne name k.ARDATATRANSFER_MANAGER_DOWNLOADER_PREFIX_DOWNLOADING
      (strlen k.ARDATATRANSFER_MANAGER_DOWNLOADER_PREFIX_DOWNLOADING) = true
      ↔ ¬ carriesMarker k name := by
  unfold strncmp_ne strlen carriesMarker
  rw [List.prefix_iff_eq_take, List.take_length]
  simp only [bne_iff_ne, ne_eq]
  exact ⟨fun h h' => h h'.symm, fun h h' => h h'.symm⟩

theorem isPrefixOf_iff (k : Constants) (name : CStr) :
    k.ARDATATRANSFER_MANAGER_DOWNLOADER_PREFIX_DOWNLOADING.isPrefixOf name = true
      ↔ carriesMarker k name := by
  unfold carriesMarker
  exact List.isPrefixOf_iff_prefix

theorem foldl_ops (f : List Op → CStr → List Op) (g : CStr → List Op) (l : List CStr) :
    ∀ t : List Op, (∀ u, ∀ n ∈ l, f u n = u ++ g n) →
      l.foldl f t = t ++ (l.map g).flatten := by
  induction l with
  | nil => intro t _; simp
  | cons a l ih =>
    intro t h
    rw [List.foldl_cons, h t a (List.mem_cons_self a l),
      ih _ (fun u n hn => h u n (List.mem_cons_of_mem a hn))]
    simp

theorem resumeRemotePath_of_fits (k : Constants) (name : CStr)
    (hmax : k.ARUTILS_FTP_MAX_PATH_SIZE < 18446744073709551616)
    (h : fits k ("data/".toList ++ name)) :
    resumeRemotePath k name = "data/".toList ++ name := by
  have e1 : ARDATATRANSFER_DATA_DOWNLOADER_FTP_ROOT ++ "/".toList = "data/".toList := rfl
  unfold resumeRemotePath
  simp only [e1]
  rw [copyPath_of_fits k _ (fits_left k _ _ h), catPath_of_fits k _ _ hmax h]

theorem newerInitialPath_of_fits (k : Constants) (name : CStr)
    (hmax : k.ARUTILS_FTP_MAX_PATH_SIZE < 18446744073709551616)
    (h : fits k ("data/".toList ++ name)) :
    newerInitialPath k name = "data/".toList ++ name :=
  resumeRemotePath_of_fits k name hmax h

theorem resumeLocalPath_of_fits (k : Constants) (localRoot name : CStr)
    (hmax : k.ARUTILS_FTP_MAX_PATH_SIZE < 18446744073709551616)
    (h : fits k (localRoot ++ "/data/".toList ++ name)) :
    resumeLocalPath k localRoot name = localRoot ++ "/data/".toList ++ name := by
  have e2 : "/".toList ++ ARDATATRANSFER_DATA_DOWNLOADER_FTP_ROOT ++ "/".toList
      = "/data/".toList := rfl
  have h1 : fits k (localRoot ++ "/data/".toList) := fits_left k _ _ h
  unfold resumeLocalPath
  simp only [e2]
  rw [copyPath_of_fits k _ (fits_left k _ _ h1), catPath_of_fits k _ _ hmax h1,
    catPath_of_fits k _ _ hmax h]

theorem newerRestoreName_of_fits (k : Constants) (localRoot name : CStr)
    (hmax : k.ARUTILS_FTP_MAX_PATH_SIZE < 18446744073709551616)
    (h : fits k (localRoot ++ "/data/".toList ++ name)) :
    newerRestoreName k localRoot name = localRoot ++ "/data/".toList ++ name :=
  resumeLocalPath_of_fits k localRoot name hmax h

theorem resumeRestoreName_of_fits (k : Constants) (localRoot name : CStr)
    (hmax : k.ARUTILS_FTP_MAX_PATH_SIZE < 18446744073709551616)
    (h : fits k (localRoot ++ "/data/".toList ++ name)) :
    resumeRestoreName k localRoot name = localRoot ++ "/data/".toList
      ++ name.drop k.ARDATATRANSFER_MANAGER_DOWNLOADER_PREFIX_DOWNLOADING.length := by
  have e2 : "/".toList ++ ARDATATRANSFER_DATA_DOWNLOADER_FTP_ROOT ++ "/".toList
      = "/data/".toList := rfl
  have h1 : fits k (localRoot ++ "/data/".toList) := fits_left k _ _ h
  have h5 : fits k (localRoot ++ "/data/".toList
      ++ name.drop k.ARDATATRANSFER_MANAGER_DOWNLOADER_PREFIX_DOWNLOADING.length) := by
    unfold fits at *
    simp only [List.length_append, List.length_drop] at *
    omega
  unfold resumeRestoreName
  simp only [e2, strlen]
  rw [copyPath_of_fits k _ (fits_left k _ _ h1), catPath_of_fits k _ _ hmax h1,
    catPath_of_fits k _ _ hmax h5]

theorem newerRemotePath_of_fits (k : Constants) (name : CStr)
    (hmax : k.ARUTILS_FTP_MAX_PATH_SIZE < 18446744073709551616)
    (h : fits k ("data/".toList
      ++ k.ARDATATRANSFER_MANAGER_DOWNLOADER_PREFIX_DOWNLOADING ++ name)) :
    newerRemotePath k name
      = "data/".toList ++ k.ARDATATRANSFER_MANAGER_DOWNLOADER_PREFIX_DOWNLOADING ++ name := by
  have e1 : ARDATATRANSFER_DATA_DOWNLOADER_FTP_ROOT ++ "/".toList = "data/".toList := rfl
  unfold newerRemotePath
  simp only [e1]
  rw [copyPath_of_fits k _ (fits_left k _ _ h), catPath_of_fits k _ _ hmax h]

theorem newerLocalPath_of_fits (k : Constants) (localRoot name : CStr)
    (hmax : k.ARUTILS_FTP_MAX_PATH_SIZE < 18446744073709551616)
    (h : fits k (localRoot ++ "/data/".toList
      ++ k.ARDATATRANSFER_MANAGER_DOWNLOADER_PREFIX_DOWNLOADING ++ name)) :
    newerLocalPath k localRoot name = localRoot ++ "/data/".toList
      ++ k.ARDATATRANSFER_MANAGER_DOWNLOADER_PREFIX_DOWNLOADING ++ name := by
  have e2 : "/".toList ++ ARDATATRANSFER_DATA_DOWNLOADER_FTP_ROOT ++ "/".toList
      = "/data/".toList := rfl
  have h1 : fits k (localRoot ++ "/data/".toList
      ++ k.ARDATATRANSFER_MANAGER_DOWNLOADER_PREFIX_DOWNLOADING) := fits_left k _ _ h
  have h2 : fits k localRoot := fits_left k _ _ (fits_left k _ _ h1)
  have h9 : fits k (localRoot
      ++ ("/data/".toList ++ k.ARDATATRANSFER_MANAGER_DOWNLOADER_PREFIX_DOWNLOADING)) := by
    rw [← List.append_assoc]; exact h1
  have h10 : fits k (localRoot
      ++ ("/data/".toList ++ k.ARDATATRANSFER_MANAGER_DOWNLOADER_PREFIX_DOWNLOADING) ++ name) := by
    rw [← List.append_assoc localRoot]; exact h
  unfold newerLocalPath
  simp only [e2]
  rw [copyPath_of_fits k _ h2, catPath_of_fits k _ _ hmax h9, catPath_of_fits k _ _ hmax h10]
  simp

theorem quotaLocalPath_of_fits (k : Constants) (localRoot : CStr)
    (hmax : k.ARUTILS_FTP_MAX_PATH_SIZE < 18446744073709551616)
    (h : fits k (localRoot ++ "/data".toList)) :
    quotaLocalPath k localRoot = localRoot ++ "/data".toList := by
  have e3 : "/".toList ++ ARDATATRANSFER_DATA_DOWNLOADER_FTP_ROOT = "/data".toList := rfl
  unfold quotaLocalPath
  simp only [e3]
  rw [copyPath_of_fits k _ (fits_left k _ _ h), catPath_of_fits k _ _ hmax h]

theorem resumeBody_ok (k : Constants) (localRoot : CStr) (e : CycleEnv) (t : List Op)
    (name : CStr) (hmax : k.ARUTILS_FTP_MAX_PATH_SIZE < 18446744073709551616)
    (hok : ∀ i, e.outcome i = ARUTILS_OK)
    (hfit : fits k (localRoot ++ "/data/".toList ++ name)) :
    resumeBody k localRoot e t name = t ++ specResumeOps k localRoot name := by
  have h3 : fits k ("data/".toList ++ name) := by
    unfold fits at *
    simp only [List.length_append] at *
    have : "/data/".toList.length = 6 := rfl
    have : "data/".toList.length = 5 := rfl
    omega
  unfold resumeBody specResumeOps
  simp only [hok, FTP_RESUME_TRUE, if_true]
  rw [resumeRemotePath_of_fits k _ hmax h3, resumeLocalPath_of_fits k _ _ hmax hfit,
    resumeRestoreName_of_fits k _ _ hmax hfit]
  simp

theorem newerBody_marked (k : Constants) (localRoot : CStr) (e : CycleEnv) (t : List Op)
    (name : CStr) (h : carriesMarker k name) : newerBody k localRoot e t name = t := by
  unfold newerBody
  rw [if_neg]
  rw [strncmp_ne_iff]
  exact fun h' => h' h

theorem newerBody_ok (k : Constants) (localRoot : CStr) (e : CycleEnv) (t : List Op)
    (name : CStr) (hmax : k.ARUTILS_FTP_MAX_PATH_SIZE < 18446744073709551616)
    (hok : ∀ i, e.outcome i = ARUTILS_OK) (hname : ¬ carriesMarker k name)
    (hfit : fits k (localRoot ++ "/data/".toList
      ++ k.ARDATATRANSFER_MANAGER_DOWNLOADER_PREFIX_DOWNLOADING ++ name)) :
    newerBody k localRoot e t name = t ++ specFreshOps k localRoot name := by
  have l6 : "/data/".toList.length = 6 := rfl
  have l5 : "data/".toList.length = 5 := rfl
  have h3 : fits k ("data/".toList
      ++ k.ARDATATRANSFER_MANAGER_DOWNLOADER_PREFIX_DOWNLOADING ++ name) := by
    unfold fits at *
    simp only [List.length_append] at *
    omega
  have h5 : fits k ("data/".toList ++ name) := by
    unfold fits at *
    simp only [List.length_append] at *
    omega
  have h7 : fits k (localRoot ++ "/data/".toList ++ name) := by
    unfold fits at *
    simp only [List.length_append] at *
    omega
  unfold newerBody specFreshOps
  rw [if_pos ((strncmp_ne_iff k name).2 hname)]
  simp only [hok, FTP_RESUME_FALSE, if_true]
  rw [newerInitialPath_of_fits k _ hmax h5, newerRemotePath_of_fits k _ hmax h3,
    newerLocalPath_of_fits k _ _ hmax hfit, newerRestoreName_of_fits k _ _ hmax h7]
  simp

theorem flatten_map_filter (g : CStr → List Op) (p : CStr → Bool) (l : List CStr) :
    (l.map fun n => if p n then g n else []).flatten = ((l.filter p).map g).flatten := by
  induction l with
  | nil => rfl
  | cons a l ih =>
    by_cases h : p a
    · simp [List.filter_cons, h, ih]
    · simp [List.filter_cons, h, ih]

/-- C1. In a cycle in which the list call and every transport and local call succeed, and
every path built fits its buffer, the calls are exactly: the list call; then, for each
listed entry with the marker, in listing order, resumable get, remote delete, local
rename to the name without the marker; then, for each listed entry without the marker,
in listing order, remote rename, non-resumable get, remote delete, local rename; then one
quota check on `<localRoot>/data`; then the timed wait. -/
theorem cycle_all_ok (k : Constants) (localRoot : CStr) (e : CycleEnv)
    (hmax : k.ARUTILS_FTP_MAX_PATH_SIZE < 18446744073709551616)
    (hok : ∀ i, e.outcome i = ARUTILS_OK)
    (hroot : fits k (localRoot ++ "/data".toList))
    (hfit : ∀ name ∈ e.resultList, fits k (localInProgressPath k localRoot name)) :
    cycle k localRoot e
      = [Op.ARUTILS_Ftp_List "data".toList] ++ specCycleOps k localRoot e.resultList
        ++ [Op.ARSAL_Sem_Timedwait 10] := by
  have hpass1 : ∀ t : List Op,
      (ARDATATRANSFER_Manager_List_GetNextItem e.resultList
        (some k.ARDATATRANSFER_MANAGER_DOWNLOADER_PREFIX_DOWNLOADING)).foldl
        (resumeBody k localRoot e) t
      = t ++ ((e.resultList.filter fun name => decide (carriesMarker k name)).map
          (specResumeOps k localRoot)).flatten := by
    intro t
    have hf : (fun name : CStr =>
        k.ARDATATRANSFER_MANAGER_DOWNLOADER_PREFIX_DOWNLOADING.isPrefixOf name)
        = fun name => decide (carriesMarker k name) := by
      funext name
      rw [Bool.eq_iff_iff, isPrefixOf_iff, decide_eq_true_iff]
    unfold ARDATATRANSFER_Manager_List_GetNextItem
    simp only [hf]
    apply foldl_ops
    intro u n hn
    rw [List.mem_filter, decide_eq_true_iff] at hn
    have := hfit n hn.1
    unfold localInProgressPath at this
    rw [if_pos hn.2] at this
    exact resumeBody_ok k localRoot e u n hmax hok this
  have hpass2 : ∀ t : List Op,
      (ARDATATRANSFER_Manager_List_GetNextItem e.resultList none).foldl
        (newerBody k localRoot e) t
      = t ++ ((e.resultList.filter fun name => !decide (carriesMarker k name)).map
          (specFreshOps k localRoot)).flatten := by
    intro t
    rw [← flatten_map_filter]
    unfold ARDATATRANSFER_Manager_List_GetNextItem
    apply foldl_ops
    intro u n hn
    by_cases hc : carriesMarker k n
    · simp [hc, newerBody_marked k localRoot e u n hc]
    · have := hfit n hn
      unfold localInProgressPath at this
      rw [if_neg hc] at this
      simp [hc, newerBody_ok k localRoot e u n hmax hok hc this]
  unfold cycle specCycleOps
  simp only [hok, if_true, hpass1, hpass2, ne_eq, reduceCtorEq, not_false_eq_true]
  rw [quotaLocalPath_of_fits k _ hmax hroot]
  simp [ARDATATRANSFER_DATA_DOWNLOADER_FTP_ROOT, ARDATATRANSFER_DATA_DOWNLOADER_SPACE_PERCENT,
    ARDATATRANSFER_DATA_DOWNLOADER_WAIT_TIME_IN_SECONDS]

/-- C1 at a listing of one fresh and one in-progress entry under the local root `/sd`. -/
theorem cycle_all_ok_witness :
    cycle shipped "/sd".toList
        { outcome := fun _ => ARUTILS_OK,
          resultList := ["a".toList, "downloading_b".toList],
          semResultSys := -1, semErrno := 110 }
      = [Op.ARUTILS_Ftp_List "data".toList,
         Op.ARUTILS_Ftp_Get "data/downloading_b".toList "/sd/data/downloading_b".toList true,
         Op.ARUTILS_Ftp_Delete "data/downloading_b".toList,
         Op.ARUTILS_FileSystem_Rename "/sd/data/downloading_b".toList "/sd/data/b".toList,
         Op.ARUTILS_Ftp_Rename "data/a".toList "data/downloading_a".toList,
         Op.ARUTILS_Ftp_Get "data/downloading_a".toList "/sd/data/downloading_a".toList false,
         Op.ARUTILS_Ftp_Delete "data/downloading_a".toList,
         Op.ARUTILS_FileSystem_Rename "/sd/data/downloading_a".toList "/sd/data/a".toList,
         Op.ARDATATRANSFER_DataDownloader_CheckUsedMemory "/sd/data".toList 20,
         Op.ARSAL_Sem_Timedwait 10] := by
  rw [cycle_all_ok shipped "/sd".toList _ (by decide) (fun _ => rfl) (by decide) (by decide)]
  decide

/-! ## The cycle under failures -/

theorem newerBody_unmarked (k : Constants) (localRoot : CStr) (e : CycleEnv) (t : List Op)
    (name : CStr) (hname : ¬ carriesMarker k name) :
    newerBody k localRoot e t name = t ++
      (if e.outcome t.length = ARUTILS_OK then
        if e.outcome (t.length + 1) = ARUTILS_OK then
          [Op.ARUTILS_Ftp_Rename (newerInitialPath k name) (newerRemotePath k name),
           Op.ARUTILS_Ftp_Get (newerRemotePath k name) (newerLocalPath k localRoot name) false,
           Op.ARUTILS_Ftp_Delete (newerRemotePath k name),
           Op.ARUTILS_FileSystem_Rename (newerLocalPath k localRoot name)
             (newerRestoreName k localRoot name)]
        else
          [Op.ARUTILS_Ftp_Rename (newerInitialPath k name) (newerRemotePath k name),
           Op.ARUTILS_Ftp_Get (newerRemotePath k name) (newerLocalPath k localRoot name) false]
      else [Op.ARUTILS_Ftp_Rename (newerInitialPath k name) (newerRemotePath k name)]) := by
  unfold newerBody
  rw [if_pos ((strncmp_ne_iff k name).2 hname)]
  by_cases h1 : e.outcome t.length = ARUTILS_OK
  · by_cases h2 : e.outcome (t.length + 1) = ARUTILS_OK
    · simp [h1, h2, FTP_RESUME_FALSE]
    · simp [h1, h2, FTP_RESUME_FALSE]
  · simp [h1]

/-- C2, amended. For an entry without the marker, whatever the calls return: the remote
rename is made; the get is made exactly when the remote rename succeeded; the remote
delete and the local rename are made exactly when the remote rename and the get both
succeeded, the local rename after the remote delete whatever the delete returned. -/
theorem newerBody_chain (k : Constants) (localRoot : CStr) (e : CycleEnv) (t : List Op)
    (name : CStr) (hname : ¬ carriesMarker k name) :
    newerBody k localRoot e t name = t ++
      (if e.outcome t.length = ARUTILS_OK then
        if e.outcome (t.length + 1) = ARUTILS_OK then
          [Op.ARUTILS_Ftp_Rename (newerInitialPath k name) (newerRemotePath k name),
           Op.ARUTILS_Ftp_Get (newerRemotePath k name) (newerLocalPath k localRoot name) false,
           Op.ARUTILS_Ftp_Delete (newerRemotePath k name),
           Op.ARUTILS_FileSystem_Rename (newerLocalPath k localRoot name)
             (newerRestoreName k localRoot name)]
        else
          [Op.ARUTILS_Ftp_Rename (newerInitialPath k name) (newerRemotePath k name),
           Op.ARUTILS_Ftp_Get (newerRemotePath k name) (newerLocalPath k localRoot name) false]
      else [Op.ARUTILS_Ftp_Rename (newerInitialPath k name) (newerRemotePath k name)]) :=
  newerBody_unmarked k localRoot e t name hname

/-- C2, amended, at the entry `a` when the remote delete fails: all four steps are made. -/
theorem newerBody_chain_witness :
    newerBody shipped "/sd".toList deleteFailsEnv
        [Op.ARUTILS_Ftp_List "data".toList] "a".toList
      = [Op.ARUTILS_Ftp_List "data".toList,
         Op.ARUTILS_Ftp_Rename "data/a".toList "data/downloading_a".toList,
         Op.ARUTILS_Ftp_Get "data/downloading_a".toList "/sd/data/downloading_a".toList false,
         Op.ARUTILS_Ftp_Delete "data/downloading_a".toList,
         Op.ARUTILS_FileSystem_Rename "/sd/data/downloading_a".toList "/sd/data/a".toList] := by
  rw [newerBody_chain shipped "/sd".toList deleteFailsEnv _ "a".toList (by decide)]
  decide

/-- C2 as stated fails: with the listing `["a"]`, the remote delete of
`data/downloading_a` (call 3 of the cycle) fails, and the cycle still renames the local
file `/sd/data/downloading_a` to its final name `/sd/data/a`. -/
theorem delete_fails_rename_still_made :
    deleteFailsEnv.outcome 3 ≠ ARUTILS_OK
      ∧ cycle shipped "/sd".toList deleteFailsEnv
        = [Op.ARUTILS_Ftp_List "data".toList,
           Op.ARUTILS_Ftp_Rename "data/a".toList "data/downloading_a".toList,
           Op.ARUTILS_Ftp_Get "data/downloading_a".toList "/sd/data/downloading_a".toList false,
           Op.ARUTILS_Ftp_Delete "data/downloading_a".toList,
           Op.ARUTILS_FileSystem_Rename "/sd/data/downloading_a".toList "/sd/data/a".toList,
           Op.ARDATATRANSFER_DataDownloader_CheckUsedMemory "/sd/data".toList 20,
           Op.ARSAL_Sem_Timedwait 10] := by
  constructor
  · decide
  · decide

/-- C3. When the list call fails, the cycle makes no get, no remote delete, no remote
rename and no local rename: after the list call it makes the quota check exactly when
the list error is not `ARUTILS_ERROR_FTP_CANCELED`, and then the timed wait in both
cases. The quota check is on `<localRoot>/data` when that path fits the buffer. -/
theorem cycle_list_fails (k : Constants) (localRoot : CStr) (e : CycleEnv)
    (hlist : e.outcome 0 ≠ ARUTILS_OK) :
    cycle k localRoot e
        = [Op.ARUTILS_Ftp_List "data".toList]
          ++ (if e.outcome 0 = ARUTILS_ERROR_FTP_CANCELED then []
              else [Op.ARDATATRANSFER_DataDownloader_CheckUsedMemory
                (quotaLocalPath k localRoot) 20])
          ++ [Op.ARSAL_Sem_Timedwait 10]
      ∧ (k.ARUTILS_FTP_MAX_PATH_SIZE < 18446744073709551616 →
          fits k (localRoot ++ "/data".toList) →
          quotaLocalPath k localRoot = localRoot ++ "/data".toList) := by
  refine ⟨?_, quotaLocalPath_of_fits k localRoot⟩
  unfold cycle
  by_cases hc : e.outcome 0 = ARUTILS_ERROR_FTP_CANCELED
  · simp [hlist, hc, ARDATATRANSFER_DATA_DOWNLOADER_FTP_ROOT,
      ARDATATRANSFER_DATA_DOWNLOADER_WAIT_TIME_IN_SECONDS]
  · simp [hlist, hc, ARDATATRANSFER_DATA_DOWNLOADER_FTP_ROOT,
      ARDATATRANSFER_DATA_DOWNLOADER_SPACE_PERCENT,
      ARDATATRANSFER_DATA_DOWNLOADER_WAIT_TIME_IN_SECONDS]

/-- C3 at a list call that fails with another code than the cancelled one, and at a
list call that is cancelled. -/
theorem cycle_list_fails_witness :
    cycle shipped "/sd".toList (listFailsEnv (ARUTILS_ERROR_OTHER 7))
        = [Op.ARUTILS_Ftp_List "data".toList,
           Op.ARDATATRANSFER_DataDownloader_CheckUsedMemory "/sd/data".toList 20,
           Op.ARSAL_Sem_Timedwait 10]
      ∧ cycle shipped "/sd".toList (listFailsEnv ARUTILS_ERROR_FTP_CANCELED)
        = [Op.ARUTILS_Ftp_List "data".toList, Op.ARSAL_Sem_Timedwait 10] := by
  constructor
  · rw [(cycle_list_fails shipped "/sd".toList (listFailsEnv (ARUTILS_ERROR_OTHER 7))
      (by decide)).1]
    decide
  · rw [(cycle_list_fails shipped "/sd".toList (listFailsEnv ARUTILS_ERROR_FTP_CANCELED)
      (by decide)).1]
    decide

theorem resumeBody_steps (k : Constants) (localRoot : CStr) (e : CycleEnv) (t : List Op)
    (name : CStr) :
    resumeBody k localRoot e t name = t ++
      (if e.outcome t.length = ARUTILS_OK then
        [Op.ARUTILS_Ftp_Get (resumeRemotePath k name) (resumeLocalPath k localRoot name) true,
         Op.ARUTILS_Ftp_Delete (resumeRemotePath k name),
         Op.ARUTILS_FileSystem_Rename (resumeLocalPath k localRoot name)
           (resumeRestoreName k localRoot name)]
      else
        [Op.ARUTILS_Ftp_Get (resumeRemotePath k name) (resumeLocalPath k localRoot name)
          true]) := by
  unfold resumeBody
  by_cases h1 : e.outcome t.length = ARUTILS_OK
  · simp [h1, FTP_RESUME_TRUE]
  · simp [h1, FTP_RESUME_TRUE]

theorem foldl_filter_ops (f : List Op → CStr → List Op) (p : Op → Bool)
    (h : CStr → List Op) (l : List CStr) :
    ∀ t : List Op, (∀ u, ∀ n ∈ l, ∃ a, f u n = u ++ a ∧ a.filter p = h n) →
      (l.foldl f t).filter p = t.filter p ++ (l.map h).flatten := by
  induction l with
  | nil => intro t _; simp
  | cons a l ih =>
    intro t hstep
    obtain ⟨b, hb, hf⟩ := hstep t a (List.mem_cons_self a l)
    rw [List.foldl_cons, hb, ih _ (fun u n hn => hstep u n (List.mem_cons_of_mem a hn)),
      List.filter_append, hf]
    simp

theorem flatten_map_singleton (g : CStr → Op) (l : List CStr) :
    (l.map fun n => [g n]).flatten = l.map g := by
  induction l with
  | nil => rfl
  | cons a l ih => simp [ih]

theorem flatten_map_singleton_filter (g : CStr → Op) (p : CStr → Bool) (l : List CStr) :
    (l.map fun n => if p n then [g n] else []).flatten = (l.filter p).map g := by
  induction l with
  | nil => rfl
  | cons a l ih =>
    by_cases h : p a
    · simp [List.filter_cons, h, ih]
    · simp [List.filter_cons, h, ih]

/-- C4. In a cycle whose list call succeeded, whatever the other calls return: the first
steps found in the trace are exactly the resumable get of every listed entry with the
marker, in listing order, followed by the remote rename of every listed entry without
it, in listing order; and the cycle ends with the quota check and the timed wait. -/
theorem cycle_entry_failures (k : Constants) (localRoot : CStr) (e : CycleEnv)
    (hlist : e.outcome 0 = ARUTILS_OK) :
    (cycle k localRoot e).filter Op.isFirstStep
        = (e.resultList.filter fun name => decide (carriesMarker k name)).map
            (fun name => Op.ARUTILS_Ftp_Get (resumeRemotePath k name)
              (resumeLocalPath k localRoot name) true)
          ++ (e.resultList.filter fun name => !decide (carriesMarker k name)).map
            (fun name => Op.ARUTILS_Ftp_Rename (newerInitialPath k name)
              (newerRemotePath k name))
      ∧ ∃ steps, cycle k localRoot e
          = [Op.ARUTILS_Ftp_List "data".toList] ++ steps
            ++ [Op.ARDATATRANSFER_DataDownloader_CheckUsedMemory (quotaLocalPath k localRoot) 20,
                Op.ARSAL_Sem_Timedwait 10] := by
  have hf : (fun name : CStr =>
      k.ARDATATRANSFER_MANAGER_DOWNLOADER_PREFIX_DOWNLOADING.isPrefixOf name)
      = fun name => decide (carriesMarker k name) := by
    funext name
    rw [Bool.eq_iff_iff, isPrefixOf_iff, decide_eq_true_iff]
  have hpass1 : ∀ t : List Op,
      ((ARDATATRANSFER_Manager_List_GetNextItem e.resultList
        (some k.ARDATATRANSFER_MANAGER_DOWNLOADER_PREFIX_DOWNLOADING)).foldl
        (resumeBody k localRoot e) t).filter Op.isFirstStep
      = t.filter Op.isFirstStep
        ++ (e.resultList.filter fun name => decide (carriesMarker k name)).map
            (fun name => Op.ARUTILS_Ftp_Get (resumeRemotePath k name)
              (resumeLocalPath k localRoot name) true) := by
    intro t
    unfold ARDATATRANSFER_Manager_List_GetNextItem
    simp only [hf]
    rw [foldl_filter_ops _ _ (fun name => [Op.ARUTILS_Ftp_Get (resumeRemotePath k name)
      (resumeLocalPath k localRoot name) true]), flatten_map_singleton]
    · intro u n _
      refine ⟨_, resumeBody_steps k localRoot e u n, ?_⟩
      by_cases h1 : e.outcome u.length = ARUTILS_OK
      · simp [h1, Op.isFirstStep]
      · simp [h1, Op.isFirstStep]
  have hpass2 : ∀ t : List Op,
      ((ARDATATRANSFER_Manager_List_GetNextItem e.resultList none).foldl
        (newerBody k localRoot e) t).filter Op.isFirstStep
      = t.filter Op.isFirstStep
        ++ (e.resultList.filter fun name => !decide (carriesMarker k name)).map
            (fun name => Op.ARUTILS_Ftp_Rename (newerInitialPath k name)
              (newerRemotePath k name)) := by
    intro t
    unfold ARDATATRANSFER_Manager_List_GetNextItem
    rw [foldl_filter_ops _ _ (fun name => if !decide (carriesMarker k name) then
      [Op.ARUTILS_Ftp_Rename (newerInitialPath k name) (newerRemotePath k name)] else []),
      flatten_map_singleton_filter]
    intro u n _
    by_cases hc : carriesMarker k n
    · exact ⟨[], by simp [newerBody_marked k localRoot e u n hc], by simp [hc]⟩
    · refine ⟨_, newerBody_unmarked k localRoot e u n hc, ?_⟩
      by_cases h1 : e.outcome u.length = ARUTILS_OK
      · by_cases h2 : e.outcome (u.length + 1) = ARUTILS_OK
        · simp [h1, h2, hc, Op.isFirstStep]
        · simp [h1, h2, hc, Op.isFirstStep]
      · simp [h1, hc, Op.isFirstStep]
  have hshape : ∀ (f : List Op → CStr → List Op) (l : List CStr),
      (∀ u n, ∃ a, f u n = u ++ a) → ∀ t : List Op, ∃ a, l.foldl f t = t ++ a := by
    intro f l hstep
    induction l with
    | nil => intro t; exact ⟨[], by simp⟩
    | cons b l ih =>
      intro t
      obtain ⟨a, ha⟩ := hstep t b
      obtain ⟨a', ha'⟩ := ih (t ++ a)
      exact ⟨a ++ a', by rw [List.foldl_cons, ha, ha', List.append_assoc]⟩
  constructor
  · unfold cycle
    simp only [hlist, if_true, ne_eq, reduceCtorEq, not_false_eq_true, List.filter_append,
      hpass1, hpass2]
    simp [Op.isFirstStep]
  · obtain ⟨a1, h1⟩ := hshape (resumeBody k localRoot e)
      (ARDATATRANSFER_Manager_List_GetNextItem e.resultList
        (some k.ARDATATRANSFER_MANAGER_DOWNLOADER_PREFIX_DOWNLOADING))
      (fun u n => ⟨_, resumeBody_steps k localRoot e u n⟩)
      [Op.ARUTILS_Ftp_List ARDATATRANSFER_DATA_DOWNLOADER_FTP_ROOT]
    obtain ⟨a2, h2⟩ := hshape (newerBody k localRoot e)
      (ARDATATRANSFER_Manager_List_GetNextItem e.resultList none)
      (fun u n => by
        by_cases hc : carriesMarker k n
        · exact ⟨[], by simp [newerBody_marked k localRoot e u n hc]⟩
        · exact ⟨_, newerBody_unmarked k localRoot e u n hc⟩)
      ([Op.ARUTILS_Ftp_List ARDATATRANSFER_DATA_DOWNLOADER_FTP_ROOT] ++ a1)
    refine ⟨a1 ++ a2, ?_⟩
    unfold cycle
    simp only [hlist, if_true, ne_eq, reduceCtorEq, not_false_eq_true, h1, h2]
    simp [ARDATATRANSFER_DATA_DOWNLOADER_FTP_ROOT, ARDATATRANSFER_DATA_DOWNLOADER_SPACE_PERCENT,
      ARDATATRANSFER_DATA_DOWNLOADER_WAIT_TIME_IN_SECONDS]

/-- C4 at a listing of four entries when every call after the list call fails: the
trace holds the first step of each entry and ends with the quota check and the wait. -/
theorem cycle_entry_failures_witness :
    (cycle shipped "/sd".toList entriesFailEnv).filter Op.isFirstStep
      = [Op.ARUTILS_Ftp_Get "data/downloading_b".toList "/sd/data/downloading_b".toList true,
         Op.ARUTILS_Ftp_Get "data/downloading_d".toList "/sd/data/downloading_d".toList true,
         Op.ARUTILS_Ftp_Rename "data/a".toList "data/downloading_a".toList,
         Op.ARUTILS_Ftp_Rename "data/c".toList "data/downloading_c".toList] := by
  rw [(cycle_entry_failures shipped "/sd".toList entriesFailEnv (by decide)).1]
  decide

/-! ## Start, the loop and teardown -/

theorem ThreadRun_check_ok_iff (manager : Option ARDATATRANSFER_Manager_t) :
    ThreadRun_check manager = ARDATATRANSFER_OK
      ↔ ∃ m d, manager = some m ∧ m.dataDownloader = some d
          ∧ d.isCanceled = 0 ∧ d.isRunning = 0 := by
  constructor
  · intro h
    match manager, h with
    | some { dataDownloader := some d }, h =>
      refine ⟨_, d, rfl, rfl, ?_⟩
      simp only [ThreadRun_check] at h
      by_cases hc : d.isCanceled = 0
      · by_cases hr : d.isRunning = 0
        · exact ⟨hc, hr⟩
        · simp [hc, hr] at h
      · simp [hc] at h
    | some { dataDownloader := none }, h => simp [ThreadRun_check] at h
    | none, h => simp [ThreadRun_check] at h
  · rintro ⟨m, d, rfl, hd, hc, hr⟩
    simp [ThreadRun_check, hd, hc, hr]

theorem workerLoop_first_cycle (k : Constants) (localRoot : CStr) (envs : Nat → CycleEnv)
    (fuel c : Nat) :
    1 ≤ (workerLoop k localRoot envs (fuel + 1) c).cycles
      ∧ cycle k localRoot (envs c) <+: (workerLoop k localRoot envs (fuel + 1) c).trace := by
  unfold workerLoop
  by_cases h : (envs c).semResultSys = -1 ∧ (envs c).semErrno = k.ETIMEDOUT
  · simp only [h, and_self, if_true]
    exact ⟨Nat.le_add_left 1 _, List.prefix_append _ _⟩
  · simp only [h, if_false]
    exact ⟨le_refl 1, List.prefix_refl _⟩

/-- C5. The local `result` of `ThreadRun` is decided in priority order: BadParameter for
a null manager, else NotInitialized without a session, else Cancelled when `isCanceled`
is set, else AlreadyRunning when `isRunning` is set; in each of these cases the call
makes no call on its collaborators (no list, get, delete, rename, quota check or wait),
runs no cycle and returns without ever setting `isRunning`. Exactly when none applies
the call sets `isRunning` on entering the loop (the state observed before any cycle) and
runs at least the first cycle. -/
theorem ThreadRun_start (k : Constants) (envs : Nat → CycleEnv) (fuel : Nat)
    (manager : Option ARDATATRANSFER_Manager_t) :
    (manager = none →
        (ARDATATRANSFER_DataDownloader_ThreadRun k envs fuel manager).result
          = ARDATATRANSFER_ERROR_BAD_PARAMETER)
      ∧ (∀ m, manager = some m → m.dataDownloader = none →
        (ARDATATRANSFER_DataDownloader_ThreadRun k envs fuel manager).result
          = ARDATATRANSFER_ERROR_NOT_INITIALIZED)
      ∧ (∀ m d, manager = some m → m.dataDownloader = some d → d.isCanceled ≠ 0 →
        (ARDATATRANSFER_DataDownloader_ThreadRun k envs fuel manager).result
          = ARDATATRANSFER_ERROR_CANCELED)
      ∧ (∀ m d, manager = some m → m.dataDownloader = some d → d.isCanceled = 0 →
        d.isRunning ≠ 0 →
        (ARDATATRANSFER_DataDownloader_ThreadRun k envs fuel manager).result
          = ARDATATRANSFER_ERROR_THREAD_ALREADY_RUNNING)
      ∧ ((ARDATATRANSFER_DataDownloader_ThreadRun k envs fuel manager).result
          ≠ ARDATATRANSFER_OK →
        (ARDATATRANSFER_DataDownloader_ThreadRun k envs fuel manager).trace = []
          ∧ (ARDATATRANSFER_DataDownloader_ThreadRun k envs fuel manager).cycles = 0
          ∧ (ARDATATRANSFER_DataDownloader_ThreadRun k envs fuel manager).returned = true
          ∧ (ARDATATRANSFER_DataDownloader_ThreadRun k envs fuel manager).manager
            = setIsRunning 0 manager)
      ∧ ((ARDATATRANSFER_DataDownloader_ThreadRun k envs fuel manager).result
          = ARDATATRANSFER_OK
        ↔ ∃ m d, manager = some m ∧ m.dataDownloader = some d
            ∧ d.isCanceled = 0 ∧ d.isRunning = 0)
      ∧ ((ARDATATRANSFER_DataDownloader_ThreadRun k envs fuel manager).result
          = ARDATATRANSFER_OK →
        (∃ m d, (ARDATATRANSFER_DataDownloader_ThreadRun k envs 0 manager).manager = some m
            ∧ m.dataDownloader = some d ∧ d.isRunning = 1)
          ∧ (ARDATATRANSFER_DataDownloader_ThreadRun k envs 0 manager).returned = false
          ∧ (0 < fuel →
            1 ≤ (ARDATATRANSFER_DataDownloader_ThreadRun k envs fuel manager).cycles
              ∧ cycle k (localDirectoryOf manager) (envs 0)
                <+: (ARDATATRANSFER_DataDownloader_ThreadRun k envs fuel manager).trace)) := by
  have hres : ∀ n, (ARDATATRANSFER_DataDownloader_ThreadRun k envs n manager).result
      = ThreadRun_check manager := by
    intro n
    unfold ARDATATRANSFER_DataDownloader_ThreadRun
    by_cases h : ThreadRun_check manager = ARDATATRANSFER_OK
    · by_cases hx : (workerLoop k (localDirectoryOf (setIsRunning 1 manager)) envs n 0).exited
      · simp [h, hx]
      · simp [h, hx]
    · simp [h]
  refine ⟨?_, ?_, ?_, ?_, ?_, ?_, ?_⟩
  · rintro rfl
    rw [hres]; rfl
  · rintro m rfl hd
    rw [hres]; simp [ThreadRun_check, hd]
  · rintro m d rfl hd hc
    rw [hres]; simp [ThreadRun_check, hd, hc]
  · rintro m d rfl hd hc hr
    rw [hres]; simp [ThreadRun_check, hd, hc, hr]
  · intro h
    rw [hres] at h
    unfold ARDATATRANSFER_DataDownloader_ThreadRun
    simp [h]
  · rw [hres]
    exact ThreadRun_check_ok_iff manager
  · intro h
    rw [hres] at h
    obtain ⟨m, d, rfl, hd, hc, hr⟩ := (ThreadRun_check_ok_iff manager).1 h
    obtain ⟨d'⟩ := m
    simp only at hd
    subst hd
    refine ⟨?_, ?_, ?_⟩
    · unfold ARDATATRANSFER_DataDownloader_ThreadRun
      simp [h, workerLoop, setIsRunning]
    · unfold ARDATATRANSFER_DataDownloader_ThreadRun
      simp [h, workerLoop]
    · intro hfuel
      obtain ⟨n, rfl⟩ := Nat.exists_eq_succ_of_ne_zero (Nat.pos_iff_ne_zero.1 hfuel)
      have hl := workerLoop_first_cycle k d.localDirectory envs n 0
      unfold ARDATATRANSFER_DataDownloader_ThreadRun
      by_cases hx : (workerLoop k d.localDirectory envs (n + 1) 0).exited
      · simpa [h, hx, setIsRunning, localDirectoryOf] using hl
      · simpa [h, hx, setIsRunning, localDirectoryOf] using hl

/-- C6 fails on the code. On a session whose loop is executing (`isRunning` set), a
second call of `ThreadRun` is rejected with `THREAD_ALREADY_RUNNING`, or with `CANCELED`
when cancellation has been asked, makes no call, and returns with `isRunning` cleared
by the unconditional exit block of lines 295-298. -/
theorem rejected_start_clears_isRunning :
    ARDATATRANSFER_DataDownloader_ThreadRun shipped waitFailsEnvs 3 runningManager
        = { result := ARDATATRANSFER_ERROR_THREAD_ALREADY_RUNNING,
            manager := some ⟨some ⟨0, 0, some 1, "/sd".toList⟩⟩,
            trace := [], cycles := 0, returned := true }
      ∧ ARDATATRANSFER_DataDownloader_ThreadRun shipped waitFailsEnvs 3 runningCanceledManager
        = { result := ARDATATRANSFER_ERROR_CANCELED,
            manager := some ⟨some ⟨1, 0, some 1, "/sd".toList⟩⟩,
            trace := [], cycles := 0, returned := true } := by
  constructor
  · decide
  · decide

/-- C7. `Delete` returns BadParameter for a null manager, NotInitialized for a manager
without a session, and ThreadProcessing when `isRunning` is set, and in that last case
it leaves the manager and its session as they were and makes no call (no semaphore
post, no connection close, no destroy, no free). It returns OK exactly when there is a
session whose `isRunning` is clear, and then the manager has no session afterwards. -/
theorem Delete_guards (semPost : Int) (manager : Option ARDATATRANSFER_Manager_t) :
    (manager = none →
        (ARDATATRANSFER_DataDownloader_Delete semPost manager).1
          = ARDATATRANSFER_ERROR_BAD_PARAMETER)
      ∧ (∀ m, manager = some m → m.dataDownloader = none →
        (ARDATATRANSFER_DataDownloader_Delete semPost manager).1
          = ARDATATRANSFER_ERROR_NOT_INITIALIZED)
      ∧ (∀ m d, manager = some m → m.dataDownloader = some d → d.isRunning ≠ 0 →
        ARDATATRANSFER_DataDownloader_Delete semPost manager
          = (ARDATATRANSFER_ERROR_THREAD_PROCESSING, manager, []))
      ∧ ((ARDATATRANSFER_DataDownloader_Delete semPost manager).1 = ARDATATRANSFER_OK
        ↔ ∃ m d, manager = some m ∧ m.dataDownloader = some d ∧ d.isRunning = 0)
      ∧ ((ARDATATRANSFER_DataDownloader_Delete semPost manager).1 = ARDATATRANSFER_OK →
        ∃ m, (ARDATATRANSFER_DataDownloader_Delete semPost manager).2.1 = some m
          ∧ m.dataDownloader = none) := by
  match manager with
  | none => simp [ARDATATRANSFER_DataDownloader_Delete]
  | some { dataDownloader := none } =>
    refine ⟨by simp, by simp [ARDATATRANSFER_DataDownloader_Delete], ?_, ?_, ?_⟩
    · intro m d hm hd
      cases hm
      cases hd
    · simp only [ARDATATRANSFER_DataDownloader_Delete, reduceCtorEq, false_iff]
      rintro ⟨m, d, hm, hd, _⟩
      cases hm
      cases hd
    · simp [ARDATATRANSFER_DataDownloader_Delete]
  | some { dataDownloader := some d } =>
    by_cases hr : d.isRunning = 0
    · refine ⟨by simp, ?_, ?_, ?_, ?_⟩
      · intro m hm hd
        cases hm
        cases hd
      · intro m d' hm hd hr'
        cases hm
        cases hd
        exact absurd hr hr'
      · simp only [ARDATATRANSFER_DataDownloader_Delete, hr, ne_eq, not_true_eq_false,
          if_false, true_iff]
        exact ⟨_, d, rfl, rfl, hr⟩
      · simp [ARDATATRANSFER_DataDownloader_Delete, hr]
    · refine ⟨by simp, ?_, ?_, ?_, ?_⟩
      · intro m hm hd
        cases hm
        cases hd
      · intro m d' hm hd _
        cases hm
        cases hd
        simp [ARDATATRANSFER_DataDownloader_Delete, hr]
      · simp only [ARDATATRANSFER_DataDownloader_Delete, ne_eq, hr, not_false_eq_true,
          if_true, reduceCtorEq, false_iff]
        rintro ⟨m, d', hm, hd, hr'⟩
        cases hm
        cases hd
        exact hr hr'
      · simp [ARDATATRANSFER_DataDownloader_Delete, hr]

/-- The calls `Delete` makes on a session that is not running and has a connection:
the semaphore post of `CancelThread`, the connection close of `Clear`, the semaphore
destroy and the free. -/
theorem Delete_idle_session :
    ARDATATRANSFER_DataDownloader_Delete 0
        (some ⟨some ⟨0, 0, some 1, "/sd".toList⟩⟩)
      = (ARDATATRANSFER_OK, some ⟨none⟩,
          [Op.ARSAL_Sem_Post, Op.ARUTILS_Ftp_Connection_Delete, Op.ARSAL_Sem_Destroy,
           Op.free]) := by
  decide

theorem workerLoop_all_timed_out (k : Constants) (localRoot : CStr) (envs : Nat → CycleEnv) :
    ∀ fuel c, (∀ i, i < fuel → timedOut k (envs (c + i))) →
      (workerLoop k localRoot envs fuel c).exited = false
        ∧ (workerLoop k localRoot envs fuel c).cycles = fuel := by
  intro fuel
  induction fuel with
  | zero => intro c _; simp [workerLoop]
  | succ n ih =>
    intro c h
    have h0 : timedOut k (envs c) := by simpa using h 0 (Nat.succ_pos n)
    have hn := ih (c + 1) (fun i hi => by
      have := h (i + 1) (Nat.succ_lt_succ hi)
      rwa [Nat.add_assoc, Nat.add_comm 1 i])
    unfold timedOut at h0
    unfold workerLoop
    simp [h0, hn]

theorem workerLoop_exits_at (k : Constants) (localRoot : CStr) (envs : Nat → CycleEnv) :
    ∀ n fuel c, n < fuel → (∀ i, i < n → timedOut k (envs (c + i))) →
      ¬ timedOut k (envs (c + n)) →
      (workerLoop k localRoot envs fuel c).exited = true
        ∧ (workerLoop k localRoot envs fuel c).cycles = n + 1 := by
  intro n
  induction n with
  | zero =>
    intro fuel c hfuel _ hlast
    obtain ⟨m, rfl⟩ := Nat.exists_eq_succ_of_ne_zero (Nat.pos_iff_ne_zero.1 hfuel)
    unfold timedOut at hlast
    rw [Nat.add_zero] at hlast
    unfold workerLoop
    simp [hlast]
  | succ n ih =>
    intro fuel c hfuel h hlast
    obtain ⟨m, rfl⟩ := Nat.exists_eq_succ_of_ne_zero (Nat.not_eq_zero_of_lt hfuel)
    have h0 : timedOut k (envs c) := by simpa using h 0 (Nat.succ_pos n)
    have hn := ih m (c + 1) (Nat.lt_of_succ_lt_succ hfuel)
      (fun i hi => by
        have := h (i + 1) (Nat.succ_lt_succ hi)
        rwa [Nat.add_assoc, Nat.add_comm 1 i])
      (by rwa [Nat.add_assoc, Nat.add_comm 1 n])
    unfold timedOut at h0
    unfold workerLoop
    simp [h0, hn]

/-- C10, amended. The loop runs another cycle after every wait that timed out (it
returned `-1` with `errno == ETIMEDOUT`): as long as every wait so far timed out, the
loop has not exited. It exits after the first wait with any other outcome, be it a
signalled wait (return value `0`) or a wait that failed with another `errno`. -/
theorem workerLoop_continues_iff_timed_out (k : Constants) (localRoot : CStr)
    (envs : Nat → CycleEnv) (fuel c : Nat) :
    ((∀ i, i < fuel → timedOut k (envs (c + i))) →
        (workerLoop k localRoot envs fuel c).exited = false
          ∧ (workerLoop k localRoot envs fuel c).cycles = fuel)
      ∧ (∀ n, n < fuel → (∀ i, i < n → timedOut k (envs (c + i))) →
        ¬ timedOut k (envs (c + n)) →
        (workerLoop k localRoot envs fuel c).exited = true
          ∧ (workerLoop k localRoot envs fuel c).cycles = n + 1) :=
  ⟨workerLoop_all_timed_out k localRoot envs fuel c,
    fun n => workerLoop_exits_at k localRoot envs n fuel c⟩

/-- C10 as stated fails: the first wait returns `-1` with `errno == EINTR`, so it was
neither signalled nor timed out, and the loop exits after that one cycle. -/
theorem wait_failure_ends_loop :
    (waitFailsEnvs 0).semResultSys = -1
      ∧ (waitFailsEnvs 0).semErrno ≠ shipped.ETIMEDOUT
      ∧ workerLoop shipped "/sd".toList waitFailsEnvs 5 0
        = { trace := [Op.ARUTILS_Ftp_List "data".toList,
              Op.ARDATATRANSFER_DataDownloader_CheckUsedMemory "/sd/data".toList 20,
              Op.ARSAL_Sem_Timedwait 10],
            cycles := 1, exited := true } := by
  refine ⟨by decide, by decide, by decide⟩

/-! ## The quota enforcer -/

theorem strstr_eq_none (needle : CStr) :
    ∀ haystack : CStr, strstr haystack needle = none → ¬ needle <:+: haystack := by
  intro haystack
  induction haystack with
  | nil =>
    intro h hin
    have : needle = [] := List.eq_nil_of_infix_nil hin
    simp [strstr, this] at h
  | cons c cs ih =>
    intro h hin
    unfold strstr at h
    by_cases hp : needle.isPrefixOf (c :: cs) = true
    · simp [hp] at h
    · simp only [hp, Bool.false_eq_true, if_false] at h
      rw [List.infix_cons_iff] at hin
      rcases hin with hpre | hin
      · exact hp (List.isPrefixOf_iff_prefix.2 hpre)
      · exact ih h hin

theorem baseName_suffix (fpath : CStr) : baseName fpath <:+ fpath := by
  unfold baseName
  have h := List.takeWhile_prefix (fun c => c != '/') (l := fpath.reverse)
  have h' := List.reverse_suffix.2 h
  rwa [List.reverse_reverse] at h'

theorem strstr_of_carriesMarker (k : Constants) (fpath : CStr)
    (h : carriesMarker k (baseName fpath)) :
    strstr fpath k.ARDATATRANSFER_MANAGER_DOWNLOADER_PREFIX_DOWNLOADING ≠ none := by
  intro hnone
  exact strstr_eq_none _ _ hnone
    (List.IsInfix.trans h.isInfix (baseName_suffix fpath).isInfix)

theorem UsedMemoryCallback_removed (l : List FtwEntry) :
    ∀ w : WalkState,
      (l.foldl ARDATATRANSFER_DataDownloader_UsedMemoryCallback w).removed = w.removed := by
  induction l with
  | nil => intro w; rfl
  | cons f l ih =>
    intro w
    rw [List.foldl_cons, ih]
    unfold ARDATATRANSFER_DataDownloader_UsedMemoryCallback
    split <;> rfl

theorem RemoveDataCallback_removed (k : Constants) (l : List FtwEntry) :
    ∀ (w : WalkState) (p : CStr),
      p ∈ (l.foldl (ARDATATRANSFER_DataDownloader_RemoveDataCallback k) w).removed →
      p ∈ w.removed ∨ ∃ f ∈ l, f.fpath = p ∧ f.typeflag = FtwFlag.FTW_F
        ∧ strstr f.fpath k.ARDATATRANSFER_MANAGER_DOWNLOADER_PREFIX_DOWNLOADING = none := by
  induction l with
  | nil => intro w p h; exact Or.inl h
  | cons f l ih =>
    intro w p h
    rw [List.foldl_cons] at h
    rcases ih _ p h with h1 | ⟨g, hg, hrest⟩
    · by_cases hs : strstr f.fpath k.ARDATATRANSFER_MANAGER_DOWNLOADER_PREFIX_DOWNLOADING = none
      · by_cases ht : f.typeflag = FtwFlag.FTW_F
        · by_cases hq : w.dataFwt.sum > w.dataFwt.allowedSpace
          · simp only [ARDATATRANSFER_DataDownloader_RemoveDataCallback, hs, ht, hq, if_true,
              List.mem_append, List.mem_singleton] at h1
            rcases h1 with h1 | h1
            · exact Or.inl h1
            · exact Or.inr ⟨f, List.mem_cons_self f l, h1.symm, ht, hs⟩
          · simp only [ARDATATRANSFER_DataDownloader_RemoveDataCallback, hs, ht, hq, if_true,
              if_false] at h1
            exact Or.inl h1
        · simp only [ARDATATRANSFER_DataDownloader_RemoveDataCallback, hs, ht, if_true,
            if_false] at h1
          exact Or.inl h1
      · simp only [ARDATATRANSFER_DataDownloader_RemoveDataCallback, hs, if_false] at h1
        exact Or.inl h1
    · exact Or.inr ⟨g, List.mem_cons_of_mem f hg, hrest⟩

theorem CheckUsedMemory_removed (k : Constants) (q : QuotaEnv)
    (dataFwt0 : ARDATATRANSFER_DataDownloader_Fwt_t) (localPath : CStr) (spacePercent : ℚ)
    (p : CStr)
    (h : p ∈ (ARDATATRANSFER_DataDownloader_CheckUsedMemory k q dataFwt0 localPath
      spacePercent).removed) :
    ∃ f ∈ q.walk2, f.fpath = p ∧ f.typeflag = FtwFlag.FTW_F
      ∧ strstr f.fpath k.ARDATATRANSFER_MANAGER_DOWNLOADER_PREFIX_DOWNLOADING = none := by
  unfold ARDATATRANSFER_DataDownloader_CheckUsedMemory at h
  simp only at h
  split at h
  · simp at h
  · split at h
    · simp [UsedMemoryCallback_removed] at h
    · split at h
      · have h2 : p ∈ (q.walk2.foldl (ARDATATRANSFER_DataDownloader_RemoveDataCallback k)
            { dataFwt :=
                { sum := (q.walk1.foldl ARDATATRANSFER_DataDownloader_UsedMemoryCallback
                      { dataFwt := { dataFwt0 with sum := 0, dir := copyPath k localPath },
                        removed := [] }).dataFwt.sum,
                  allowedSpace := q.availableSpace * spacePercent / 100,
                  dir := (q.walk1.foldl ARDATATRANSFER_DataDownloader_UsedMemoryCallback
                      { dataFwt := { dataFwt0 with sum := 0, dir := copyPath k localPath },
                        removed := [] }).dataFwt.dir },
              removed := (q.walk1.foldl ARDATATRANSFER_DataDownloader_UsedMemoryCallback
                      { dataFwt := { dataFwt0 with sum := 0, dir := copyPath k localPath },
                        removed := [] }).removed }).removed := by
          split at h <;> exact h
        rcases RemoveDataCallback_removed k q.walk2 _ p h2 with h3 | h3
        · simp [UsedMemoryCallback_removed] at h3
        · exact h3
      · simp [UsedMemoryCallback_removed] at h

/-- C8. Whatever the walks, the free space and the percentage, `CheckUsedMemory` hands no
file whose name carries the in-progress marker to `ARUTILS_FileSystem_RemoveFile`; and
when every regular file the second walk visits carries the marker, it removes nothing. -/
theorem CheckUsedMemory_keeps_marked (k : Constants) (q : QuotaEnv)
    (dataFwt0 : ARDATATRANSFER_DataDownloader_Fwt_t) (localPath : CStr) (spacePercent : ℚ) :
    (∀ p ∈ (ARDATATRANSFER_DataDownloader_CheckUsedMemory k q dataFwt0 localPath
        spacePercent).removed, ¬ carriesMarker k (baseName p))
      ∧ ((∀ f ∈ q.walk2, f.typeflag = FtwFlag.FTW_F → carriesMarker k (baseName f.fpath)) →
        (ARDATATRANSFER_DataDownloader_CheckUsedMemory k q dataFwt0 localPath
          spacePercent).removed = []) := by
  constructor
  · intro p hp hc
    obtain ⟨f, _, hf, _, hs⟩ := CheckUsedMemory_removed k q dataFwt0 localPath spacePercent p hp
    subst hf
    exact strstr_of_carriesMarker k f.fpath hc hs
  · intro hall
    rw [List.eq_nil_iff_forall_not_mem]
    intro p hp
    obtain ⟨f, hmem, _, ht, hs⟩ :=
      CheckUsedMemory_removed k q dataFwt0 localPath spacePercent p hp
    exact strstr_of_carriesMarker k f.fpath (hall f hmem ht) hs

/-- C9 fails on the code. The tree holds 105 bytes of regular files against a budget of
10; the enforcer removes `a` and then passes over `x_downloading_1`, because `strstr`
finds the marker inside its path: 100 bytes remain, above the budget, and a regular
file whose name does not begin with the marker is still there. -/
theorem marker_inside_path_blocks_eviction :
    ARDATATRANSFER_DataDownloader_CheckUsedMemory shipped overBudgetEnv ⟨0, 0, []⟩
        "/sd/data".toList 20
        = { result := ARDATATRANSFER_OK, walks := 2,
            dataFwt := ⟨100, 10, "/sd/data".toList⟩,
            removed := ["/sd/data/a".toList] }
      ∧ ¬ carriesMarker shipped (baseName "/sd/data/x_downloading_1".toList)
      ∧ ((105 : ℚ) - 5 > 10) := by
  refine ⟨?_, by decide, by norm_num⟩
  decide!

/-! ## Cancel, construction and the cancel flag -/

/-- C11. `CancelThread` returns BadParameter for a null manager and NotInitialized for a
manager without a session, in both cases with no semaphore post and the manager as it
was. Otherwise, whatever the session's flags are (so also on a repeated call), it sets
`isCanceled`, leaves the other fields alone, posts the semaphore exactly once, and
returns OK when the post returns 0 and System when it does not. -/
theorem CancelThread_contract (semPost semPost2 : Int)
    (manager : Option ARDATATRANSFER_Manager_t) :
    (manager = none →
        ARDATATRANSFER_DataDownloader_CancelThread semPost manager
          = (ARDATATRANSFER_ERROR_BAD_PARAMETER, none, []))
      ∧ (∀ m, manager = some m → m.dataDownloader = none →
        ARDATATRANSFER_DataDownloader_CancelThread semPost manager
          = (ARDATATRANSFER_ERROR_NOT_INITIALIZED, manager, []))
      ∧ (∀ m d, manager = some m → m.dataDownloader = some d →
        ARDATATRANSFER_DataDownloader_CancelThread semPost manager
            = (if semPost ≠ 0 then ARDATATRANSFER_ERROR_SYSTEM else ARDATATRANSFER_OK,
                some ⟨some { d with isCanceled := 1 }⟩, [Op.ARSAL_Sem_Post])
          ∧ ARDATATRANSFER_DataDownloader_CancelThread semPost2
              (ARDATATRANSFER_DataDownloader_CancelThread semPost manager).2.1
            = (if semPost2 ≠ 0 then ARDATATRANSFER_ERROR_SYSTEM else ARDATATRANSFER_OK,
                some ⟨some { d with isCanceled := 1 }⟩, [Op.ARSAL_Sem_Post])) := by
  refine ⟨?_, ?_, ?_⟩
  · rintro rfl
    rfl
  · rintro m rfl hd
    simp [ARDATATRANSFER_DataDownloader_CancelThread, hd]
  · rintro ⟨md⟩ d rfl hd
    simp only at hd
    subst hd
    simp [ARDATATRANSFER_DataDownloader_CancelThread]

theorem Initialize_manager_some (k : Constants) (env : NewEnv)
    (d : ARDATATRANSFER_DataDownloader_t) (deviceIP : Option CStr) (port : Int)
    (localDirectory : Option CStr) :
    ∃ d', (ARDATATRANSFER_DataDownloader_Initialize k env (some ⟨some d⟩) deviceIP port
        localDirectory).2.1 = some ⟨some d'⟩
      ∧ d'.isCanceled = d.isCanceled ∧ d'.isRunning = d.isRunning := by
  cases deviceIP with
  | none => exact ⟨d, rfl, rfl, rfl⟩
  | some ip =>
    cases localDirectory with
    | none => exact ⟨d, rfl, rfl, rfl⟩
    | some dir =>
      by_cases h : env.mkdirResultSys ≠ 0 ∧ EEXIST ≠ env.mkdirErrno
      · refine ⟨{ d with localDirectory := copyPath k dir }, ?_, rfl, rfl⟩
        simp only [ARDATATRANSFER_DataDownloader_Initialize, updateDataDownloader]
        rw [if_pos h]
      · refine ⟨{ d with localDirectory := copyPath k dir, ftp := env.ftp }, ?_, rfl, rfl⟩
        simp only [ARDATATRANSFER_DataDownloader_Initialize, updateDataDownloader]
        rw [if_neg h]

theorem Initialize_ne_already (k : Constants) (env : NewEnv)
    (manager : Option ARDATATRANSFER_Manager_t) (deviceIP : Option CStr) (port : Int)
    (localDirectory : Option CStr) :
    (ARDATATRANSFER_DataDownloader_Initialize k env manager deviceIP port localDirectory).1
      ≠ ARDATATRANSFER_ERROR_ALREADY_INITIALIZED := by
  unfold ARDATATRANSFER_DataDownloader_Initialize
  split
  · simp only
    split
    · simp
    · split <;> simp
  · simp

theorem Delete_idle (semPost : Int) (d : ARDATATRANSFER_DataDownloader_t)
    (h : d.isRunning = 0) :
    (ARDATATRANSFER_DataDownloader_Delete semPost (some ⟨some d⟩)).2.1 = some ⟨none⟩ := by
  simp [ARDATATRANSFER_DataDownloader_Delete, h]

theorem New_finish_result (env : NewEnv)
    (r : eARDATATRANSFER_ERROR × Option ARDATATRANSFER_Manager_t × List Op) :
    (New_finish env r).1 = r.1 := by
  unfold New_finish
  split <;> rfl

theorem New_finish_failed (env : NewEnv) (code : eARDATATRANSFER_ERROR)
    (d : ARDATATRANSFER_DataDownloader_t) (ops : List Op)
    (h1 : code ≠ ARDATATRANSFER_OK) (h2 : code ≠ ARDATATRANSFER_ERROR_ALREADY_INITIALIZED)
    (hr : d.isRunning = 0) :
    (New_finish env (code, some ⟨some d⟩, ops)).2.1 = some ⟨none⟩ := by
  unfold New_finish
  rw [if_pos ⟨h1, h2⟩]
  exact Delete_idle env.semPost d hr

theorem New_finish_ok (env : NewEnv) (m : Option ARDATATRANSFER_Manager_t) (ops : List Op) :
    New_finish env (ARDATATRANSFER_OK, m, ops) = (ARDATATRANSFER_OK, m, ops) := by
  simp [New_finish]

theorem New_fresh (k : Constants) (env : NewEnv) (deviceIP : Option CStr) (port : Int)
    (localDirectory : Option CStr) (hc : env.callocNull = false) (hs : env.semInit = 0) :
    ARDATATRANSFER_DataDownloader_New k env (some ⟨none⟩) deviceIP port localDirectory
      = New_finish env
          ((ARDATATRANSFER_DataDownloader_Initialize k env
              (some ⟨some zeroedDataDownloader⟩) deviceIP port localDirectory).1,
            (ARDATATRANSFER_DataDownloader_Initialize k env
              (some ⟨some zeroedDataDownloader⟩) deviceIP port localDirectory).2.1,
            [Op.calloc, Op.ARSAL_Sem_Init]
              ++ (ARDATATRANSFER_DataDownloader_Initialize k env
                (some ⟨some zeroedDataDownloader⟩) deviceIP port localDirectory).2.2) := by
  simp only [ARDATATRANSFER_DataDownloader_New, hc, hs, Bool.false_eq_true, if_false, ne_eq,
    not_true_eq_false]
  rfl

theorem New_calloc_null (k : Constants) (env : NewEnv) (deviceIP : Option CStr) (port : Int)
    (localDirectory : Option CStr) (hc : env.callocNull = true) :
    ARDATATRANSFER_DataDownloader_New k env (some ⟨none⟩) deviceIP port localDirectory
      = (ARDATATRANSFER_ERROR_ALLOC, some ⟨none⟩, [Op.calloc]) := by
  simp [ARDATATRANSFER_DataDownloader_New, hc, New_finish,
    ARDATATRANSFER_DataDownloader_Delete]

theorem New_semInit_fails (k : Constants) (env : NewEnv) (deviceIP : Option CStr)
    (port : Int) (localDirectory : Option CStr) (hc : env.callocNull = false)
    (hs : env.semInit ≠ 0) :
    ARDATATRANSFER_DataDownloader_New k env (some ⟨none⟩) deviceIP port localDirectory
      = (ARDATATRANSFER_ERROR_SYSTEM, some ⟨none⟩,
          [Op.calloc, Op.ARSAL_Sem_Init, Op.ARSAL_Sem_Post, Op.ARSAL_Sem_Destroy,
           Op.free]) := by
  simp [ARDATATRANSFER_DataDownloader_New, hc, hs, New_finish,
    ARDATATRANSFER_DataDownloader_Delete, zeroedDataDownloader,
    ARDATATRANSFER_DataDownloader_CancelThread, ARDATATRANSFER_DataDownloader_Clear]

/-- C12. On a manager that has a session `New` returns AlreadyInitialized, makes no call
and leaves that session as it was. Every other failing call (null manager, `calloc`
returning NULL, `ARSAL_Sem_Init` failing, a null host or directory, `mkdir` failing, the
connection failing) leaves the manager without a session. Every successful call leaves a
session whose `isCanceled` and `isRunning` are both 0. -/
theorem New_atomic (k : Constants) (env : NewEnv)
    (manager : Option ARDATATRANSFER_Manager_t) (deviceIP : Option CStr) (port : Int)
    (localDirectory : Option CStr) :
    (∀ m d, manager = some m → m.dataDownloader = some d →
        ARDATATRANSFER_DataDownloader_New k env manager deviceIP port localDirectory
          = (ARDATATRANSFER_ERROR_ALREADY_INITIALIZED, manager, []))
      ∧ ((ARDATATRANSFER_DataDownloader_New k env manager deviceIP port localDirectory).1
            = ARDATATRANSFER_ERROR_ALREADY_INITIALIZED →
          ∃ m d, manager = some m ∧ m.dataDownloader = some d)
      ∧ ((ARDATATRANSFER_DataDownloader_New k env manager deviceIP port localDirectory).1
            ≠ ARDATATRANSFER_OK →
          (ARDATATRANSFER_DataDownloader_New k env manager deviceIP port localDirectory).1
            ≠ ARDATATRANSFER_ERROR_ALREADY_INITIALIZED →
          (ARDATATRANSFER_DataDownloader_New k env manager deviceIP port localDirectory).2.1
              = none
            ∨ (ARDATATRANSFER_DataDownloader_New k env manager deviceIP port
                localDirectory).2.1 = some ⟨none⟩)
      ∧ ((ARDATATRANSFER_DataDownloader_New k env manager deviceIP port localDirectory).1
            = ARDATATRANSFER_OK →
          ∃ d, (ARDATATRANSFER_DataDownloader_New k env manager deviceIP port
                localDirectory).2.1 = some ⟨some d⟩
            ∧ d.isCanceled = 0 ∧ d.isRunning = 0) := by
  match manager with
  | none =>
    simp [ARDATATRANSFER_DataDownloader_New, New_finish, ARDATATRANSFER_DataDownloader_Delete]
  | some ⟨some d⟩ =>
    simp [ARDATATRANSFER_DataDownloader_New, New_finish]
  | some ⟨none⟩ =>
    by_cases hc : env.callocNull = true
    · rw [New_calloc_null k env deviceIP port localDirectory hc]
      refine ⟨?_, by simp, by simp, by simp⟩
      intro m d hm hd
      cases hm
      cases hd
    · by_cases hs : env.semInit = 0
      · rw [Bool.not_eq_true] at hc
        obtain ⟨d', hd', hcn, hr⟩ := Initialize_manager_some k env zeroedDataDownloader
          deviceIP port localDirectory
        have hne := Initialize_ne_already k env (some ⟨some zeroedDataDownloader⟩) deviceIP
          port localDirectory
        have hcn' : d'.isCanceled = 0 := hcn
        have hr' : d'.isRunning = 0 := hr
        rw [New_fresh k env deviceIP port localDirectory hc hs, hd']
        refine ⟨?_, ?_, ?_, ?_⟩
        · intro m d hm hd
          cases hm
          cases hd
        · intro h
          rw [New_finish_result] at h
          exact absurd h hne
        · intro h1 h2
          rw [New_finish_result] at h1 h2
          right
          exact New_finish_failed env _ d' _ h1 h2 hr'
        · intro h1
          rw [New_finish_result] at h1
          simp only at h1
          rw [h1, New_finish_ok]
          exact ⟨d', rfl, hcn', hr'⟩
      · rw [Bool.not_eq_true] at hc
        rw [New_semInit_fails k env deviceIP port localDirectory hc hs]
        refine ⟨?_, by simp, by simp, by simp⟩
        intro m d hm hd
        cases hm
        cases hd

theorem Initialize_null (k : Constants) (env : NewEnv)
    (manager : Option ARDATATRANSFER_Manager_t) (deviceIP : Option CStr) (port : Int)
    (localDirectory : Option CStr) (h : deviceIP = none ∨ localDirectory = none) :
    ARDATATRANSFER_DataDownloader_Initialize k env manager deviceIP port localDirectory
      = (ARDATATRANSFER_ERROR_BAD_PARAMETER, manager, []) := by
  unfold ARDATATRANSFER_DataDownloader_Initialize
  rcases h with rfl | rfl
  · cases manager <;> rfl
  · cases manager <;> cases deviceIP <;> rfl

/-- C13, amended. When the remote host or the local directory is null, `Initialize`
returns BadParameter, leaves the manager as it was and makes no call: no directory is
created and no connection opened. `New` then creates no directory and opens no
connection either, and it returns BadParameter for a null manager and whenever it gets
as far as `Initialize` (a manager without a session, `calloc` and `ARSAL_Sem_Init`
succeeding). An empty string is not tested for. -/
theorem Initialize_null_arguments (k : Constants) (env : NewEnv)
    (manager : Option ARDATATRANSFER_Manager_t) (deviceIP : Option CStr) (port : Int)
    (localDirectory : Option CStr) (h : deviceIP = none ∨ localDirectory = none) :
    ARDATATRANSFER_DataDownloader_Initialize k env manager deviceIP port localDirectory
        = (ARDATATRANSFER_ERROR_BAD_PARAMETER, manager, [])
      ∧ (ARDATATRANSFER_DataDownloader_New k env manager deviceIP port
          localDirectory).2.2.filter Op.isMkdirOrConnection = []
      ∧ (manager = none →
          (ARDATATRANSFER_DataDownloader_New k env manager deviceIP port localDirectory).1
            = ARDATATRANSFER_ERROR_BAD_PARAMETER)
      ∧ (manager = some ⟨none⟩ → env.callocNull = false → env.semInit = 0 →
          (ARDATATRANSFER_DataDownloader_New k env manager deviceIP port localDirectory).1
            = ARDATATRANSFER_ERROR_BAD_PARAMETER) := by
  refine ⟨Initialize_null k env manager deviceIP port localDirectory h, ?_, ?_, ?_⟩
  · match manager with
    | none =>
      simp [ARDATATRANSFER_DataDownloader_New, New_finish,
        ARDATATRANSFER_DataDownloader_Delete]
    | some ⟨some d⟩ =>
      simp [ARDATATRANSFER_DataDownloader_New, New_finish]
    | some ⟨none⟩ =>
      by_cases hc : env.callocNull = true
      · rw [New_calloc_null k env deviceIP port localDirectory hc]
        rfl
      · rw [Bool.not_eq_true] at hc
        by_cases hs : env.semInit = 0
        · rw [New_fresh k env deviceIP port localDirectory hc hs,
            Initialize_null k env _ deviceIP port localDirectory h]
          simp [New_finish, ARDATATRANSFER_DataDownloader_Delete, zeroedDataDownloader,
            ARDATATRANSFER_DataDownloader_CancelThread, ARDATATRANSFER_DataDownloader_Clear,
            Op.isMkdirOrConnection]
        · rw [New_semInit_fails k env deviceIP port localDirectory hc hs]
          rfl
  · rintro rfl
    simp [ARDATATRANSFER_DataDownloader_New, New_finish]
  · rintro rfl hc hs
    rw [New_fresh k env deviceIP port localDirectory hc hs,
      Initialize_null k env _ deviceIP port localDirectory h, New_finish_result]

/-- C13, amended, at a call of `New` with a null host on a manager without a session. -/
theorem Initialize_null_arguments_witness :
    ARDATATRANSFER_DataDownloader_Initialize shipped newOkEnv
        (some ⟨some zeroedDataDownloader⟩) none 21 (some "/sd".toList)
        = (ARDATATRANSFER_ERROR_BAD_PARAMETER, some ⟨some zeroedDataDownloader⟩, [])
      ∧ ARDATATRANSFER_DataDownloader_New shipped newOkEnv freshManager none 21
          (some "/sd".toList)
        = (ARDATATRANSFER_ERROR_BAD_PARAMETER, some ⟨none⟩,
            [Op.calloc, Op.ARSAL_Sem_Init, Op.ARSAL_Sem_Post, Op.ARSAL_Sem_Destroy,
             Op.free]) :=
  ⟨(Initialize_null_arguments shipped newOkEnv (some ⟨some zeroedDataDownloader⟩) none 21
      (some "/sd".toList) (Or.inl rfl)).1, by decide⟩

/-- C13 as stated fails: with the empty string as host and as local directory,
`Initialize` does not return BadParameter; it creates the directory `/data`, opens a
connection to the host `""` and returns OK, and so does `New`. -/
theorem empty_strings_are_accepted :
    ARDATATRANSFER_DataDownloader_Initialize shipped newOkEnv
        (some ⟨some zeroedDataDownloader⟩) (some []) 21 (some [])
        = (ARDATATRANSFER_OK, some ⟨some ⟨0, 0, some 1, []⟩⟩,
            [Op.mkdir "/data".toList, Op.ARUTILS_Ftp_Connection_New [] 21])
      ∧ ARDATATRANSFER_DataDownloader_New shipped newOkEnv freshManager (some []) 21 (some [])
        = (ARDATATRANSFER_OK, some ⟨some ⟨0, 0, some 1, []⟩⟩,
            [Op.calloc, Op.ARSAL_Sem_Init, Op.mkdir "/data".toList,
             Op.ARUTILS_Ftp_Connection_New [] 21]) := by
  constructor
  · decide
  · decide

theorem ThreadRun_manager (k : Constants) (envs : Nat → CycleEnv) (fuel : Nat)
    (d : ARDATATRANSFER_DataDownloader_t) :
    ∃ v, (ARDATATRANSFER_DataDownloader_ThreadRun k envs fuel (some ⟨some d⟩)).manager
      = some ⟨some { d with isRunning := v }⟩ := by
  unfold ARDATATRANSFER_DataDownloader_ThreadRun
  simp only [setIsRunning]
  split
  · split
    · exact ⟨0, rfl⟩
    · exact ⟨1, rfl⟩
  · exact ⟨0, rfl⟩

/-- C14. No operation on an existing session resets `isCanceled`: a call of `ThreadRun`,
observed after any number of cycles (each with its reconciliation and its quota check),
leaves the session's fields other than `isRunning` as they were; `CancelThread` sets
`isCanceled` to 1; a `Delete` rejected with ThreadProcessing and a `New` rejected with
AlreadyInitialized leave the manager as it was. Consequently a `ThreadRun` called on the
session that a `CancelThread` has left is rejected with Cancelled, runs no cycle and
makes no call. -/
theorem isCanceled_stays_set (k : Constants) (envs : Nat → CycleEnv) (fuel : Nat)
    (env : NewEnv) (semPost : Int) (d : ARDATATRANSFER_DataDownloader_t)
    (deviceIP : Option CStr) (port : Int) (localDirectory : Option CStr) :
    (∃ d', (ARDATATRANSFER_DataDownloader_ThreadRun k envs fuel (some ⟨some d⟩)).manager
          = some ⟨some d'⟩ ∧ d'.isCanceled = d.isCanceled)
      ∧ (∃ d', (ARDATATRANSFER_DataDownloader_CancelThread semPost (some ⟨some d⟩)).2.1
          = some ⟨some d'⟩ ∧ d'.isCanceled = 1)
      ∧ (d.isRunning ≠ 0 →
          (ARDATATRANSFER_DataDownloader_Delete semPost (some ⟨some d⟩)).1
              = ARDATATRANSFER_ERROR_THREAD_PROCESSING
            ∧ (ARDATATRANSFER_DataDownloader_Delete semPost (some ⟨some d⟩)).2.1
              = some ⟨some d⟩)
      ∧ ARDATATRANSFER_DataDownloader_New k env (some ⟨some d⟩) deviceIP port localDirectory
          = (ARDATATRANSFER_ERROR_ALREADY_INITIALIZED, some ⟨some d⟩, [])
      ∧ (ARDATATRANSFER_DataDownloader_ThreadRun k envs fuel
            (ARDATATRANSFER_DataDownloader_CancelThread semPost (some ⟨some d⟩)).2.1).result
          = ARDATATRANSFER_ERROR_CANCELED
      ∧ (ARDATATRANSFER_DataDownloader_ThreadRun k envs fuel
            (ARDATATRANSFER_DataDownloader_CancelThread semPost (some ⟨some d⟩)).2.1).trace
          = []
      ∧ (ARDATATRANSFER_DataDownloader_ThreadRun k envs fuel
            (ARDATATRANSFER_DataDownloader_CancelThread semPost (some ⟨some d⟩)).2.1).cycles
          = 0 := by
  refine ⟨?_, ⟨_, rfl, rfl⟩, ?_, ?_, ?_, ?_, ?_⟩
  · obtain ⟨v, hv⟩ := ThreadRun_manager k envs fuel d
    exact ⟨_, hv, rfl⟩
  · intro hr
    simp [ARDATATRANSFER_DataDownloader_Delete, hr]
  · simp [ARDATATRANSFER_DataDownloader_New, New_finish]
  · simp [ARDATATRANSFER_DataDownloader_ThreadRun, ARDATATRANSFER_DataDownloader_CancelThread,
      ThreadRun_check]
  · simp [ARDATATRANSFER_DataDownloader_ThreadRun, ARDATATRANSFER_DataDownloader_CancelThread,
      ThreadRun_check]
  · simp [ARDATATRANSFER_DataDownloader_ThreadRun, ARDATATRANSFER_DataDownloader_CancelThread,
      ThreadRun_check]

/-! ## Errors of the quota check and bounds of the path building -/

/-- C18. `CheckUsedMemory` returns System when the free-space query fails, and then makes
no walk, removes no file and leaves the accumulator alone; it returns System, having
removed no file, when the first walk fails; and it returns OK whenever the free-space
query and every walk it makes succeed. -/
theorem CheckUsedMemory_errors (k : Constants) (q : QuotaEnv)
    (dataFwt0 : ARDATATRANSFER_DataDownloader_Fwt_t) (localPath : CStr) (spacePercent : ℚ) :
    (q.freeSpaceError ≠ ARUTILS_OK →
        ARDATATRANSFER_DataDownloader_CheckUsedMemory k q dataFwt0 localPath spacePercent
          = { result := ARDATATRANSFER_ERROR_SYSTEM, walks := 0, dataFwt := dataFwt0,
              removed := [] })
      ∧ (q.freeSpaceError = ARUTILS_OK → q.walk1ResultSys ≠ 0 →
        (ARDATATRANSFER_DataDownloader_CheckUsedMemory k q dataFwt0 localPath
            spacePercent).result = ARDATATRANSFER_ERROR_SYSTEM
          ∧ (ARDATATRANSFER_DataDownloader_CheckUsedMemory k q dataFwt0 localPath
            spacePercent).walks = 1
          ∧ (ARDATATRANSFER_DataDownloader_CheckUsedMemory k q dataFwt0 localPath
            spacePercent).removed = [])
      ∧ (q.freeSpaceError = ARUTILS_OK → q.walk1ResultSys = 0 →
        ((ARDATATRANSFER_DataDownloader_CheckUsedMemory k q dataFwt0 localPath
            spacePercent).walks = 2 → q.walk2ResultSys = 0) →
        (ARDATATRANSFER_DataDownloader_CheckUsedMemory k q dataFwt0 localPath
            spacePercent).result = ARDATATRANSFER_OK) := by
  refine ⟨?_, ?_, ?_⟩
  · intro h
    simp [ARDATATRANSFER_DataDownloader_CheckUsedMemory, h]
  · intro h1 h2
    simp [ARDATATRANSFER_DataDownloader_CheckUsedMemory, h1, h2, UsedMemoryCallback_removed]
  · intro h1 h2
    unfold ARDATATRANSFER_DataDownloader_CheckUsedMemory
    simp only [h1, h2, ne_eq, not_true_eq_false, if_false]
    split
    · split
      · rename_i h3
        intro h4
        exact absurd (h4 rfl) h3
      · intro _
        rfl
    · intro _
      rfl

theorem copyPath_eq_take (k : Constants) (s : CStr) :
    copyPath k s = s.take (k.ARUTILS_FTP_MAX_PATH_SIZE - 1) := by
  unfold copyPath terminate strncpy
  rw [List.take_take, Nat.min_eq_left (Nat.sub_le _ _)]

theorem take_append_take (a s : CStr) (n : Nat) :
    (a.take n ++ s).take n = (a ++ s).take n := by
  by_cases h : a.length ≤ n
  · rw [List.take_of_length_le h]
  · have h' : n ≤ a.length := Nat.le_of_lt (Nat.lt_of_not_le h)
    have hl : (a.take n).length = n := by rw [List.length_take]; exact Nat.min_eq_left h'
    rw [List.take_append_of_le_length (by omega), List.take_take, Nat.min_self,
      List.take_append_of_le_length h']

theorem catPath_bound (k : Constants) (b : CStr)
    (hmax : k.ARUTILS_FTP_MAX_PATH_SIZE < 18446744073709551616)
    (hb : b.length + 1 ≤ k.ARUTILS_FTP_MAX_PATH_SIZE) :
    size_t_sub (size_t_sub k.ARUTILS_FTP_MAX_PATH_SIZE (strlen b)) 1
      = k.ARUTILS_FTP_MAX_PATH_SIZE - 1 - b.length := by
  unfold strlen
  rw [size_t_sub_of_le _ _ (by omega) hmax, size_t_sub_of_le _ _ (by omega) (by omega)]
  omega

theorem catPath_eq_take (k : Constants) (b s : CStr)
    (hmax : k.ARUTILS_FTP_MAX_PATH_SIZE < 18446744073709551616)
    (hb : b.length + 1 ≤ k.ARUTILS_FTP_MAX_PATH_SIZE) :
    catPath k b s = (b ++ s).take (k.ARUTILS_FTP_MAX_PATH_SIZE - 1) := by
  have h : (b ++ s).take (k.ARUTILS_FTP_MAX_PATH_SIZE - 1)
      = b.take (k.ARUTILS_FTP_MAX_PATH_SIZE - 1)
        ++ s.take (k.ARUTILS_FTP_MAX_PATH_SIZE - 1 - b.length) :=
    List.take_append_eq_append_take
  unfold catPath strncat
  have hb' : b.take (k.ARUTILS_FTP_MAX_PATH_SIZE - 1) = b :=
    List.take_of_length_le (by omega)
  rw [catPath_bound k b hmax hb, h, hb']

theorem take_length_succ_le (s : CStr) (n : Nat) (h0 : 0 < n) :
    (s.take (n - 1)).length + 1 ≤ n := by
  rw [List.length_take]
  omega

theorem catPath_take (k : Constants) (a s : CStr)
    (h0 : 0 < k.ARUTILS_FTP_MAX_PATH_SIZE)
    (hmax : k.ARUTILS_FTP_MAX_PATH_SIZE < 18446744073709551616) :
    catPath k (a.take (k.ARUTILS_FTP_MAX_PATH_SIZE - 1)) s
      = (a ++ s).take (k.ARUTILS_FTP_MAX_PATH_SIZE - 1) := by
  rw [catPath_eq_take k _ s hmax (take_length_succ_le a _ h0), take_append_take]

/-- C20. With a buffer size `0 < MAX < 2 ^ 64`, for every local root and entry name: the
string a buffer holds after `strncpy` and the terminator, and after every `strncat`, has
length at most `MAX - 1`; the bound `MAX - strlen(buffer) - 1` of every `strncat` on
such a buffer does not wrap (it is the natural number `MAX - 1 - strlen(buffer)`); and
every built path is the first `MAX - 1` bytes of the concatenation of its segments,
hence that concatenation itself when it is no longer than `MAX - 1`. -/
theorem path_building_bounds (k : Constants) (localRoot name : CStr)
    (h0 : 0 < k.ARUTILS_FTP_MAX_PATH_SIZE)
    (hmax : k.ARUTILS_FTP_MAX_PATH_SIZE < 18446744073709551616) :
    (∀ s, (copyPath k s).length ≤ k.ARUTILS_FTP_MAX_PATH_SIZE - 1)
      ∧ (∀ b s, b.length ≤ k.ARUTILS_FTP_MAX_PATH_SIZE - 1 →
          size_t_sub (size_t_sub k.ARUTILS_FTP_MAX_PATH_SIZE (strlen b)) 1
              = k.ARUTILS_FTP_MAX_PATH_SIZE - 1 - b.length
            ∧ (catPath k b s).length ≤ k.ARUTILS_FTP_MAX_PATH_SIZE - 1
            ∧ catPath k b s = (b ++ s).take (k.ARUTILS_FTP_MAX_PATH_SIZE - 1))
      ∧ resumeRemotePath k name
          = ("data/".toList ++ name).take (k.ARUTILS_FTP_MAX_PATH_SIZE - 1)
      ∧ resumeLocalPath k localRoot name
          = (localRoot ++ "/data/".toList ++ name).take (k.ARUTILS_FTP_MAX_PATH_SIZE - 1)
      ∧ resumeRestoreName k localRoot name
          = (localRoot ++ "/data/".toList
              ++ name.drop k.ARDATATRANSFER_MANAGER_DOWNLOADER_PREFIX_DOWNLOADING.length).take
              (k.ARUTILS_FTP_MAX_PATH_SIZE - 1)
      ∧ newerInitialPath k name
          = ("data/".toList ++ name).take (k.ARUTILS_FTP_MAX_PATH_SIZE - 1)
      ∧ newerRemotePath k name
          = ("data/".toList ++ k.ARDATATRANSFER_MANAGER_DOWNLOADER_PREFIX_DOWNLOADING
              ++ name).take (k.ARUTILS_FTP_MAX_PATH_SIZE - 1)
      ∧ newerLocalPath k localRoot name
          = (localRoot ++ "/data/".toList
              ++ k.ARDATATRANSFER_MANAGER_DOWNLOADER_PREFIX_DOWNLOADING ++ name).take
              (k.ARUTILS_FTP_MAX_PATH_SIZE - 1)
      ∧ newerRestoreName k localRoot name
          = (localRoot ++ "/data/".toList ++ name).take (k.ARUTILS_FTP_MAX_PATH_SIZE - 1)
      ∧ quotaLocalPath k localRoot
          = (localRoot ++ "/data".toList).take (k.ARUTILS_FTP_MAX_PATH_SIZE - 1) := by
  have e1 : ARDATATRANSFER_DATA_DOWNLOADER_FTP_ROOT ++ "/".toList = "data/".toList := rfl
  have e2 : "/".toList ++ ARDATATRANSFER_DATA_DOWNLOADER_FTP_ROOT ++ "/".toList
      = "/data/".toList := rfl
  have e3 : "/".toList ++ ARDATATRANSFER_DATA_DOWNLOADER_FTP_ROOT = "/data".toList := rfl
  refine ⟨?_, ?_, ?_, ?_, ?_, ?_, ?_, ?_, ?_, ?_⟩
  · intro s
    rw [copyPath_eq_take, List.length_take]
    exact Nat.min_le_left _ _
  · intro b s hb
    have hb' : b.length + 1 ≤ k.ARUTILS_FTP_MAX_PATH_SIZE := by omega
    refine ⟨catPath_bound k b hmax hb', ?_, catPath_eq_take k b s hmax hb'⟩
    rw [catPath_eq_take k b s hmax hb', List.length_take]
    exact Nat.min_le_left _ _
  · unfold resumeRemotePath
    simp only [e1, copyPath_eq_take, catPath_take k _ _ h0 hmax]
  · unfold resumeLocalPath
    simp only [e2, copyPath_eq_take, catPath_take k _ _ h0 hmax]
  · unfold resumeRestoreName
    simp only [e2, strlen, copyPath_eq_take, catPath_take k _ _ h0 hmax]
  · unfold newerInitialPath
    simp only [e1, copyPath_eq_take, catPath_take k _ _ h0 hmax]
  · unfold newerRemotePath
    simp only [e1, copyPath_eq_take, catPath_take k _ _ h0 hmax]
  · unfold newerLocalPath
    simp only [e2, copyPath_eq_take, catPath_take k _ _ h0 hmax, List.append_assoc]
  · unfold newerRestoreName
    simp only [e2, copyPath_eq_take, catPath_take k _ _ h0 hmax]
  · unfold quotaLocalPath
    simp only [e3, copyPath_eq_take, catPath_take k _ _ h0 hmax]

/-- C20 at a buffer of 16 bytes, the local root `/mnt/sdcard` and the entry `a`: the
local path of the second loop is cut to its first 15 bytes. -/
theorem path_building_bounds_witness :
    newerLocalPath { shipped with ARUTILS_FTP_MAX_PATH_SIZE := 16 } "/mnt/sdcard".toList
        "a".toList
      = "/mnt/sdcard/dat".toList := by
  rw [(path_building_bounds { shipped with ARUTILS_FTP_MAX_PATH_SIZE := 16 }
    "/mnt/sdcard".toList "a".toList (by decide) (by decide)).2.2.2.2.2.2.2.1]
  decide

/-! ## Partial files keep the marker -/

theorem foldl_forall_ops (f : List Op → CStr → List Op) (P : Op → Prop) (l : List CStr) :
    ∀ t : List Op, (∀ op ∈ t, P op) →
      (∀ u, ∀ n ∈ l, ∃ a, f u n = u ++ a ∧ ∀ op ∈ a, P op) →
      ∀ op ∈ l.foldl f t, P op := by
  induction l with
  | nil => intro t ht _; exact ht
  | cons b l ih =>
    intro t ht hstep
    obtain ⟨a, ha, hP⟩ := hstep t b (List.mem_cons_self b l)
    rw [List.foldl_cons, ha]
    apply ih
    · intro op hop
      rcases List.mem_append.1 hop with h | h
      · exact ht op h
      · exact hP op h
    · exact fun u n hn => hstep u n (List.mem_cons_of_mem b hn)

theorem foldl_invariant_ops (f : List Op → CStr → List Op) (Q : List Op → Prop)
    (l : List CStr) :
    ∀ t : List Op, Q t → (∀ u, ∀ n ∈ l, Q u → Q (f u n)) → Q (l.foldl f t) := by
  induction l with
  | nil => intro t ht _; exact ht
  | cons b l ih =>
    intro t ht hstep
    rw [List.foldl_cons]
    exact ih _ (hstep t b (List.mem_cons_self b l) ht)
      (fun u n hn => hstep u n (List.mem_cons_of_mem b hn))

theorem renamesFollowGets_append (e : CycleEnv) (t b : List Op)
    (ht : renamesFollowGets e t)
    (hb : ∀ j oldName newName,
      b[j]? = some (Op.ARUTILS_FileSystem_Rename oldName newName) →
      ∃ remotePath resume, 2 ≤ j
        ∧ b[j - 2]? = some (Op.ARUTILS_Ftp_Get remotePath oldName resume)
        ∧ e.outcome (t.length + (j - 2)) = ARUTILS_OK) :
    renamesFollowGets e (t ++ b) := by
  intro i o n h
  by_cases hi : i < t.length
  · rw [List.getElem?_append_left hi] at h
    obtain ⟨r, res, h2, hget, hok⟩ := ht i o n h
    exact ⟨r, res, h2, by rw [List.getElem?_append_left (by omega)]; exact hget, hok⟩
  · have hi' : t.length ≤ i := Nat.le_of_not_lt hi
    rw [List.getElem?_append_right hi'] at h
    obtain ⟨r, res, h2, hget, hok⟩ := hb (i - t.length) o n h
    refine ⟨r, res, by omega, ?_, ?_⟩
    · rw [List.getElem?_append_right (by omega)]
      have : i - 2 - t.length = i - t.length - 2 := by omega
      rw [this]
      exact hget
    · have : i - 2 = t.length + (i - t.length - 2) := by omega
      rw [this]
      exact hok

theorem resumeBody_renamesFollowGets (k : Constants) (localRoot : CStr) (e : CycleEnv)
    (t : List Op) (name : CStr) (ht : renamesFollowGets e t) :
    renamesFollowGets e (resumeBody k localRoot e t name) := by
  rw [resumeBody_steps]
  apply renamesFollowGets_append e t _ ht
  intro j o n h
  by_cases h1 : e.outcome t.length = ARUTILS_OK
  · rw [if_pos h1] at h
    rcases j with _ | _ | _ | j
    · simp at h
    · simp at h
    · simp only [List.getElem?_cons_succ, List.getElem?_cons_zero, Option.some.injEq,
        Op.ARUTILS_FileSystem_Rename.injEq] at h
      obtain ⟨rfl, rfl⟩ := h
      exact ⟨resumeRemotePath k name, true, le_refl 2, by simp [h1], by simpa using h1⟩
    · simp at h
  · rw [if_neg h1] at h
    rcases j with _ | j
    · simp at h
    · simp at h

theorem newerBody_renamesFollowGets (k : Constants) (localRoot : CStr) (e : CycleEnv)
    (t : List Op) (name : CStr) (ht : renamesFollowGets e t) :
    renamesFollowGets e (newerBody k localRoot e t name) := by
  by_cases hc : carriesMarker k name
  · rw [newerBody_marked k localRoot e t name hc]
    exact ht
  · rw [newerBody_unmarked k localRoot e t name hc]
    apply renamesFollowGets_append e t _ ht
    intro j o n h
    by_cases h1 : e.outcome t.length = ARUTILS_OK
    · by_cases h2 : e.outcome (t.length + 1) = ARUTILS_OK
      · rw [if_pos h1, if_pos h2] at h
        rcases j with _ | _ | _ | _ | j
        · simp at h
        · simp at h
        · simp at h
        · simp only [List.getElem?_cons_succ, List.getElem?_cons_zero, Option.some.injEq,
            Op.ARUTILS_FileSystem_Rename.injEq] at h
          obtain ⟨rfl, rfl⟩ := h
          exact ⟨newerRemotePath k name, false, by omega, by simp [h1, h2], by simpa using h2⟩
        · simp at h
      · rw [if_pos h1, if_neg h2] at h
        rcases j with _ | _ | j
        · simp at h
        · simp at h
        · simp at h
    · rw [if_neg h1] at h
      rcases j with _ | j
      · simp at h
      · simp at h

theorem cycle_renamesFollowGets (k : Constants) (localRoot : CStr) (e : CycleEnv) :
    renamesFollowGets e (cycle k localRoot e) := by
  have h0 : renamesFollowGets e [Op.ARUTILS_Ftp_List ARDATATRANSFER_DATA_DOWNLOADER_FTP_ROOT] := by
    intro i o n h
    rcases i with _ | i
    · simp at h
    · simp at h
  have htail : ∀ (t : List Op) (b : List Op), renamesFollowGets e t →
      (∀ op ∈ b, ∀ o n, op ≠ Op.ARUTILS_FileSystem_Rename o n) →
      renamesFollowGets e (t ++ b) := by
    intro t b ht hb
    apply renamesFollowGets_append e t b ht
    intro j o n h
    exact absurd rfl (hb _ (List.mem_iff_getElem?.2 ⟨j, h⟩) o n)
  have h1 : renamesFollowGets e
      (if e.outcome 0 = ARUTILS_OK then
        (ARDATATRANSFER_Manager_List_GetNextItem e.resultList
          (some k.ARDATATRANSFER_MANAGER_DOWNLOADER_PREFIX_DOWNLOADING)).foldl
          (resumeBody k localRoot e)
          [Op.ARUTILS_Ftp_List ARDATATRANSFER_DATA_DOWNLOADER_FTP_ROOT]
      else [Op.ARUTILS_Ftp_List ARDATATRANSFER_DATA_DOWNLOADER_FTP_ROOT]) := by
    split
    · exact foldl_invariant_ops _ (renamesFollowGets e) _ _ h0
        (fun u n _ hu => resumeBody_renamesFollowGets k localRoot e u n hu)
    · exact h0
  have h2 : ∀ t : List Op, renamesFollowGets e t → renamesFollowGets e
      (if e.outcome 0 = ARUTILS_OK then
        (ARDATATRANSFER_Manager_List_GetNextItem e.resultList none).foldl
          (newerBody k localRoot e) t
      else t) := by
    intro t ht
    split
    · exact foldl_invariant_ops _ (renamesFollowGets e) _ _ ht
        (fun u n _ hu => newerBody_renamesFollowGets k localRoot e u n hu)
    · exact ht
  have h3 : ∀ t : List Op, renamesFollowGets e t → renamesFollowGets e
      (if e.outcome 0 ≠ ARUTILS_ERROR_FTP_CANCELED then
        t ++ [Op.ARDATATRANSFER_DataDownloader_CheckUsedMemory (quotaLocalPath k localRoot)
          ARDATATRANSFER_DATA_DOWNLOADER_SPACE_PERCENT]
      else t) := by
    intro t ht
    split
    · exact htail t _ ht (by simp)
    · exact ht
  unfold cycle
  exact htail _ _ (h3 _ (h2 _ h1)) (by simp)

theorem baseName_of_data_path (localRoot n : CStr) (hn : '/' ∉ n) :
    baseName (localRoot ++ "/data/".toList ++ n) = n := by
  have e : "/data/".toList = "/data".toList ++ ['/'] := rfl
  unfold baseName
  rw [e, List.reverse_append, List.reverse_append, List.reverse_append,
    List.takeWhile_append_of_pos]
  · simp
  · intro a ha
    rw [List.mem_reverse] at ha
    simp only [bne_iff_ne, ne_eq]
    rintro rfl
    exact hn ha

theorem cycle_gets_marked (k : Constants) (localRoot : CStr) (e : CycleEnv)
    (hmax : k.ARUTILS_FTP_MAX_PATH_SIZE < 18446744073709551616)
    (hfit : ∀ name ∈ e.resultList, fits k (localInProgressPath k localRoot name)) :
    ∀ op ∈ cycle k localRoot e, ∀ remotePath localPath resume,
      op = Op.ARUTILS_Ftp_Get remotePath localPath resume →
      ∃ n, carriesMarker k n ∧ localPath = localRoot ++ "/data/".toList ++ n := by
  have hf : (fun name : CStr =>
      k.ARDATATRANSFER_MANAGER_DOWNLOADER_PREFIX_DOWNLOADING.isPrefixOf name)
      = fun name => decide (carriesMarker k name) := by
    funext name
    rw [Bool.eq_iff_iff, isPrefixOf_iff, decide_eq_true_iff]
  have h0 : ∀ op ∈ [Op.ARUTILS_Ftp_List ARDATATRANSFER_DATA_DOWNLOADER_FTP_ROOT],
      ∀ remotePath localPath resume, op = Op.ARUTILS_Ftp_Get remotePath localPath resume →
      ∃ n, carriesMarker k n ∧ localPath = localRoot ++ "/data/".toList ++ n := by
    intro op hop r l b h
    rw [List.mem_singleton] at hop
    rw [hop] at h
    cases h
  have h1 : ∀ t : List Op, (∀ op ∈ t, ∀ remotePath localPath resume,
        op = Op.ARUTILS_Ftp_Get remotePath localPath resume →
        ∃ n, carriesMarker k n ∧ localPath = localRoot ++ "/data/".toList ++ n) →
      ∀ op ∈ (ARDATATRANSFER_Manager_List_GetNextItem e.resultList
          (some k.ARDATATRANSFER_MANAGER_DOWNLOADER_PREFIX_DOWNLOADING)).foldl
          (resumeBody k localRoot e) t,
        ∀ remotePath localPath resume,
        op = Op.ARUTILS_Ftp_Get remotePath localPath resume →
        ∃ n, carriesMarker k n ∧ localPath = localRoot ++ "/data/".toList ++ n := by
    intro t ht
    apply foldl_forall_ops _ _ _ t ht
    intro u n hn
    unfold ARDATATRANSFER_Manager_List_GetNextItem at hn
    simp only [hf, List.mem_filter, decide_eq_true_iff] at hn
    have hfits := hfit n hn.1
    unfold localInProgressPath at hfits
    rw [if_pos hn.2] at hfits
    refine ⟨_, resumeBody_steps k localRoot e u n, ?_⟩
    intro op hop r l b h
    rw [resumeLocalPath_of_fits k localRoot n hmax hfits] at hop
    refine ⟨n, hn.2, ?_⟩
    subst h
    split at hop
    · simp only [List.mem_cons, Op.ARUTILS_Ftp_Get.injEq, reduceCtorEq, List.not_mem_nil,
        or_false] at hop
      exact hop.2.1
    · simp only [List.mem_cons, Op.ARUTILS_Ftp_Get.injEq, reduceCtorEq, List.not_mem_nil,
        or_false] at hop
      exact hop.2.1
  have h2 : ∀ t : List Op, (∀ op ∈ t, ∀ remotePath localPath resume,
        op = Op.ARUTILS_Ftp_Get remotePath localPath resume →
        ∃ n, carriesMarker k n ∧ localPath = localRoot ++ "/data/".toList ++ n) →
      ∀ op ∈ (ARDATATRANSFER_Manager_List_GetNextItem e.resultList none).foldl
          (newerBody k localRoot e) t,
        ∀ remotePath localPath resume,
        op = Op.ARUTILS_Ftp_Get remotePath localPath resume →
        ∃ n, carriesMarker k n ∧ localPath = localRoot ++ "/data/".toList ++ n := by
    intro t ht
    apply foldl_forall_ops _ _ _ t ht
    intro u n hn
    unfold ARDATATRANSFER_Manager_List_GetNextItem at hn
    by_cases hc : carriesMarker k n
    · exact ⟨[], by simp [newerBody_marked k localRoot e u n hc], by simp⟩
    · have hfits := hfit n hn
      unfold localInProgressPath at hfits
      rw [if_neg hc] at hfits
      refine ⟨_, newerBody_unmarked k localRoot e u n hc, ?_⟩
      intro op hop r l b h
      rw [newerLocalPath_of_fits k localRoot n hmax hfits] at hop
      refine ⟨k.ARDATATRANSFER_MANAGER_DOWNLOADER_PREFIX_DOWNLOADING ++ n,
        List.prefix_append _ _, ?_⟩
      subst h
      split at hop
      · split at hop
        · simp only [List.mem_cons, Op.ARUTILS_Ftp_Get.injEq, reduceCtorEq, List.not_mem_nil,
            or_false, false_or] at hop
          rw [hop.2.1, List.append_assoc]
        · simp only [List.mem_cons, Op.ARUTILS_Ftp_Get.injEq, reduceCtorEq, List.not_mem_nil,
            or_false, false_or] at hop
          rw [hop.2.1, List.append_assoc]
      · simp only [List.mem_cons, reduceCtorEq, List.not_mem_nil, or_false] at hop
  intro op hop
  unfold cycle at hop
  simp only [List.mem_append, List.mem_singleton] at hop
  rcases hop with hop | hop
  · split at hop
    · rcases List.mem_append.1 hop with hop | hop
      · split at hop
        · exact h2 _ (h1 _ h0) op hop
        · exact h0 op hop
      · intro r l b h
        rw [List.mem_singleton] at hop
        rw [hop] at h
        cases h
    · split at hop
      · exact h2 _ (h1 _ h0) op hop
      · exact h0 op hop
  · intro r l b h
    rw [hop] at h
    cases h

/-- C15, amended. When every path built for the listed entries fits the path buffer,
then in a cycle, whatever the calls return, every get writes to a local path
`<localRoot>/data/<n>` whose name `n` carries the in-progress marker (and `n` is the base
name of that path when it holds no `/`). With or without that condition, every local
rename comes two calls after the get that wrote the renamed path, and that get
succeeded. -/
theorem gets_write_marked_names (k : Constants) (localRoot : CStr) (e : CycleEnv)
    (hmax : k.ARUTILS_FTP_MAX_PATH_SIZE < 18446744073709551616)
    (hfit : ∀ name ∈ e.resultList, fits k (localInProgressPath k localRoot name)) :
    (∀ remotePath localPath resume,
        Op.ARUTILS_Ftp_Get remotePath localPath resume ∈ cycle k localRoot e →
        ∃ n, carriesMarker k n ∧ localPath = localRoot ++ "/data/".toList ++ n
          ∧ ('/' ∉ n → baseName localPath = n))
      ∧ renamesFollowGets e (cycle k localRoot e) := by
  refine ⟨?_, cycle_renamesFollowGets k localRoot e⟩
  intro r l b hmem
  obtain ⟨n, hn, hl⟩ := cycle_gets_marked k localRoot e hmax hfit _ hmem r l b rfl
  exact ⟨n, hn, hl, fun hs => by rw [hl]; exact baseName_of_data_path localRoot n hs⟩

/-- C15, amended, at the cycle over the listing `["a"]` in which the remote delete
fails: the local rename follows the successful get. -/
theorem gets_write_marked_names_witness :
    renamesFollowGets deleteFailsEnv (cycle shipped "/sd".toList deleteFailsEnv) :=
  (gets_write_marked_names shipped "/sd".toList deleteFailsEnv (by decide) (by decide)).2

/-- C15 as stated fails: with a local root of 244 bytes the local path of the get of
the entry `a` is cut to 255 bytes, and the file is written under the base name `downl`,
which does not carry the marker. -/
theorem truncated_get_path_loses_marker :
    Op.ARUTILS_Ftp_Get "data/downloading_a".toList (longLocalRoot ++ "/data/downl".toList)
        false ∈ cycle shipped longLocalRoot oneEntryOkEnv
      ∧ baseName (longLocalRoot ++ "/data/downl".toList) = "downl".toList
      ∧ ¬ carriesMarker shipped "downl".toList := by
  refine ⟨?_, ?_, ?_⟩
  · decide!
  · decide!
  · decide

/-! ## At most one copy -/

theorem CopyInv_move (P : CStr) (rp lp : CStr → CStr) (hrp : Function.Injective rp)
    (hlp : Function.Injective lp) (s : Mirror) (h : CopyInv P rp lp s) (a : CStr)
    (ha : s.remoteFiles (rp a) = true) :
    CopyInv P rp lp ⟨Function.update s.remoteFiles (rp a) false,
      Function.update s.localFiles (lp a) true⟩ := by
  constructor <;> intro x <;>
    simp only [Function.update_apply, hrp.eq_iff, hlp.eq_iff] <;>
    have h1 := h.a x <;> have h2 := h.b x <;> have h3 := h.c x <;> have h4 := h.d x <;>
    have h5 := h.e x <;> have h6 := h.f x <;> have h7 := h.g x <;>
    have k1 := h.a a <;> have k2 := h.b a <;> have k3 := h.c a <;> have k4 := h.d a <;>
    have k5 := h.e a <;> have k6 := h.f a <;> have k7 := h.g a <;>
    by_cases e1 : x = a <;> by_cases e2 : P ++ x = a <;> by_cases e3 : P ++ (P ++ x) = a <;>
    simp_all

theorem CopyInv_strip (P : CStr) (rp lp : CStr → CStr)
    (hlp : Function.Injective lp) (s : Mirror) (h : CopyInv P rp lp s) (n : CStr)
    (hn : s.localFiles (lp (P ++ n)) = true) :
    CopyInv P rp lp ⟨s.remoteFiles,
      Function.update (Function.update s.localFiles (lp (P ++ n)) false) (lp n) true⟩ := by
  have hnp : ∀ y, P ++ y ≠ n := by
    intro y hy
    have := h.g y
    rw [hy, hn] at this
    cases this
  have hne : n ≠ P ++ n := fun hh => hnp n hh.symm
  have k1 := h.a (P ++ n)
  have k4 := h.d n
  have k5 := h.e n
  have k3 := h.c n
  constructor <;> intro x <;>
    simp only [Function.update_apply, hlp.eq_iff] <;>
    have h1 := h.a x <;> have h2 := h.b x <;> have h3 := h.c x <;> have h4 := h.d x <;>
    have h5 := h.e x <;> have h6 := h.f x <;> have h7 := h.g x <;>
    have p1 := hnp x <;> have p2 := hnp (P ++ x) <;>
    by_cases e1 : x = n <;> by_cases e4 : x = P ++ n <;>
    simp_all

theorem CopyInv_mark (P : CStr) (rp lp : CStr → CStr) (hrp : Function.Injective rp)
    (s : Mirror) (h : CopyInv P rp lp s) (m : CStr)
    (hm : s.remoteFiles (rp m) = true) (hu : ¬ P <+: m) :
    CopyInv P rp lp ⟨Function.update (Function.update s.remoteFiles (rp m) false)
      (rp (P ++ m)) true, s.localFiles⟩ := by
  have hp : ∀ y, P ++ y ≠ m := fun y hy => hu (hy ▸ List.prefix_append P y)
  have hP : P ≠ [] := by
    rintro rfl
    exact hu (List.nil_prefix)
  have k1 := h.a m
  have k2 := h.b m
  have k4 := h.d m
  have k6 := h.f m
  have k7 := h.g m
  constructor <;> intro x <;>
    simp only [Function.update_apply, hrp.eq_iff] <;>
    have h1 := h.a x <;> have h2 := h.b x <;> have h3 := h.c x <;> have h4 := h.d x <;>
    have h5 := h.e x <;> have h6 := h.f x <;> have h7 := h.g x <;>
    have p1 := hp x <;> have p2 := hp (P ++ x) <;>
    by_cases e1 : x = m <;> by_cases e2 : x = P ++ m <;>
    simp_all

theorem update_false_of_false (f : CStr → Bool) (a : CStr) (h : f a = false) :
    Function.update f a false = f := by
  rw [← h]
  exact Function.update_eq_self a f

/-- A get that succeeded followed by a delete that succeeded: the file moves from the
remote set to the local set when it is in the remote set, and nothing changes when it
is not. -/
theorem CopyInv_get_delete {k : Constants} {q : QuotaEnv} (P : CStr) (rp lp : CStr → CStr)
    (hrp : Function.Injective rp)
    (hlp : Function.Injective lp) (s : Mirror) (h : CopyInv P rp lp s) (a : CStr)
    (resume : Bool) :
    CopyInv P rp lp
      ((s.apply k q true (Op.ARUTILS_Ftp_Get (rp a) (lp a) resume)).apply k q true
        (Op.ARUTILS_Ftp_Delete (rp a))) := by
  by_cases ha : s.remoteFiles (rp a) = true
  · simpa [Mirror.apply, ha] using CopyInv_move P rp lp hrp hlp s h a ha
  · rw [Bool.not_eq_true] at ha
    simpa [Mirror.apply, ha, update_false_of_false _ _ ha] using h

theorem CopyInv_local_rename {k : Constants} {q : QuotaEnv} (P : CStr) (rp lp : CStr → CStr)
    (hlp : Function.Injective lp) (s : Mirror) (h : CopyInv P rp lp s) (n : CStr)
    (ok : Bool) :
    CopyInv P rp lp
      (s.apply k q ok (Op.ARUTILS_FileSystem_Rename (lp (P ++ n)) (lp n))) := by
  by_cases hn : s.localFiles (lp (P ++ n)) = true
  · cases ok
    · simpa [Mirror.apply] using h
    · simpa [Mirror.apply, hn] using CopyInv_strip P rp lp hlp s h n hn
  · rw [Bool.not_eq_true] at hn
    simpa [Mirror.apply, hn] using h

theorem CopyInv_remote_rename {k : Constants} {q : QuotaEnv} (P : CStr) (rp lp : CStr → CStr)
    (hrp : Function.Injective rp) (s : Mirror) (h : CopyInv P rp lp s) (m : CStr)
    (hu : ¬ P <+: m) (ok : Bool) :
    CopyInv P rp lp (s.apply k q ok (Op.ARUTILS_Ftp_Rename (rp m) (rp (P ++ m)))) := by
  by_cases hm : s.remoteFiles (rp m) = true
  · cases ok
    · simpa [Mirror.apply] using h
    · simpa [Mirror.apply, hm] using CopyInv_mark P rp lp hrp s h m hm hu
  · rw [Bool.not_eq_true] at hm
    simpa [Mirror.apply, hm] using h

theorem remotePathOf_injective : Function.Injective remotePathOf :=
  fun _ _ h => List.append_cancel_left h

theorem localPathOf_injective (localRoot : CStr) :
    Function.Injective (localPathOf localRoot) :=
  fun _ _ h => List.append_cancel_left h

theorem Mirror_run_append {k : Constants} {q : QuotaEnv} (e : CycleEnv) (a b : List Op) :
    ∀ (i : Nat) (s : Mirror),
      Mirror.run k q e i (a ++ b) s
        = Mirror.run k q e (i + a.length) b (Mirror.run k q e i a s) := by
  induction a with
  | nil => intro i s; rfl
  | cons op a ih =>
    intro i s
    show Mirror.run k q e (i + 1) (a ++ b) _ = _
    rw [ih]
    show _ = Mirror.run k q e (i + (a.length + 1)) b (Mirror.run k q e (i + 1) a _)
    congr 1
    omega

theorem deletesSucceed_left (e : CycleEnv) (t b : List Op)
    (h : deletesSucceed e (t ++ b)) : deletesSucceed e t := by
  intro i r hi
  have hlt : i < t.length := by
    by_contra hge
    rw [List.getElem?_eq_none (Nat.le_of_not_lt hge)] at hi
    cases hi
  exact h i r (by rw [List.getElem?_append_left hlt]; exact hi)

theorem deletesSucceed_right (e : CycleEnv) (t b : List Op)
    (h : deletesSucceed e (t ++ b)) (j : Nat) (r : CStr)
    (hj : b[j]? = some (Op.ARUTILS_Ftp_Delete r)) :
    e.outcome (t.length + j) = ARUTILS_OK := by
  apply h (t.length + j) r
  rw [List.getElem?_append_right (Nat.le_add_right _ _), Nat.add_sub_cancel_left]
  exact hj

theorem run_resume_block {k : Constants} {q : QuotaEnv} (P : CStr) (rp lp : CStr → CStr)
    (hrp : Function.Injective rp)
    (hlp : Function.Injective lp) (e : CycleEnv) (i : Nat) (s : Mirror)
    (h : CopyInv P rp lp s) (n : CStr) (h0 : e.outcome i = ARUTILS_OK)
    (h1 : e.outcome (i + 1) = ARUTILS_OK) :
    CopyInv P rp lp (Mirror.run k q e i
      [Op.ARUTILS_Ftp_Get (rp (P ++ n)) (lp (P ++ n)) true,
       Op.ARUTILS_Ftp_Delete (rp (P ++ n)),
       Op.ARUTILS_FileSystem_Rename (lp (P ++ n)) (lp n)] s) := by
  simp only [Mirror.run, h0, h1, decide_True]
  exact CopyInv_local_rename P rp lp hlp _
    (CopyInv_get_delete P rp lp hrp hlp s h (P ++ n) true) n _

theorem run_newer_block {k : Constants} {q : QuotaEnv} (P : CStr) (rp lp : CStr → CStr)
    (hrp : Function.Injective rp)
    (hlp : Function.Injective lp) (e : CycleEnv) (i : Nat) (s : Mirror)
    (h : CopyInv P rp lp s) (m : CStr) (hu : ¬ P <+: m)
    (h1 : e.outcome (i + 1) = ARUTILS_OK) (h2 : e.outcome (i + 1 + 1) = ARUTILS_OK) :
    CopyInv P rp lp (Mirror.run k q e i
      [Op.ARUTILS_Ftp_Rename (rp m) (rp (P ++ m)),
       Op.ARUTILS_Ftp_Get (rp (P ++ m)) (lp (P ++ m)) false,
       Op.ARUTILS_Ftp_Delete (rp (P ++ m)),
       Op.ARUTILS_FileSystem_Rename (lp (P ++ m)) (lp m)] s) := by
  simp only [Mirror.run, h1, h2, decide_True]
  exact CopyInv_local_rename P rp lp hlp _
    (CopyInv_get_delete P rp lp hrp hlp _
      (CopyInv_remote_rename P rp lp hrp s h m hu _) (P ++ m) false) m _

theorem run_newer_block_get_fails {k : Constants} {q : QuotaEnv} (P : CStr) (rp lp : CStr → CStr)
    (hrp : Function.Injective rp) (e : CycleEnv) (i : Nat) (s : Mirror)
    (h : CopyInv P rp lp s) (m : CStr) (hu : ¬ P <+: m)
    (h1 : e.outcome (i + 1) ≠ ARUTILS_OK) :
    CopyInv P rp lp (Mirror.run k q e i
      [Op.ARUTILS_Ftp_Rename (rp m) (rp (P ++ m)),
       Op.ARUTILS_Ftp_Get (rp (P ++ m)) (lp (P ++ m)) false] s) := by
  have h := @CopyInv_remote_rename k q P rp lp hrp s h m hu
    (decide (e.outcome i = ARUTILS_OK))
  simp only [Mirror.run, h1, decide_False]
  exact h

theorem run_newer_block_rename_only {k : Constants} {q : QuotaEnv} (P : CStr)
    (rp lp : CStr → CStr)
    (hrp : Function.Injective rp) (e : CycleEnv) (i : Nat) (s : Mirror)
    (h : CopyInv P rp lp s) (m : CStr) (hu : ¬ P <+: m) :
    CopyInv P rp lp (Mirror.run k q e i [Op.ARUTILS_Ftp_Rename (rp m) (rp (P ++ m))] s) := by
  simp only [Mirror.run]
  exact CopyInv_remote_rename P rp lp hrp s h m hu _

theorem count_true_le_one (r1 r2 r3 r4 : Bool) :
    [r1, r2, r3, r4].count true ≤ 1
      ↔ (r1 = true → r4 = false) ∧ (r1 = true → r2 = false) ∧ (r4 = true → r3 = false)
        ∧ (r1 = true → r3 = false) ∧ (r2 = true → r4 = false)
        ∧ (r2 = true → r3 = false) := by
  cases r1 <;> cases r2 <;> cases r3 <;> cases r4 <;> decide

theorem CopyInv_iff (k : Constants) (localRoot : CStr) (s : Mirror) :
    CopyInv k.ARDATATRANSFER_MANAGER_DOWNLOADER_PREFIX_DOWNLOADING remotePathOf
        (localPathOf localRoot) s
      ↔ atMostOneCopy k localRoot s ∧ noDoubleMarker k localRoot s := by
  constructor
  · intro h
    refine ⟨fun n => ?_, fun n => ⟨h.f n, h.g n⟩⟩
    unfold places
    rw [count_true_le_one]
    exact ⟨h.a n, h.b n, h.c n, h.d n, h.e n, h.a _⟩
  · rintro ⟨h1, h2⟩
    have h := fun n => (count_true_le_one _ _ _ _).1 (h1 n)
    exact ⟨fun x => (h x).1, fun x => (h x).2.1, fun x => (h x).2.2.1,
      fun x => (h x).2.2.2.1, fun x => (h x).2.2.2.2.1, fun x => (h2 x).1,
      fun x => (h2 x).2⟩

theorem resumeBody_CopyInv (k : Constants) {q : QuotaEnv} (localRoot : CStr) (e : CycleEnv)
    (t : List Op)
    (m : CStr) (s : Mirror) (hmax : k.ARUTILS_FTP_MAX_PATH_SIZE < 18446744073709551616)
    (hm : carriesMarker k m) (hfit : fits k (localRoot ++ "/data/".toList ++ m))
    (hdel : deletesSucceed e (resumeBody k localRoot e t m))
    (h : CopyInv k.ARDATATRANSFER_MANAGER_DOWNLOADER_PREFIX_DOWNLOADING remotePathOf
      (localPathOf localRoot) (Mirror.run k q e 0 t s)) :
    CopyInv k.ARDATATRANSFER_MANAGER_DOWNLOADER_PREFIX_DOWNLOADING remotePathOf
      (localPathOf localRoot) (Mirror.run k q e 0 (resumeBody k localRoot e t m) s) := by
  have h3 : fits k ("data/".toList ++ m) := by
    unfold fits at *
    simp only [List.length_append] at *
    have : "/data/".toList.length = 6 := rfl
    have : "data/".toList.length = 5 := rfl
    omega
  rw [resumeBody_steps] at hdel ⊢
  rw [Mirror_run_append, Nat.zero_add, resumeRemotePath_of_fits k m hmax h3,
    resumeLocalPath_of_fits k localRoot m hmax hfit,
    resumeRestoreName_of_fits k localRoot m hmax hfit]
  obtain ⟨n, rfl⟩ := hm
  rw [List.drop_left]
  by_cases h0 : e.outcome t.length = ARUTILS_OK
  · rw [if_pos h0] at hdel ⊢
    have hd := deletesSucceed_right e t _ hdel 1 _ rfl
    exact run_resume_block _ remotePathOf (localPathOf localRoot) remotePathOf_injective
      (localPathOf_injective localRoot) e t.length _ h n h0 hd
  · rw [if_neg h0]
    simp only [Mirror.run, h0, decide_False]
    exact h

theorem newerBody_CopyInv (k : Constants) {q : QuotaEnv} (localRoot : CStr) (e : CycleEnv)
    (t : List Op)
    (m : CStr) (s : Mirror) (hmax : k.ARUTILS_FTP_MAX_PATH_SIZE < 18446744073709551616)
    (hfit : fits k (localInProgressPath k localRoot m))
    (hdel : deletesSucceed e (newerBody k localRoot e t m))
    (h : CopyInv k.ARDATATRANSFER_MANAGER_DOWNLOADER_PREFIX_DOWNLOADING remotePathOf
      (localPathOf localRoot) (Mirror.run k q e 0 t s)) :
    CopyInv k.ARDATATRANSFER_MANAGER_DOWNLOADER_PREFIX_DOWNLOADING remotePathOf
      (localPathOf localRoot) (Mirror.run k q e 0 (newerBody k localRoot e t m) s) := by
  by_cases hc : carriesMarker k m
  · rw [newerBody_marked k localRoot e t m hc]
    exact h
  · unfold localInProgressPath at hfit
    rw [if_neg hc] at hfit
    have l6 : "/data/".toList.length = 6 := rfl
    have l5 : "data/".toList.length = 5 := rfl
    have h3 : fits k ("data/".toList
        ++ k.ARDATATRANSFER_MANAGER_DOWNLOADER_PREFIX_DOWNLOADING ++ m) := by
      unfold fits at *
      simp only [List.length_append] at *
      omega
    have h5 : fits k ("data/".toList ++ m) := by
      unfold fits at *
      simp only [List.length_append] at *
      omega
    have h7 : fits k (localRoot ++ "/data/".toList ++ m) := by
      unfold fits at *
      simp only [List.length_append] at *
      omega
    have p1 : newerInitialPath k m = remotePathOf m := newerInitialPath_of_fits k m hmax h5
    have p2 : newerRemotePath k m
        = remotePathOf (k.ARDATATRANSFER_MANAGER_DOWNLOADER_PREFIX_DOWNLOADING ++ m) := by
      rw [newerRemotePath_of_fits k m hmax h3, List.append_assoc]
      rfl
    have p3 : newerLocalPath k localRoot m
        = localPathOf localRoot
          (k.ARDATATRANSFER_MANAGER_DOWNLOADER_PREFIX_DOWNLOADING ++ m) := by
      rw [newerLocalPath_of_fits k localRoot m hmax hfit, List.append_assoc]
      rfl
    have p4 : newerRestoreName k localRoot m = localPathOf localRoot m :=
      newerRestoreName_of_fits k localRoot m hmax h7
    rw [newerBody_unmarked k localRoot e t m hc] at hdel ⊢
    rw [Mirror_run_append, Nat.zero_add, p1, p2, p3, p4]
    rw [p2] at hdel
    by_cases h0 : e.outcome t.length = ARUTILS_OK
    · by_cases h1 : e.outcome (t.length + 1) = ARUTILS_OK
      · rw [if_pos h0, if_pos h1] at hdel ⊢
        have hd := deletesSucceed_right e t _ hdel 2 _ rfl
        exact run_newer_block _ remotePathOf (localPathOf localRoot) remotePathOf_injective
          (localPathOf_injective localRoot) e t.length _ h m hc h1 hd
      · rw [if_pos h0, if_neg h1]
        exact run_newer_block_get_fails _ remotePathOf (localPathOf localRoot)
          remotePathOf_injective e t.length _ h m hc h1
    · rw [if_neg h0]
      exact run_newer_block_rename_only _ remotePathOf (localPathOf localRoot)
        remotePathOf_injective e t.length _ h m hc

theorem Mirror_run_snoc {k : Constants} {q : QuotaEnv} (e : CycleEnv) (t : List Op)
    (op : Op) (s : Mirror) :
    Mirror.run k q e 0 (t ++ [op]) s
      = (Mirror.run k q e 0 t s).apply k q (decide (e.outcome t.length = ARUTILS_OK)) op := by
  rw [Mirror_run_append, Nat.zero_add]
  rfl

/-- Taking local files away, as the quota check does, keeps the invariant. -/
theorem CopyInv_remove_local (P : CStr) (rp lp : CStr → CStr) (s : Mirror)
    (h : CopyInv P rp lp s) (keep : CStr → Bool) :
    CopyInv P rp lp { s with localFiles := fun p => s.localFiles p && keep p } := by
  refine ⟨?_, ?_, ?_, ?_, ?_, ?_, ?_⟩
  · intro x hx
    show (s.localFiles (lp x) && keep (lp x)) = false
    rw [h.a x hx, Bool.false_and]
  · exact h.b
  · intro x hx
    have hx1 : s.localFiles (lp x) = true := by
      have hx2 : (s.localFiles (lp x) && keep (lp x)) = true := hx
      rw [Bool.and_eq_true] at hx2
      exact hx2.1
    show (s.localFiles (lp (P ++ x)) && keep (lp (P ++ x))) = false
    rw [h.c x hx1, Bool.false_and]
  · intro x hx
    show (s.localFiles (lp (P ++ x)) && keep (lp (P ++ x))) = false
    rw [h.d x hx, Bool.false_and]
  · intro x hx
    show (s.localFiles (lp x) && keep (lp x)) = false
    rw [h.e x hx, Bool.false_and]
  · exact h.f
  · intro x
    show (s.localFiles (lp (P ++ (P ++ x))) && keep (lp (P ++ (P ++ x)))) = false
    rw [h.g x, Bool.false_and]

theorem cycle_CopyInv (k : Constants) (q : QuotaEnv) (localRoot : CStr) (e : CycleEnv) (s : Mirror)
    (hmax : k.ARUTILS_FTP_MAX_PATH_SIZE < 18446744073709551616)
    (hfit : ∀ name ∈ e.resultList, fits k (localInProgressPath k localRoot name))
    (hdel : deletesSucceed e (cycle k localRoot e))
    (h : CopyInv k.ARDATATRANSFER_MANAGER_DOWNLOADER_PREFIX_DOWNLOADING remotePathOf
      (localPathOf localRoot) s) :
    CopyInv k.ARDATATRANSFER_MANAGER_DOWNLOADER_PREFIX_DOWNLOADING remotePathOf
      (localPathOf localRoot) (Mirror.afterCycle k q localRoot e s) := by
  have hf : (fun name : CStr =>
      k.ARDATATRANSFER_MANAGER_DOWNLOADER_PREFIX_DOWNLOADING.isPrefixOf name)
      = fun name => decide (carriesMarker k name) := by
    funext name
    rw [Bool.eq_iff_iff, isPrefixOf_iff, decide_eq_true_iff]
  -- the property carried along the trace
  have h0 : deletesSucceed e [Op.ARUTILS_Ftp_List ARDATATRANSFER_DATA_DOWNLOADER_FTP_ROOT] →
      CopyInv k.ARDATATRANSFER_MANAGER_DOWNLOADER_PREFIX_DOWNLOADING remotePathOf
        (localPathOf localRoot)
        (Mirror.run k q e 0 [Op.ARUTILS_Ftp_List ARDATATRANSFER_DATA_DOWNLOADER_FTP_ROOT] s) :=
    fun _ => h
  have h1 : ∀ t : List Op,
      (deletesSucceed e t →
        CopyInv k.ARDATATRANSFER_MANAGER_DOWNLOADER_PREFIX_DOWNLOADING remotePathOf
          (localPathOf localRoot) (Mirror.run k q e 0 t s)) →
      (deletesSucceed e
          ((ARDATATRANSFER_Manager_List_GetNextItem e.resultList
            (some k.ARDATATRANSFER_MANAGER_DOWNLOADER_PREFIX_DOWNLOADING)).foldl
            (resumeBody k localRoot e) t) →
        CopyInv k.ARDATATRANSFER_MANAGER_DOWNLOADER_PREFIX_DOWNLOADING remotePathOf
          (localPathOf localRoot)
          (Mirror.run k q e 0
            ((ARDATATRANSFER_Manager_List_GetNextItem e.resultList
              (some k.ARDATATRANSFER_MANAGER_DOWNLOADER_PREFIX_DOWNLOADING)).foldl
              (resumeBody k localRoot e) t) s)) := by
    intro t ht
    apply foldl_invariant_ops (resumeBody k localRoot e)
      (fun u => deletesSucceed e u →
        CopyInv k.ARDATATRANSFER_MANAGER_DOWNLOADER_PREFIX_DOWNLOADING remotePathOf
          (localPathOf localRoot) (Mirror.run k q e 0 u s)) _ t ht
    intro u n hn hu hd
    unfold ARDATATRANSFER_Manager_List_GetNextItem at hn
    simp only [hf, List.mem_filter, decide_eq_true_iff] at hn
    have hfits := hfit n hn.1
    unfold localInProgressPath at hfits
    rw [if_pos hn.2] at hfits
    have hd' : deletesSucceed e u := by
      rw [resumeBody_steps] at hd
      exact deletesSucceed_left e u _ hd
    exact resumeBody_CopyInv k localRoot e u n s hmax hn.2 hfits hd (hu hd')
  have h2 : ∀ t : List Op,
      (deletesSucceed e t →
        CopyInv k.ARDATATRANSFER_MANAGER_DOWNLOADER_PREFIX_DOWNLOADING remotePathOf
          (localPathOf localRoot) (Mirror.run k q e 0 t s)) →
      (deletesSucceed e
          ((ARDATATRANSFER_Manager_List_GetNextItem e.resultList none).foldl
            (newerBody k localRoot e) t) →
        CopyInv k.ARDATATRANSFER_MANAGER_DOWNLOADER_PREFIX_DOWNLOADING remotePathOf
          (localPathOf localRoot)
          (Mirror.run k q e 0
            ((ARDATATRANSFER_Manager_List_GetNextItem e.resultList none).foldl
              (newerBody k localRoot e) t) s)) := by
    intro t ht
    apply foldl_invariant_ops (newerBody k localRoot e)
      (fun u => deletesSucceed e u →
        CopyInv k.ARDATATRANSFER_MANAGER_DOWNLOADER_PREFIX_DOWNLOADING remotePathOf
          (localPathOf localRoot) (Mirror.run k q e 0 u s)) _ t ht
    intro u n hn hu hd
    unfold ARDATATRANSFER_Manager_List_GetNextItem at hn
    have hd' : deletesSucceed e u := by
      by_cases hc : carriesMarker k n
      · rw [newerBody_marked k localRoot e u n hc] at hd
        exact hd
      · rw [newerBody_unmarked k localRoot e u n hc] at hd
        exact deletesSucceed_left e u _ hd
    exact newerBody_CopyInv k localRoot e u n s hmax (hfit n hn) hd (hu hd')
  have h3 : ∀ (t : List Op) (op : Op),
      (∀ (ok : Bool) (u : Mirror),
        CopyInv k.ARDATATRANSFER_MANAGER_DOWNLOADER_PREFIX_DOWNLOADING remotePathOf
          (localPathOf localRoot) u →
        CopyInv k.ARDATATRANSFER_MANAGER_DOWNLOADER_PREFIX_DOWNLOADING remotePathOf
          (localPathOf localRoot) (u.apply k q ok op)) →
      (deletesSucceed e t →
        CopyInv k.ARDATATRANSFER_MANAGER_DOWNLOADER_PREFIX_DOWNLOADING remotePathOf
          (localPathOf localRoot) (Mirror.run k q e 0 t s)) →
      (deletesSucceed e (t ++ [op]) →
        CopyInv k.ARDATATRANSFER_MANAGER_DOWNLOADER_PREFIX_DOWNLOADING remotePathOf
          (localPathOf localRoot) (Mirror.run k q e 0 (t ++ [op]) s)) := by
    intro t op hop ht hd
    rw [Mirror_run_snoc e t op s]
    exact hop _ _ (ht (deletesSucceed_left e t _ hd))
  unfold Mirror.afterCycle
  revert hdel
  unfold cycle
  simp only
  refine h3 _ (Op.ARSAL_Sem_Timedwait _) (fun _ _ hu => hu) ?_
  split
  · refine h3 _ (Op.ARDATATRANSFER_DataDownloader_CheckUsedMemory _ _)
      (fun _ u hu => CopyInv_remove_local _ _ _ u hu _) ?_
    split
    · exact h2 _ (h1 _ h0)
    · exact h0
  · split
    · exact h2 _ (h1 _ h0)
    · exact h0

theorem oneFreshFile_CopyInv :
    atMostOneCopy shipped "/sd".toList oneFreshFile
      ∧ noDoubleMarker shipped "/sd".toList oneFreshFile := by
  constructor
  · intro n
    unfold places
    rw [count_true_le_one]
    simp [oneFreshFile, shipped]
  · intro n
    simp [oneFreshFile, shipped]

/-- C16, amended. In the model where the remote directory and the local mirror are sets
of paths and a call either fails without effect or succeeds with its effect: when
before a cycle every logical name exists in at most one of the four places and no file
carries the marker twice, when the paths built for the listed entries fit the buffer,
and when every remote delete the cycle makes succeeds, then after the cycle, whatever
the list call, the gets and the renames return and whatever the quota check of the cycle
removes, every logical name still exists in at most one of the four places and no file
carries the marker twice. -/
theorem one_copy_preserved (k : Constants) (q : QuotaEnv) (localRoot : CStr) (e : CycleEnv)
    (s : Mirror)
    (hmax : k.ARUTILS_FTP_MAX_PATH_SIZE < 18446744073709551616)
    (hfit : ∀ name ∈ e.resultList, fits k (localInProgressPath k localRoot name))
    (hdel : deletesSucceed e (cycle k localRoot e))
    (hone : atMostOneCopy k localRoot s) (hdouble : noDoubleMarker k localRoot s) :
    atMostOneCopy k localRoot (Mirror.afterCycle k q localRoot e s)
      ∧ noDoubleMarker k localRoot (Mirror.afterCycle k q localRoot e s) :=
  (CopyInv_iff k localRoot _).1
    (cycle_CopyInv k q localRoot e s hmax hfit hdel
      ((CopyInv_iff k localRoot s).2 ⟨hone, hdouble⟩))

/-- C16, amended, at the cycle over the listing `["a"]` in which the local rename fails
and every other call succeeds, started with the one remote file `data/a`. -/
theorem one_copy_preserved_witness :
    atMostOneCopy shipped "/sd".toList
        (Mirror.afterCycle shipped (underBudgetEnv "/sd/data/downloading_a".toList)
          "/sd".toList renameFailsEnv oneFreshFile)
      ∧ noDoubleMarker shipped "/sd".toList
        (Mirror.afterCycle shipped (underBudgetEnv "/sd/data/downloading_a".toList)
          "/sd".toList renameFailsEnv oneFreshFile) :=
  one_copy_preserved shipped (underBudgetEnv "/sd/data/downloading_a".toList)
    "/sd".toList renameFailsEnv oneFreshFile (by decide)
    (by decide)
    (by
      intro i r hi
      by_cases h4 : i = 4
      · subst h4
        have ht : (cycle shipped "/sd".toList renameFailsEnv)[4]?
            = some (Op.ARUTILS_FileSystem_Rename "/sd/data/downloading_a".toList
                "/sd/data/a".toList) := by decide
        rw [ht] at hi
        cases hi
      · simp [renameFailsEnv, h4])
    oneFreshFile_CopyInv.1 oneFreshFile_CopyInv.2

/-- C16 as stated fails: before the cycle the only file is the remote `data/a`, so every
logical name is in at most one place; the remote rename and the get succeed, the remote
delete fails, the quota check is under budget and removes nothing; after the cycle the
logical name `a` is in two places, remote in progress (`data/downloading_a`) and local
final (`/sd/data/a`). -/
theorem failed_delete_leaves_two_copies :
    atMostOneCopy shipped "/sd".toList oneFreshFile
      ∧ deleteFailsEnv.outcome 3 ≠ ARUTILS_OK
      ∧ places shipped "/sd".toList
          (Mirror.afterCycle shipped (underBudgetEnv "/sd/data/a".toList) "/sd".toList
            deleteFailsEnv oneFreshFile) "a".toList = 2
      ∧ (Mirror.afterCycle shipped (underBudgetEnv "/sd/data/a".toList) "/sd".toList
          deleteFailsEnv oneFreshFile).remoteFiles "data/downloading_a".toList = true
      ∧ (Mirror.afterCycle shipped (underBudgetEnv "/sd/data/a".toList) "/sd".toList
          deleteFailsEnv oneFreshFile).localFiles "/sd/data/a".toList = true := by
  refine ⟨oneFreshFile_CopyInv.1, by decide, ?_, ?_, ?_⟩
  · decide!
  · decide!
  · decide!

/-! ## Idempotent reconciliation -/

theorem Mirror_run_all_ok {k : Constants} {q : QuotaEnv} (e : CycleEnv)
    (hok : ∀ i, e.outcome i = ARUTILS_OK)
    (ops : List Op) :
    ∀ (i : Nat) (s : Mirror),
      Mirror.run k q e i ops s = ops.foldl (fun u op => u.apply k q true op) s := by
  induction ops with
  | nil => intro i s; rfl
  | cons op ops ih =>
    intro i s
    simp only [Mirror.run, List.foldl_cons, hok, decide_True]
    exact ih _ _

theorem foldl_remote_shrinks {k : Constants} {q : QuotaEnv} (e : CycleEnv) (s : Mirror)
    (f : List Op → CStr → List Op)
    (c : CStr → Prop) (l : List CStr) :
    (∀ u, ∀ n ∈ l, ∀ p, (Mirror.run k q e 0 (f u n) s).remoteFiles p = true →
      (Mirror.run k q e 0 u s).remoteFiles p = true ∧ (c n → p ≠ remotePathOf n)) →
    ∀ t p, (Mirror.run k q e 0 (l.foldl f t) s).remoteFiles p = true →
      (Mirror.run k q e 0 t s).remoteFiles p = true ∧ ∀ n ∈ l, c n → p ≠ remotePathOf n := by
  induction l with
  | nil =>
    intro _ t p hp
    exact ⟨hp, fun n hn => absurd hn (List.not_mem_nil n)⟩
  | cons a l ih =>
    intro hstep t p hp
    rw [List.foldl_cons] at hp
    obtain ⟨h1, h2⟩ := ih (fun u n hn => hstep u n (List.mem_cons_of_mem a hn)) _ p hp
    obtain ⟨h3, h4⟩ := hstep t a (List.mem_cons_self a l) p h1
    refine ⟨h3, ?_⟩
    intro n hn hc
    rcases List.mem_cons.1 hn with rfl | hn'
    · exact h4 hc
    · exact h2 n hn' hc

theorem remoteFiles_get {k : Constants} {q : QuotaEnv} (v : Mirror) (ok : Bool) (a b : CStr)
    (r : Bool) :
    (v.apply k q ok (Op.ARUTILS_Ftp_Get a b r)).remoteFiles = v.remoteFiles := by
  simp only [Mirror.apply]
  split <;> rfl

theorem remoteFiles_local_rename {k : Constants} {q : QuotaEnv} (v : Mirror) (ok : Bool)
    (a b : CStr) :
    (v.apply k q ok (Op.ARUTILS_FileSystem_Rename a b)).remoteFiles = v.remoteFiles := by
  simp only [Mirror.apply]
  split <;> rfl

theorem remoteFiles_delete {k : Constants} {q : QuotaEnv} (v : Mirror) (a : CStr) :
    (v.apply k q true (Op.ARUTILS_Ftp_Delete a)).remoteFiles
      = Function.update v.remoteFiles a false := by
  simp only [Mirror.apply, if_true]

theorem remoteFiles_remote_rename {k : Constants} {q : QuotaEnv} (v : Mirror) (a a' : CStr) :
    (v.apply k q true (Op.ARUTILS_Ftp_Rename a a')).remoteFiles
      = if v.remoteFiles a = true then
          Function.update (Function.update v.remoteFiles a false) a' true
        else v.remoteFiles := by
  simp only [Mirror.apply, Bool.true_and]
  split <;> rfl

theorem remote_after_resume_ops {k : Constants} {q : QuotaEnv} (v : Mirror) (a b c p : CStr)
    (r : Bool)
    (hp : (((v.apply k q true (Op.ARUTILS_Ftp_Get a b r)).apply k q true
      (Op.ARUTILS_Ftp_Delete a)).apply k q true
      (Op.ARUTILS_FileSystem_Rename b c)).remoteFiles p = true) :
    v.remoteFiles p = true ∧ p ≠ a := by
  rw [remoteFiles_local_rename, remoteFiles_delete, remoteFiles_get,
    Function.update_apply] at hp
  by_cases hpa : p = a
  · simp [hpa] at hp
  · simp only [hpa, if_false] at hp
    exact ⟨hp, hpa⟩

theorem remote_after_fresh_ops {k : Constants} {q : QuotaEnv} (v : Mirror) (a a' b c p : CStr)
    (r : Bool)
    (hp : ((((v.apply k q true (Op.ARUTILS_Ftp_Rename a a')).apply k q true
      (Op.ARUTILS_Ftp_Get a' b r)).apply k q true
      (Op.ARUTILS_Ftp_Delete a')).apply k q true
      (Op.ARUTILS_FileSystem_Rename b c)).remoteFiles p = true) :
    v.remoteFiles p = true ∧ p ≠ a := by
  rw [remoteFiles_local_rename, remoteFiles_delete, remoteFiles_get,
    remoteFiles_remote_rename, Function.update_apply] at hp
  by_cases hpa' : p = a'
  · simp [hpa'] at hp
  · simp only [hpa', if_false] at hp
    by_cases hva : v.remoteFiles a = true
    · simp only [hva, if_true, Function.update_apply, hpa', if_false] at hp
      by_cases hpa : p = a
      · simp [hpa] at hp
      · simp only [hpa, if_false] at hp
        exact ⟨hp, hpa⟩
    · simp only [hva, Bool.false_eq_true, if_false] at hp
      refine ⟨hp, ?_⟩
      rintro rfl
      exact hva hp

theorem resumeBody_remote (k : Constants) {q : QuotaEnv} (localRoot : CStr) (e : CycleEnv)
    (s : Mirror)
    (hmax : k.ARUTILS_FTP_MAX_PATH_SIZE < 18446744073709551616)
    (hok : ∀ i, e.outcome i = ARUTILS_OK) (u : List Op) (n : CStr)
    (hfit : fits k (localRoot ++ "/data/".toList ++ n)) (p : CStr)
    (hp : (Mirror.run k q e 0 (resumeBody k localRoot e u n) s).remoteFiles p = true) :
    (Mirror.run k q e 0 u s).remoteFiles p = true ∧ p ≠ remotePathOf n := by
  rw [resumeBody_ok k localRoot e u n hmax hok hfit, Mirror_run_append,
    Mirror_run_all_ok e hok (specResumeOps k localRoot n)] at hp
  exact remote_after_resume_ops _ _ _ _ _ _ hp

theorem newerBody_remote (k : Constants) {q : QuotaEnv} (localRoot : CStr) (e : CycleEnv)
    (s : Mirror)
    (hmax : k.ARUTILS_FTP_MAX_PATH_SIZE < 18446744073709551616)
    (hok : ∀ i, e.outcome i = ARUTILS_OK) (u : List Op) (n : CStr)
    (hfit : fits k (localInProgressPath k localRoot n)) (p : CStr)
    (hp : (Mirror.run k q e 0 (newerBody k localRoot e u n) s).remoteFiles p = true) :
    (Mirror.run k q e 0 u s).remoteFiles p = true
      ∧ (¬ carriesMarker k n → p ≠ remotePathOf n) := by
  by_cases hc : carriesMarker k n
  · rw [newerBody_marked k localRoot e u n hc] at hp
    exact ⟨hp, fun h => absurd hc h⟩
  · unfold localInProgressPath at hfit
    rw [if_neg hc] at hfit
    rw [newerBody_ok k localRoot e u n hmax hok hc hfit, Mirror_run_append,
      Mirror_run_all_ok e hok (specFreshOps k localRoot n)] at hp
    have h := remote_after_fresh_ops _ _ _ _ _ _ _ hp
    exact ⟨h.1, fun _ => h.2⟩

theorem cycle_filter_all_ok (k : Constants) (localRoot : CStr) (e : CycleEnv)
    (hmax : k.ARUTILS_FTP_MAX_PATH_SIZE < 18446744073709551616)
    (hok : ∀ i, e.outcome i = ARUTILS_OK)
    (hfit : ∀ name ∈ e.resultList, fits k (localInProgressPath k localRoot name))
    (p : Op → Bool) (g1 g2 : CStr → Op)
    (hlist : ∀ r, p (Op.ARUTILS_Ftp_List r) = false)
    (hcheck : ∀ r q, p (Op.ARDATATRANSFER_DataDownloader_CheckUsedMemory r q) = false)
    (hwait : ∀ n, p (Op.ARSAL_Sem_Timedwait n) = false)
    (h1 : ∀ n, (specResumeOps k localRoot n).filter p = [g1 n])
    (h2 : ∀ n, (specFreshOps k localRoot n).filter p = [g2 n]) :
    (cycle k localRoot e).filter p
      = (e.resultList.filter fun name => decide (carriesMarker k name)).map g1
        ++ (e.resultList.filter fun name => !decide (carriesMarker k name)).map g2 := by
  have hf : (fun name : CStr =>
      k.ARDATATRANSFER_MANAGER_DOWNLOADER_PREFIX_DOWNLOADING.isPrefixOf name)
      = fun name => decide (carriesMarker k name) := by
    funext name
    rw [Bool.eq_iff_iff, isPrefixOf_iff, decide_eq_true_iff]
  have hpass1 : ∀ t : List Op,
      ((ARDATATRANSFER_Manager_List_GetNextItem e.resultList
        (some k.ARDATATRANSFER_MANAGER_DOWNLOADER_PREFIX_DOWNLOADING)).foldl
        (resumeBody k localRoot e) t).filter p
      = t.filter p
        ++ (e.resultList.filter fun name => decide (carriesMarker k name)).map g1 := by
    intro t
    unfold ARDATATRANSFER_Manager_List_GetNextItem
    simp only [hf]
    rw [foldl_filter_ops _ _ (fun name => [g1 name]), flatten_map_singleton]
    intro u n hn
    rw [List.mem_filter, decide_eq_true_iff] at hn
    have hfits := hfit n hn.1
    unfold localInProgressPath at hfits
    rw [if_pos hn.2] at hfits
    exact ⟨_, resumeBody_ok k localRoot e u n hmax hok hfits, h1 n⟩
  have hpass2 : ∀ t : List Op,
      ((ARDATATRANSFER_Manager_List_GetNextItem e.resultList none).foldl
        (newerBody k localRoot e) t).filter p
      = t.filter p
        ++ (e.resultList.filter fun name => !decide (carriesMarker k name)).map g2 := by
    intro t
    unfold ARDATATRANSFER_Manager_List_GetNextItem
    rw [foldl_filter_ops _ _ (fun name => if !decide (carriesMarker k name) then
      [g2 name] else []), flatten_map_singleton_filter]
    intro u n hn
    by_cases hc : carriesMarker k n
    · exact ⟨[], by simp [newerBody_marked k localRoot e u n hc], by simp [hc]⟩
    · have hfits := hfit n hn
      unfold localInProgressPath at hfits
      rw [if_neg hc] at hfits
      exact ⟨_, newerBody_ok k localRoot e u n hmax hok hc hfits, by simp [hc, h2 n]⟩
  unfold cycle
  simp only [hok, if_true, ne_eq, reduceCtorEq, not_false_eq_true, List.filter_append,
    hpass1, hpass2]
  simp [hlist, hcheck, hwait]

theorem cycle_remote_all_ok (k : Constants) {q : QuotaEnv} (localRoot : CStr)
    (e : CycleEnv) (s : Mirror)
    (hmax : k.ARUTILS_FTP_MAX_PATH_SIZE < 18446744073709551616)
    (hok : ∀ i, e.outcome i = ARUTILS_OK)
    (hfit : ∀ name ∈ e.resultList, fits k (localInProgressPath k localRoot name))
    (p : CStr)
    (hp : (Mirror.afterCycle k q localRoot e s).remoteFiles p = true) :
    s.remoteFiles p = true ∧ ∀ n ∈ e.resultList, p ≠ remotePathOf n := by
  have hf : (fun name : CStr =>
      k.ARDATATRANSFER_MANAGER_DOWNLOADER_PREFIX_DOWNLOADING.isPrefixOf name)
      = fun name => decide (carriesMarker k name) := by
    funext name
    rw [Bool.eq_iff_iff, isPrefixOf_iff, decide_eq_true_iff]
  unfold Mirror.afterCycle cycle at hp
  simp only [hok, if_true, ne_eq, reduceCtorEq, not_false_eq_true] at hp
  rw [Mirror_run_snoc e _ (Op.ARSAL_Sem_Timedwait _) s,
    Mirror_run_snoc e _ (Op.ARDATATRANSFER_DataDownloader_CheckUsedMemory _ _) s] at hp
  replace hp : (Mirror.run k q e 0
      ((ARDATATRANSFER_Manager_List_GetNextItem e.resultList none).foldl
        (newerBody k localRoot e)
        ((ARDATATRANSFER_Manager_List_GetNextItem e.resultList
          (some k.ARDATATRANSFER_MANAGER_DOWNLOADER_PREFIX_DOWNLOADING)).foldl
          (resumeBody k localRoot e)
          [Op.ARUTILS_Ftp_List ARDATATRANSFER_DATA_DOWNLOADER_FTP_ROOT])) s).remoteFiles p
      = true := hp
  obtain ⟨hp1, hk2⟩ := foldl_remote_shrinks e s (newerBody k localRoot e)
    (fun n => ¬ carriesMarker k n)
    (ARDATATRANSFER_Manager_List_GetNextItem e.resultList none)
    (fun u n hn r hr => newerBody_remote k localRoot e s hmax hok u n (hfit n hn) r hr)
    _ p hp
  obtain ⟨hp0, hk1⟩ := foldl_remote_shrinks e s (resumeBody k localRoot e)
    (fun _ => True)
    (ARDATATRANSFER_Manager_List_GetNextItem e.resultList
      (some k.ARDATATRANSFER_MANAGER_DOWNLOADER_PREFIX_DOWNLOADING))
    (fun u n hn r hr => by
      unfold ARDATATRANSFER_Manager_List_GetNextItem at hn
      simp only [hf, List.mem_filter, decide_eq_true_iff] at hn
      have hfits := hfit n hn.1
      unfold localInProgressPath at hfits
      rw [if_pos hn.2] at hfits
      exact ⟨(resumeBody_remote k localRoot e s hmax hok u n hfits r hr).1,
        fun _ => (resumeBody_remote k localRoot e s hmax hok u n hfits r hr).2⟩)
    _ p hp1
  refine ⟨hp0, ?_⟩
  intro n hn
  by_cases hc : carriesMarker k n
  · apply hk1 n _ trivial
    unfold ARDATATRANSFER_Manager_List_GetNextItem
    simp only [hf, List.mem_filter, decide_eq_true_iff]
    exact ⟨hn, hc⟩
  · exact hk2 n hn hc

theorem cycle_empty_listing (k : Constants) (localRoot : CStr) (e : CycleEnv)
    (h : e.resultList = []) :
    cycle k localRoot e
      = [Op.ARUTILS_Ftp_List "data".toList]
        ++ (if e.outcome 0 = ARUTILS_ERROR_FTP_CANCELED then []
            else [Op.ARDATATRANSFER_DataDownloader_CheckUsedMemory
              (quotaLocalPath k localRoot) 20])
        ++ [Op.ARSAL_Sem_Timedwait 10] := by
  unfold cycle ARDATATRANSFER_Manager_List_GetNextItem
  simp only [h, List.filter_nil, List.foldl_nil, ite_self]
  by_cases hc : e.outcome 0 = ARUTILS_ERROR_FTP_CANCELED
  · simp [hc, ARDATATRANSFER_DATA_DOWNLOADER_FTP_ROOT,
      ARDATATRANSFER_DATA_DOWNLOADER_WAIT_TIME_IN_SECONDS]
  · simp [hc, ARDATATRANSFER_DATA_DOWNLOADER_FTP_ROOT,
      ARDATATRANSFER_DATA_DOWNLOADER_SPACE_PERCENT,
      ARDATATRANSFER_DATA_DOWNLOADER_WAIT_TIME_IN_SECONDS]


theorem afterCycle_empty_listing (k : Constants) (q : QuotaEnv) (localRoot : CStr)
    (e2 : CycleEnv) (s : Mirror) (h : e2.resultList = []) :
    (Mirror.afterCycle k q localRoot e2 s).remoteFiles = s.remoteFiles
      ∧ ∀ p, (Mirror.afterCycle k q localRoot e2 s).localFiles p = true
          ↔ s.localFiles p = true ∧ p ∉ quotaEvicted k q localRoot e2 := by
  unfold Mirror.afterCycle quotaEvicted
  rw [cycle_empty_listing k localRoot e2 h]
  by_cases hc : e2.outcome 0 = ARUTILS_ERROR_FTP_CANCELED
  · rw [if_pos hc, if_pos hc]
    refine ⟨rfl, fun p => ?_⟩
    show s.localFiles p = true ↔ _
    simp
  · rw [if_neg hc, if_neg hc]
    refine ⟨rfl, fun p => ?_⟩
    show (s.localFiles p
      && !decide (p ∈ (ARDATATRANSFER_DataDownloader_CheckUsedMemory k q ⟨0, 0, []⟩
        (quotaLocalPath k localRoot) 20).removed)) = true ↔ _
    simp [ARDATATRANSFER_DATA_DOWNLOADER_SPACE_PERCENT]

theorem further_cycles_effect (k : Constants) (localRoot : CStr)
    (es : List (CycleEnv × QuotaEnv)) :
    ∀ s : Mirror, (∀ c ∈ es, c.1.resultList = []) →
      (es.foldl (fun st c => Mirror.afterCycle k c.2 localRoot c.1 st) s).remoteFiles
          = s.remoteFiles
        ∧ ∀ p, (es.foldl (fun st c => Mirror.afterCycle k c.2 localRoot c.1 st)
              s).localFiles p = true
            ↔ s.localFiles p = true ∧ ∀ c ∈ es, p ∉ quotaEvicted k c.2 localRoot c.1 := by
  induction es with
  | nil => intro s _; simp
  | cons c es ih =>
    intro s hnil
    obtain ⟨hr, hl⟩ := afterCycle_empty_listing k c.2 localRoot c.1 s
      (hnil c (List.mem_cons_self c es))
    obtain ⟨ihr, ihl⟩ := ih (Mirror.afterCycle k c.2 localRoot c.1 s)
      (fun d hd => hnil d (List.mem_cons_of_mem c hd))
    rw [List.foldl_cons]
    refine ⟨ihr.trans hr, fun p => ?_⟩
    rw [ihl p, hl p, List.forall_mem_cons, and_assoc]

theorem Mirror_ext (s u : Mirror) (hr : s.remoteFiles = u.remoteFiles)
    (hl : ∀ p, s.localFiles p = true ↔ u.localFiles p = true) : s = u := by
  cases s with
  | mk sr sl =>
    cases u with
    | mk ur ul =>
      have hl2 : sl = ul := by
        funext p
        rw [Bool.eq_iff_iff]
        exact hl p
      cases hr
      cases hl2
      rfl

/-- C17, amended. Idempotent reconciliation, over the model in which the remote directory
and the local mirror are sets of paths. Take a cycle in which the list call and every
other call succeed, whose built paths fit the path buffer, and whose listing holds every
file of the remote directory. Then the gets of the cycle are exactly one per listed entry
(a resumable get of `data/<n>` for an entry carrying the marker, a non-resumable get of
`data/<marker><n>` for an entry without it), the remote deletes are exactly one per
listed entry, of the same remote paths, and after the cycle the remote directory holds no
file. Every sequence of further cycles whose listings hold only files of the remote
directory, whatever their outcomes and quota environments, makes in each cycle only the
list call, the quota check (unless the list call was cancelled) and the wait, so no get,
no remote delete, no remote rename and no local rename, and leaves the remote set as it
was. The local set changes only through the quota checks: a path is in it afterwards
exactly when it was in it and no quota check of these cycles removed it; so the two sets
are as they were when the quota checks remove nothing. -/
theorem reconciliation_idempotent (k : Constants) (q : QuotaEnv) (localRoot : CStr)
    (e : CycleEnv) (s : Mirror)
    (hmax : k.ARUTILS_FTP_MAX_PATH_SIZE < 18446744073709551616)
    (hok : ∀ i, e.outcome i = ARUTILS_OK)
    (hfit : ∀ name ∈ e.resultList, fits k (localInProgressPath k localRoot name))
    (hlisting : ∀ x, s.remoteFiles (remotePathOf x) = true → x ∈ e.resultList) :
    (cycle k localRoot e).filter Op.isGet
        = (e.resultList.filter fun name => decide (carriesMarker k name)).map
            (fun name => Op.ARUTILS_Ftp_Get ("data/".toList ++ name)
              (localRoot ++ "/data/".toList ++ name) true)
          ++ (e.resultList.filter fun name => !decide (carriesMarker k name)).map
            (fun name => Op.ARUTILS_Ftp_Get
              ("data/".toList ++ k.ARDATATRANSFER_MANAGER_DOWNLOADER_PREFIX_DOWNLOADING
                ++ name)
              (localRoot ++ "/data/".toList
                ++ k.ARDATATRANSFER_MANAGER_DOWNLOADER_PREFIX_DOWNLOADING ++ name) false)
      ∧ (cycle k localRoot e).filter Op.isRemoteDelete
        = (e.resultList.filter fun name => decide (carriesMarker k name)).map
            (fun name => Op.ARUTILS_Ftp_Delete ("data/".toList ++ name))
          ++ (e.resultList.filter fun name => !decide (carriesMarker k name)).map
            (fun name => Op.ARUTILS_Ftp_Delete
              ("data/".toList ++ k.ARDATATRANSFER_MANAGER_DOWNLOADER_PREFIX_DOWNLOADING
                ++ name))
      ∧ (∀ x, (Mirror.afterCycle k q localRoot e s).remoteFiles (remotePathOf x) = false)
      ∧ ∀ es : List (CycleEnv × QuotaEnv),
          (∀ c ∈ es, ∀ m ∈ c.1.resultList,
            (Mirror.afterCycle k q localRoot e s).remoteFiles (remotePathOf m) = true) →
          (∀ c ∈ es, cycle k localRoot c.1
              = [Op.ARUTILS_Ftp_List "data".toList]
                ++ (if c.1.outcome 0 = ARUTILS_ERROR_FTP_CANCELED then []
                    else [Op.ARDATATRANSFER_DataDownloader_CheckUsedMemory
                      (quotaLocalPath k localRoot) 20])
                ++ [Op.ARSAL_Sem_Timedwait 10])
            ∧ (es.foldl (fun st c => Mirror.afterCycle k c.2 localRoot c.1 st)
                (Mirror.afterCycle k q localRoot e s)).remoteFiles
              = (Mirror.afterCycle k q localRoot e s).remoteFiles
            ∧ (∀ p, (es.foldl (fun st c => Mirror.afterCycle k c.2 localRoot c.1 st)
                  (Mirror.afterCycle k q localRoot e s)).localFiles p = true
                ↔ (Mirror.afterCycle k q localRoot e s).localFiles p = true
                  ∧ ∀ c ∈ es, p ∉ quotaEvicted k c.2 localRoot c.1)
            ∧ ((∀ c ∈ es, quotaEvicted k c.2 localRoot c.1 = []) →
                es.foldl (fun st c => Mirror.afterCycle k c.2 localRoot c.1 st)
                    (Mirror.afterCycle k q localRoot e s)
                  = Mirror.afterCycle k q localRoot e s) := by
  have hempty : ∀ x, (Mirror.afterCycle k q localRoot e s).remoteFiles (remotePathOf x)
      = false := by
    intro x
    cases hx : (Mirror.afterCycle k q localRoot e s).remoteFiles (remotePathOf x) with
    | false => rfl
    | true =>
      obtain ⟨h0, h1⟩ := cycle_remote_all_ok k localRoot e s hmax hok hfit _ hx
      exact absurd rfl (h1 x (hlisting x h0))
  refine ⟨?_, ?_, hempty, fun es hes => ?_⟩
  · exact cycle_filter_all_ok k localRoot e hmax hok hfit Op.isGet _ _
      (fun _ => rfl) (fun _ _ => rfl) (fun _ => rfl) (fun _ => rfl) (fun _ => rfl)
  · exact cycle_filter_all_ok k localRoot e hmax hok hfit Op.isRemoteDelete _ _
      (fun _ => rfl) (fun _ _ => rfl) (fun _ => rfl) (fun _ => rfl) (fun _ => rfl)
  · have hnil : ∀ c ∈ es, c.1.resultList = [] := by
      intro c hc
      rw [List.eq_nil_iff_forall_not_mem]
      intro m hm
      have h := hes c hc m hm
      rw [hempty m] at h
      cases h
    obtain ⟨hr, hl⟩ := further_cycles_effect k localRoot es
      (Mirror.afterCycle k q localRoot e s) hnil
    refine ⟨fun c hc => cycle_empty_listing k localRoot c.1 (hnil c hc), hr, hl, ?_⟩
    intro hnone
    apply Mirror_ext _ _ hr
    intro p
    rw [hl p]
    constructor
    · exact fun h => h.1
    · intro h
      refine ⟨h, fun c hc => ?_⟩
      rw [hnone c hc]
      exact List.not_mem_nil p

/-- C17, amended, at the remote directory holding `data/a` and the listing `["a"]`, with
a quota check under budget: the one cycle makes one get and one remote delete, of
`data/downloading_a`, and empties the remote directory; further cycles make no transfer
call and change the local set only by what their quota checks remove. -/
theorem reconciliation_idempotent_witness :
    (cycle shipped "/sd".toList oneEntryOkEnv).filter Op.isGet
        = [Op.ARUTILS_Ftp_Get "data/downloading_a".toList
            "/sd/data/downloading_a".toList false]
      ∧ (cycle shipped "/sd".toList oneEntryOkEnv).filter Op.isRemoteDelete
        = [Op.ARUTILS_Ftp_Delete "data/downloading_a".toList]
      ∧ (∀ x, (Mirror.afterCycle shipped (underBudgetEnv "/sd/data/a".toList)
          "/sd".toList oneEntryOkEnv oneFreshFile).remoteFiles (remotePathOf x) = false)
      ∧ ∀ es : List (CycleEnv × QuotaEnv),
          (∀ c ∈ es, ∀ m ∈ c.1.resultList,
            (Mirror.afterCycle shipped (underBudgetEnv "/sd/data/a".toList)
              "/sd".toList oneEntryOkEnv oneFreshFile).remoteFiles (remotePathOf m)
              = true) →
          (∀ c ∈ es, cycle shipped "/sd".toList c.1
              = [Op.ARUTILS_Ftp_List "data".toList]
                ++ (if c.1.outcome 0 = ARUTILS_ERROR_FTP_CANCELED then []
                    else [Op.ARDATATRANSFER_DataDownloader_CheckUsedMemory
                      (quotaLocalPath shipped "/sd".toList) 20])
                ++ [Op.ARSAL_Sem_Timedwait 10])
            ∧ (es.foldl (fun st c => Mirror.afterCycle shipped c.2 "/sd".toList c.1 st)
                (Mirror.afterCycle shipped (underBudgetEnv "/sd/data/a".toList)
                  "/sd".toList oneEntryOkEnv oneFreshFile)).remoteFiles
              = (Mirror.afterCycle shipped (underBudgetEnv "/sd/data/a".toList)
                  "/sd".toList oneEntryOkEnv oneFreshFile).remoteFiles
            ∧ (∀ p, (es.foldl
                  (fun st c => Mirror.afterCycle shipped c.2 "/sd".toList c.1 st)
                  (Mirror.afterCycle shipped (underBudgetEnv "/sd/data/a".toList)
                    "/sd".toList oneEntryOkEnv oneFreshFile)).localFiles p = true
                ↔ (Mirror.afterCycle shipped (underBudgetEnv "/sd/data/a".toList)
                    "/sd".toList oneEntryOkEnv oneFreshFile).localFiles p = true
                  ∧ ∀ c ∈ es, p ∉ quotaEvicted shipped c.2 "/sd".toList c.1)
            ∧ ((∀ c ∈ es, quotaEvicted shipped c.2 "/sd".toList c.1 = []) →
                es.foldl (fun st c => Mirror.afterCycle shipped c.2 "/sd".toList c.1 st)
                    (Mirror.afterCycle shipped (underBudgetEnv "/sd/data/a".toList)
                      "/sd".toList oneEntryOkEnv oneFreshFile)
                  = Mirror.afterCycle shipped (underBudgetEnv "/sd/data/a".toList)
                      "/sd".toList oneEntryOkEnv oneFreshFile) :=
  reconciliation_idempotent shipped (underBudgetEnv "/sd/data/a".toList) "/sd".toList
    oneEntryOkEnv oneFreshFile (by decide)
    (fun _ => rfl) (by decide)
    (by
      intro x hx
      have hx2 : remotePathOf x = "data/a".toList := by
        simpa [oneFreshFile] using hx
      have hx3 : x = "a".toList := by
        unfold remotePathOf at hx2
        exact List.append_cancel_left hx2
      rw [hx3]
      exact List.mem_singleton.mpr rfl)

/-- C17 as stated fails. The first cycle, in which every call succeeds and the quota
check is under budget, fetches `a` and leaves the local mirror with `/sd/data/a` and the
remote directory without `data/a` and `data/downloading_a`. The next cycle has an empty
listing and no failure and makes no get, delete or rename; its quota check finds 100
bytes used against 10 allowed and removes `/sd/data/a`: the reconciled local name is
gone. -/
theorem quota_check_removes_reconciled_file :
    (Mirror.afterCycle shipped (underBudgetEnv "/sd/data/a".toList) "/sd".toList
        oneEntryOkEnv oneFreshFile).localFiles "/sd/data/a".toList = true
      ∧ (Mirror.afterCycle shipped (underBudgetEnv "/sd/data/a".toList) "/sd".toList
        oneEntryOkEnv oneFreshFile).remoteFiles "data/a".toList = false
      ∧ (Mirror.afterCycle shipped (underBudgetEnv "/sd/data/a".toList) "/sd".toList
        oneEntryOkEnv oneFreshFile).remoteFiles "data/downloading_a".toList = false
      ∧ emptyListingEnv.resultList = []
      ∧ (∀ i, emptyListingEnv.outcome i = ARUTILS_OK)
      ∧ cycle shipped "/sd".toList emptyListingEnv
        = [Op.ARUTILS_Ftp_List "data".toList,
           Op.ARDATATRANSFER_DataDownloader_CheckUsedMemory "/sd/data".toList 20,
           Op.ARSAL_Sem_Timedwait 10]
      ∧ ARDATATRANSFER_DataDownloader_CheckUsedMemory shipped fullDiskEnv ⟨0, 0, []⟩
          "/sd/data".toList 20
        = { result := ARDATATRANSFER_OK, walks := 2,
            dataFwt := ⟨0, 10, "/sd/data".toList⟩,
            removed := ["/sd/data/a".toList] }
      ∧ (Mirror.afterCycle shipped fullDiskEnv "/sd".toList emptyListingEnv
          (Mirror.afterCycle shipped (underBudgetEnv "/sd/data/a".toList) "/sd".toList
            oneEntryOkEnv oneFreshFile)).localFiles "/sd/data/a".toList = false := by
  refine ⟨?_, ?_, ?_, rfl, fun _ => rfl, ?_, ?_, ?_⟩
  · decide!
  · decide!
  · decide!
  · decide
  · decide!
  · decide!

/-! ## The eviction rule -/

theorem UsedMemoryCallback_sum (l : List FtwEntry) :
    ∀ w : WalkState,
      (l.foldl ARDATATRANSFER_DataDownloader_UsedMemoryCallback w).dataFwt
        = { w.dataFwt with sum := w.dataFwt.sum + specTotal l } := by
  induction l with
  | nil => intro w; simp [specTotal]
  | cons f l ih =>
    intro w
    rw [List.foldl_cons, ih]
    unfold ARDATATRANSFER_DataDownloader_UsedMemoryCallback
    by_cases hf : f.typeflag = FtwFlag.FTW_F
    · simp [hf, specTotal, List.filter_cons, add_assoc]
    · simp [hf, specTotal, List.filter_cons]

theorem RemoveDataCallback_evicts (k : Constants) (l : List FtwEntry) :
    ∀ w : WalkState,
      (l.foldl (ARDATATRANSFER_DataDownloader_RemoveDataCallback k) w).removed
        = w.removed
          ++ specEvicted (strstrEligible k) w.dataFwt.allowedSpace w.dataFwt.sum l := by
  induction l with
  | nil => intro w; simp [specEvicted]
  | cons f l ih =>
    intro w
    rw [List.foldl_cons, ih]
    unfold ARDATATRANSFER_DataDownloader_RemoveDataCallback
    by_cases hs : strstr f.fpath k.ARDATATRANSFER_MANAGER_DOWNLOADER_PREFIX_DOWNLOADING
        = none
    · by_cases hf : f.typeflag = FtwFlag.FTW_F
      · by_cases hgt : w.dataFwt.sum > w.dataFwt.allowedSpace
        · simp [hs, hf, hgt, specEvicted, strstrEligible]
        · simp [hs, hf, hgt, specEvicted, strstrEligible]
      · simp [hs, hf, specEvicted, strstrEligible]
    · simp [hs, specEvicted, strstrEligible]

/-- What the code hands to `ARUTILS_FileSystem_RemoveFile`: nothing when the free-space
query or the first walk fails or the first-walk total is at most the allowed space;
otherwise the eviction rule over the second walk, with the eligibility test of the code
(`strstr` on the whole path). -/
theorem CheckUsedMemory_removed_eq (k : Constants) (q : QuotaEnv)
    (dataFwt0 : ARDATATRANSFER_DataDownloader_Fwt_t) (localPath : CStr) (spacePercent : ℚ) :
    (ARDATATRANSFER_DataDownloader_CheckUsedMemory k q dataFwt0 localPath
        spacePercent).removed
      = if q.freeSpaceError = ARUTILS_OK ∧ q.walk1ResultSys = 0
            ∧ specTotal q.walk1 > (q.availableSpace * spacePercent) / 100 then
          specEvicted (strstrEligible k) ((q.availableSpace * spacePercent) / 100)
            (specTotal q.walk1) q.walk2
        else [] := by
  unfold ARDATATRANSFER_DataDownloader_CheckUsedMemory
  by_cases h1 : q.freeSpaceError = ARUTILS_OK
  · by_cases h2 : q.walk1ResultSys = 0
    · by_cases h3 : specTotal q.walk1 > (q.availableSpace * spacePercent) / 100
      · by_cases h4 : q.walk2ResultSys = 0
        · simp [h1, h2, h3, h4, UsedMemoryCallback_sum, UsedMemoryCallback_removed,
            RemoveDataCallback_evicts]
        · simp [h1, h2, h3, h4, UsedMemoryCallback_sum, UsedMemoryCallback_removed,
            RemoveDataCallback_evicts]
      · simp [h1, h2, h3, UsedMemoryCallback_sum, UsedMemoryCallback_removed]
    · simp [h1, h2, UsedMemoryCallback_removed]
  · simp [h1]

/-- C19 fails on the code. The tree holds the regular files `x_downloading_1` (60 bytes)
and `c` (10 bytes), visited in this order, against an allowed space of 20. Neither name
begins with the marker, so by the claim the running sum is 70 at `x_downloading_1`, which
is removed, and 10 at `c`, which is kept. The code passes over `x_downloading_1`, because
`strstr` finds the marker inside its path, neither removes it nor subtracts its size,
and then removes `c` at a running sum of 70, leaving 60 in the accumulator. -/
theorem eviction_order_broken_by_inner_marker :
    ARDATATRANSFER_DataDownloader_CheckUsedMemory shipped midMarkerEnv ⟨0, 0, []⟩
        "/sd/data".toList 20
        = { result := ARDATATRANSFER_OK, walks := 2,
            dataFwt := ⟨60, 20, "/sd/data".toList⟩,
            removed := ["/sd/data/c".toList] }
      ∧ specTotal midMarkerEnv.walk1 = 70
      ∧ specEvicted (specEligible shipped) 20 70 midMarkerEnv.walk2
        = ["/sd/data/x_downloading_1".toList]
      ∧ specEvicted (strstrEligible shipped) 20 70 midMarkerEnv.walk2
        = ["/sd/data/c".toList] := by
  refine ⟨?_, ?_, ?_, ?_⟩
  · decide!
  · decide!
  · decide!
  · decide!


/-- Why the amended C16 asks that no file carries the marker twice: with the remote files
`data/a` and `data/downloading_downloading_a` every logical name is in at most one
place; pass 1 fetches the second file and renames it locally to `downloading_a`, both
deletes of the cycle succeed, the remote rename of `a` fails; after the cycle the logical
name `a` is in two places, remote fresh and local in progress. -/
theorem double_marker_breaks_one_copy :
    atMostOneCopy shipped "/sd".toList doubleMarkerFiles
      ∧ cycle shipped "/sd".toList doubleMarkerEnv
        = [Op.ARUTILS_Ftp_List "data".toList,
           Op.ARUTILS_Ftp_Get "data/downloading_downloading_a".toList
             "/sd/data/downloading_downloading_a".toList true,
           Op.ARUTILS_Ftp_Delete "data/downloading_downloading_a".toList,
           Op.ARUTILS_FileSystem_Rename "/sd/data/downloading_downloading_a".toList
             "/sd/data/downloading_a".toList,
           Op.ARUTILS_Ftp_Rename "data/a".toList "data/downloading_a".toList,
           Op.ARDATATRANSFER_DataDownloader_CheckUsedMemory "/sd/data".toList 20,
           Op.ARSAL_Sem_Timedwait 10]
      ∧ places shipped "/sd".toList
          (Mirror.afterCycle shipped (underBudgetEnv "/sd/data/downloading_a".toList)
            "/sd".toList doubleMarkerEnv doubleMarkerFiles)
          "a".toList = 2 := by
  refine ⟨?_, by decide, by decide!⟩
  intro n
  unfold places
  rw [count_true_le_one]
  simp [doubleMarkerFiles, shipped]
  rintro (h | h) <;> rw [h] <;> decide

end ARDataTransfer
